import Mathlib

/-!
Group API of the HDF5 VOL front end (`src/hdf5/src/H5G.c`).

A shallow embedding of the public group functions of `H5G.c` and of its
package shutdown functions.  The file holds only the API layer: the identifier registry (`H5I`), the property-list engine
(`H5P`) and the VOL dispatch layer (`H5VL`) are called but not defined there.
They are embedded as follows.

* The identifier registry and the property lists are explicit state
  (`World.ids`, `World.plists`).
* Every call that goes through the VOL layer appends one `Event` to
  `World.trace`, holding its arguments and its result; what the connector
  answers is read from an `Env` of answer functions, each of which sees the
  whole world at the time of the call (its history included) and all
  arguments.
* `FUNC_ENTER_API` is taken to have succeeded (library and package
  initialised); the error stack is not part of the state.
* `HGOTO_ERROR (.., v, ..)` is `ret_value = v; goto done`, and
  `HDONE_ERROR (.., v, ..)` is `ret_value = v`.
* A failed `HDassert` ends the function without a result (`none`).
* The code that splits names is not in the file either; the name grammar of
  its header comment is embedded from the specification (section "Names").
-/

namespace H5G

/-! ## Scalars and constants of the headers -/

/-- Identifiers (`hid_t`, a signed 64-bit integer in C; no arithmetic is done on it here). -/
abbrev hid_t := Int

/-- Status values (`herr_t`): negative is failure. -/
abbrev herr_t := Int

/-- Three-valued booleans (`htri_t`). -/
abbrev htri_t := Int

/-- Backend objects: the `void *` a connector hands out, by address. -/
abbrev Obj := Nat

/-- Modelled from the spec: `FAIL` of `H5private.h`, the negative status sentinel. -/
def FAIL : herr_t := -1

/-- Modelled from the spec: `SUCCEED` of `H5private.h`, the non-negative status. -/
def SUCCEED : herr_t := 0

/-- Modelled from the spec: `H5I_INVALID_HID` of `H5Ipublic.h`, the invalid handle sentinel. -/
def H5I_INVALID_HID : hid_t := -1

/-- Modelled from the spec: `H5P_DEFAULT` of `H5Ppublic.h`, the reserved "default" list. -/
def H5P_DEFAULT : hid_t := 0

/-- Modelled from the spec: `TRUE` of `H5private.h` as an `htri_t`. -/
def TRUE : htri_t := 1

/-- Modelled from the spec: `H5_REQUEST_NULL` of `H5public.h`, the empty request slot. -/
def H5_REQUEST_NULL : Option Nat := none

/-- Modelled from the spec: name of the link-creation property embedded in a
group-creation list (`H5VL_PROP_GRP_LCPL_ID` of the VOL headers). -/
def H5VL_PROP_GRP_LCPL_ID : String := "group_lcpl_id"

/-- Modelled from the spec: identifier classes (`H5I_type_t` of `H5Ipublic.h`). -/
inductive H5I_type_t where
  | H5I_BADID
  | H5I_FILE
  | H5I_GROUP
  | H5I_DATATYPE
  | H5I_DATASPACE
  | H5I_DATASET
  | H5I_ATTR
  | H5I_GENPROP_LST
  deriving DecidableEq

export H5I_type_t (H5I_BADID H5I_FILE H5I_GROUP H5I_DATATYPE H5I_DATASPACE H5I_DATASET H5I_ATTR
  H5I_GENPROP_LST)

/-- Modelled from the spec: discriminant of a location parameter (`H5VL_loc_type_t`). -/
inductive H5VL_loc_type_t where
  | H5VL_OBJECT_BY_SELF
  | H5VL_OBJECT_BY_NAME
  | H5VL_OBJECT_BY_IDX
  deriving DecidableEq

export H5VL_loc_type_t (H5VL_OBJECT_BY_SELF H5VL_OBJECT_BY_NAME H5VL_OBJECT_BY_IDX)

/-- Modelled from the spec: the union `loc_data` of `H5VL_loc_params_t`.  `unset`
is the union of a stack variable none of whose members was assigned. -/
inductive H5VL_loc_data_t where
  | unset
  | loc_by_name (name : String) (lapl_id : hid_t)
  | loc_by_idx (name : String) (idx_type : Int) (order : Int) (n : Nat) (lapl_id : hid_t)
  deriving DecidableEq

/-- Modelled from the spec: location parameter (`H5VL_loc_params_t`). -/
structure H5VL_loc_params_t where
  obj_type : H5I_type_t
  type : H5VL_loc_type_t
  loc_data : H5VL_loc_data_t
  deriving DecidableEq

/-- Modelled from the spec: query kinds of connector `get` (`H5VL_group_get_t`). -/
inductive H5VL_group_get_t where
  | H5VL_GROUP_GET_GCPL
  | H5VL_GROUP_GET_INFO
  deriving DecidableEq

export H5VL_group_get_t (H5VL_GROUP_GET_GCPL H5VL_GROUP_GET_INFO)

/-- Modelled from the spec: operation kinds of connector `specific` (`H5VL_group_specific_t`). -/
inductive H5VL_group_specific_t where
  | H5VL_GROUP_FLUSH
  | H5VL_GROUP_REFRESH
  deriving DecidableEq

export H5VL_group_specific_t (H5VL_GROUP_FLUSH H5VL_GROUP_REFRESH)

/-- Modelled from the spec: the library classes of access lists handed to
`H5P_verify_apl_and_dxpl` (`H5P_CLS_GACC`, `H5P_CLS_LACC`). -/
inductive H5P_libclass_t where
  | H5P_CLS_GACC
  | H5P_CLS_LACC
  deriving DecidableEq

export H5P_libclass_t (H5P_CLS_GACC H5P_CLS_LACC)

/-- Modelled from the spec: connector binding (`H5VL_t`): the connector class, by
identity, and the connector's session context. -/
structure H5VL_t where
  vol_cls : Nat
  vol_id : hid_t
  deriving DecidableEq

/-- Modelled from the spec: payload of a handle (`H5VL_object_t`): a backend
object plus the connector binding used to create it. -/
structure H5VL_object_t where
  vol_obj : Obj
  vol_info : H5VL_t
  deriving DecidableEq

/-- The variable arguments of `H5VL_group_get`: the address of the result for
`H5VL_GROUP_GET_GCPL`, the location parameter and the `group_info` pointer for
`H5VL_GROUP_GET_INFO`. -/
inductive H5VL_get_args where
  | gcpl_out
  | get_info (loc_params : H5VL_loc_params_t) (group_info : Nat)
  deriving DecidableEq

/-- One call made through the VOL layer, with the arguments it was given and,
last, the value it returned. -/
inductive Event where
  | group_create (obj : Obj) (loc_params : H5VL_loc_params_t) (vol_cls : Nat)
      (name : Option String) (gcpl_id gapl_id dxpl_id : hid_t) (req : Option Nat)
      (ret : Option Obj)
  | group_open (obj : Obj) (loc_params : H5VL_loc_params_t) (vol_cls : Nat)
      (name : String) (gapl_id dxpl_id : hid_t) (req : Option Nat) (ret : Option Obj)
  | group_get (obj : Obj) (vol_cls : Nat) (get_type : H5VL_group_get_t)
      (dxpl_id : hid_t) (req : Option Nat) (args : H5VL_get_args) (ret : herr_t)
  | group_specific (obj : Obj) (vol_cls : Nat) (specific_type : H5VL_group_specific_t)
      (dxpl_id : hid_t) (req : Option Nat) (id : hid_t) (ret : herr_t)
  | group_close (obj : Obj) (vol_cls : Nat) (dxpl_id : hid_t) (req : Option Nat)
      (ret : herr_t)
  | free_object (o : H5VL_object_t) (ret : herr_t)
  | register_id (type : H5I_type_t) (obj : Obj) (vol_info : H5VL_t) (app_ref : Bool)
      (ret : hid_t)
  deriving DecidableEq

/-- Modelled from the spec: a registry entry (`H5I_id_info_t`): type class,
reference count and owned payload. -/
structure H5I_id_info_t where
  type : H5I_type_t
  count : Nat
  obj_ptr : H5VL_object_t
  deriving DecidableEq

/-- Modelled from the spec: a property list (`H5P_genplist_t`), an ordered
mapping of option name to value.  The class of a list is asked of
`Env.H5P_isa_class`. -/
abbrev H5P_genplist_t := List (String × hid_t)

/-- The state the group API works on.  `ids` is the registry of handles whose
payload is a VOL object, `plists` the registry of property lists, `trace` the
calls made through the VOL layer so far, oldest first; the last three fields
are the package variables of `H5G.c` and the reference count of the group
identifier class. -/
structure World where
  ids : List (hid_t × H5I_id_info_t)
  plists : List (hid_t × H5P_genplist_t)
  trace : List Event
  H5_PKG_INIT_VAR : Bool
  H5G_top_package_initialize_s : Bool
  group_type_refs : Nat
  deriving DecidableEq

/-- The parts of the library that `H5G.c` uses and does not define: global
identifiers and enumeration bounds of the headers, and the answers of the
property-list engine, of the registry allocator and of the connector.  Every
answer function is given the world at the time of the call and the arguments
of the call. -/
structure Env where
  /-- the library's transfer list `H5AC_ind_read_dxpl_id` -/
  H5AC_ind_read_dxpl_id : hid_t
  /-- the link-creation class `H5P_LINK_CREATE` -/
  H5P_LINK_CREATE : hid_t
  /-- the group-creation class `H5P_GROUP_CREATE` -/
  H5P_GROUP_CREATE : hid_t
  /-- the singleton default link-creation list -/
  H5P_LINK_CREATE_DEFAULT : hid_t
  /-- the singleton default group-creation list -/
  H5P_GROUP_CREATE_DEFAULT : hid_t
  /-- bounds of `H5_index_t` -/
  H5_INDEX_UNKNOWN : Int
  H5_INDEX_N : Int
  /-- bounds of `H5_iter_order_t` -/
  H5_ITER_UNKNOWN : Int
  H5_ITER_N : Int
  /-- answer of `H5P_isa_class (id, class)` -/
  H5P_isa_class : World → hid_t → hid_t → htri_t
  /-- answer of `H5P_verify_apl_and_dxpl (&apl, libclass, &dxpl, loc_id, is_collective)`:
  status, and the access list and transfer list it leaves behind -/
  H5P_verify_apl_and_dxpl :
    World → hid_t → H5P_libclass_t → hid_t → hid_t → Bool → herr_t × hid_t × hid_t
  /-- status of the allocation inside `H5VL_register_id`; negative is failure -/
  register_status : World → H5I_type_t → Obj → H5VL_t → Bool → herr_t
  /-- connector `create`; `none` is a null result -/
  group_create : World → Obj → H5VL_loc_params_t → Nat → Option String →
    hid_t → hid_t → hid_t → Option Nat → Option Obj
  /-- connector `open`; `none` is a null result -/
  group_open : World → Obj → H5VL_loc_params_t → Nat → String →
    hid_t → hid_t → Option Nat → Option Obj
  /-- connector `get`: status and, for `H5VL_GROUP_GET_GCPL`, the identifier
  left in the result slot -/
  group_get : World → Obj → Nat → H5VL_group_get_t → hid_t → Option Nat →
    H5VL_get_args → herr_t × hid_t
  /-- connector `specific` -/
  group_specific : World → Obj → Nat → H5VL_group_specific_t → hid_t → Option Nat →
    hid_t → herr_t
  /-- connector `close` -/
  group_close : World → Obj → Nat → hid_t → Option Nat → herr_t
  /-- status of `H5VL_free_object` -/
  free_object : World → H5VL_object_t → herr_t

/-! ## Registry and property lists -/

/-- First value stored under key `k` in an association list. -/
def assocFind {κ α : Type} [DecidableEq κ] (k : κ) : List (κ × α) → Option α
  | [] => none
  | (k', v) :: t => if k' = k then some v else assocFind k t

/-- Replace the value of every entry stored under key `k`. -/
def assocSet {κ α : Type} [DecidableEq κ] (k : κ) (v : α) : List (κ × α) → List (κ × α)
  | [] => []
  | (k', v') :: t => if k' = k then (k, v) :: assocSet k v t else (k', v') :: assocSet k v t

/-- Drop every entry stored under key `k`. -/
def assocRemove {κ α : Type} [DecidableEq κ] (k : κ) : List (κ × α) → List (κ × α)
  | [] => []
  | (k', v') :: t => if k' = k then assocRemove k t else (k', v') :: assocRemove k t

/-- Modelled from the spec: `H5I_object` for an identifier used as a location or
a group: the payload of the handle, `none` for an identifier the registry of
VOL objects does not hold. -/
def H5I_object (w : World) (id : hid_t) : Option H5VL_object_t :=
  (assocFind id w.ids).map (fun e => e.obj_ptr)

/-- Modelled from the spec: `verify (handle, expected_class)` (§4.1): lookup failing
if the handle is absent or of the wrong class. -/
def H5I_object_verify (w : World) (id : hid_t) (id_type : H5I_type_t) : Option H5VL_object_t :=
  match assocFind id w.ids with
  | none => none
  | some e => if e.type = id_type then some e.obj_ptr else none

/-- Modelled from the spec: `H5I_get_type`: the type class of a handle, `H5I_BADID`
for an identifier that no registry holds. -/
def H5I_get_type (w : World) (id : hid_t) : H5I_type_t :=
  match assocFind id w.ids with
  | some e => e.type
  | none => match assocFind id w.plists with
    | some _ => H5I_GENPROP_LST
    | none => H5I_BADID

/-- Modelled from the spec: `H5I_object` for an identifier used as a property
list.  The pointer it returns is represented by the identifier itself; the
result is the list it points to. -/
def H5I_object_plist (w : World) (id : hid_t) : Option H5P_genplist_t :=
  assocFind id w.plists

/-- Value of property `name` of the list `plist_id`, if both exist. -/
def H5P_peek (w : World) (plist_id : hid_t) (name : String) : Option hid_t :=
  match assocFind plist_id w.plists with
  | none => none
  | some pl => assocFind name pl

/-- Modelled from the spec: `H5P_set (plist, name, &value)`: overwrite, in the
list itself, the value of a property the list has.  The spec does not say
what a set on a list that lacks the property does; it fails here, as in the
library. -/
def H5P_set (w : World) (plist_id : hid_t) (name : String) (value : hid_t) : herr_t × World :=
  match assocFind plist_id w.plists with
  | none => (FAIL, w)
  | some pl =>
    match assocFind name pl with
    | none => (FAIL, w)
    | some _ =>
      (SUCCEED, { w with plists := assocSet plist_id (assocSet name value pl) w.plists })

/-- An identifier larger than every identifier in use. -/
def H5I_next_id (w : World) : hid_t :=
  ((w.ids.map Prod.fst ++ w.plists.map Prod.fst).foldl max 0) + 1

/-- Modelled from the spec: `register (class, payload)` (§4.1) as done by
`H5VL_register_id (type, obj, vol_info, app_ref)`: wrap the backend object and
the connector binding into a payload and enter it under a fresh identifier
with reference count one; a failed allocation returns its negative status and
leaves the registry alone. -/
def H5VL_register_id (env : Env) (w : World) (type : H5I_type_t) (obj : Obj)
    (vol_info : H5VL_t) (app_ref : Bool) : hid_t × World :=
  let st := env.register_status w type obj vol_info app_ref
  if st < 0 then
    (st, { w with trace := w.trace ++ [Event.register_id type obj vol_info app_ref st] })
  else
    let id := H5I_next_id w
    (id, { w with
            ids := (id, { type := type, count := 1,
                          obj_ptr := { vol_obj := obj, vol_info := vol_info } }) :: w.ids,
            trace := w.trace ++ [Event.register_id type obj vol_info app_ref id] })

/-- Modelled from the spec: `increment (handle)` (§4.1, `H5I_inc_ref`): the new
count, or `FAIL` for an absent handle. -/
def H5I_inc_ref (w : World) (id : hid_t) : Int × World :=
  match assocFind id w.ids with
  | none => (FAIL, w)
  | some e =>
    ((e.count + 1 : Nat), { w with ids := assocSet id { e with count := e.count + 1 } w.ids })

/-! ## Calls through the VOL layer -/

/-- The dispatch `H5VL_group_create`: one connector `create`. -/
def H5VL_group_create (env : Env) (w : World) (obj : Obj) (loc_params : H5VL_loc_params_t)
    (vol_cls : Nat) (name : Option String) (gcpl_id gapl_id dxpl_id : hid_t)
    (req : Option Nat) : Option Obj × World :=
  let ret := env.group_create w obj loc_params vol_cls name gcpl_id gapl_id dxpl_id req
  (ret, { w with trace := w.trace ++
      [Event.group_create obj loc_params vol_cls name gcpl_id gapl_id dxpl_id req ret] })

/-- The dispatch `H5VL_group_open`: one connector `open`. -/
def H5VL_group_open (env : Env) (w : World) (obj : Obj) (loc_params : H5VL_loc_params_t)
    (vol_cls : Nat) (name : String) (gapl_id dxpl_id : hid_t)
    (req : Option Nat) : Option Obj × World :=
  let ret := env.group_open w obj loc_params vol_cls name gapl_id dxpl_id req
  (ret, { w with trace := w.trace ++
      [Event.group_open obj loc_params vol_cls name gapl_id dxpl_id req ret] })

/-- The dispatch `H5VL_group_get`: one connector `get`; the second component of
the result is what the connector left in the result slot. -/
def H5VL_group_get (env : Env) (w : World) (obj : Obj) (vol_cls : Nat)
    (get_type : H5VL_group_get_t) (dxpl_id : hid_t) (req : Option Nat)
    (args : H5VL_get_args) : (herr_t × hid_t) × World :=
  let ret := env.group_get w obj vol_cls get_type dxpl_id req args
  (ret, { w with trace := w.trace ++
      [Event.group_get obj vol_cls get_type dxpl_id req args ret.1] })

/-- The dispatch `H5VL_group_specific`: one connector `specific`. -/
def H5VL_group_specific (env : Env) (w : World) (obj : Obj) (vol_cls : Nat)
    (specific_type : H5VL_group_specific_t) (dxpl_id : hid_t) (req : Option Nat)
    (id : hid_t) : herr_t × World :=
  let ret := env.group_specific w obj vol_cls specific_type dxpl_id req id
  (ret, { w with trace := w.trace ++
      [Event.group_specific obj vol_cls specific_type dxpl_id req id ret] })

/-- The dispatch `H5VL_group_close`: one connector `close`. -/
def H5VL_group_close (env : Env) (w : World) (obj : Obj) (vol_cls : Nat)
    (dxpl_id : hid_t) (req : Option Nat) : herr_t × World :=
  let ret := env.group_close w obj vol_cls dxpl_id req
  (ret, { w with trace := w.trace ++ [Event.group_close obj vol_cls dxpl_id req ret] })

/-- The call `H5VL_free_object`: release of the front-end object of a handle. -/
def H5VL_free_object (env : Env) (w : World) (o : H5VL_object_t) : herr_t × World :=
  let ret := env.free_object w o
  (ret, { w with trace := w.trace ++ [Event.free_object o ret] })

/-! ## The functions of `H5G.c` -/

/-- Class finalizer `H5G__close_group`: close the group through the VOL, then
free the front-end object. -/
def H5G__close_group (env : Env) (w : World) (grp : H5VL_object_t) : herr_t × World :=
  let (ret_value, w1) :=
    H5VL_group_close env w grp.vol_obj grp.vol_info.vol_cls env.H5AC_ind_read_dxpl_id
      H5_REQUEST_NULL
  if ret_value < 0 then (FAIL, w1)
  else
    let (st, w2) := H5VL_free_object env w1 grp
    if st < 0 then (FAIL, w2) else (ret_value, w2)

/-- Modelled from the spec: an identifier class (`H5I_class_t`): class value,
flags, number of reserved identifiers and the finalizer of the class. -/
structure H5I_class_t where
  type_id : H5I_type_t
  flags : Nat
  reserved : Nat
  free_func : World → H5VL_object_t → herr_t × World

/-- Group identifier class `H5I_GROUP_CLS`. -/
def H5I_GROUP_CLS (env : Env) : H5I_class_t :=
  { type_id := H5I_GROUP, flags := 0, reserved := 0, free_func := H5G__close_group env }

/-- Modelled from the spec: the classes registered with the registry.  `H5G.c`
registers `H5I_GROUP_CLS` for `H5I_GROUP`; the classes of the other packages
are not part of this development. -/
def H5I_id_type_list (env : Env) (t : H5I_type_t) : Option H5I_class_t :=
  if t = H5I_GROUP then some (H5I_GROUP_CLS env) else none

/-- Modelled from the spec: `decrement (handle)` (§4.1) as done by
`H5I_dec_app_ref`: the new count; when the count reaches zero the registry
invokes the class finalizer with the payload and then releases the entry
unconditionally, also when the finalizer reports failure, which is surfaced
as `FAIL`.  An absent handle is `FAIL`. -/
def H5I_dec_app_ref (cls : H5I_type_t → Option H5I_class_t) (w : World) (id : hid_t) :
    Int × World :=
  match assocFind id w.ids with
  | none => (FAIL, w)
  | some e =>
    if e.count ≤ 1 then
      match cls e.type with
      | none => (0, { w with ids := assocRemove id w.ids })
      | some c =>
        let (st, w1) := c.free_func w e.obj_ptr
        (if st < 0 then FAIL else 0, { w1 with ids := assocRemove id w1.ids })
    else
      ((e.count - 1 : Nat), { w with ids := assocSet id { e with count := e.count - 1 } w.ids })

/-- Local variables of `H5Gcreate2`, `H5Gcreate_anon` and `H5Gopen2` that are
live at the label `done`. -/
structure H5G_locals where
  ret_value : hid_t
  grp : Option Obj
  obj : Option H5VL_object_t
  dxpl_id : hid_t
  deriving DecidableEq

/-- The block after `done:` shared, letter for letter, by `H5Gcreate2`,
`H5Gcreate_anon` and `H5Gopen2`: when the call fails and a group was obtained
from the connector, close it; a failing close sets the result to
`H5I_INVALID_HID` again. -/
def H5G_done (env : Env) (l : H5G_locals) (w : World) : hid_t × World :=
  if H5I_INVALID_HID = l.ret_value then
    match l.grp, l.obj with
    | some grp, some obj =>
      let (st, w1) := H5VL_group_close env w grp obj.vol_info.vol_cls l.dxpl_id H5_REQUEST_NULL
      (if st < 0 then H5I_INVALID_HID else l.ret_value, w1)
    | _, _ => (l.ret_value, w)
  else (l.ret_value, w)

/-- Body of `H5Gcreate2` up to the label `done`. -/
def H5Gcreate2_body (env : Env) (w : World) (loc_id : hid_t) (name : Option String)
    (lcpl_id gcpl_id gapl_id : hid_t) : H5G_locals × World :=
  let dxpl_id : hid_t := H5I_INVALID_HID
  -- Check arguments
  match name with
  | none => ({ ret_value := H5I_INVALID_HID, grp := none, obj := none, dxpl_id := dxpl_id }, w)
  | some nm =>
  if nm = "" then
    ({ ret_value := H5I_INVALID_HID, grp := none, obj := none, dxpl_id := dxpl_id }, w)
  else
  -- Check link creation property list
  if H5P_DEFAULT ≠ lcpl_id ∧ TRUE ≠ env.H5P_isa_class w lcpl_id env.H5P_LINK_CREATE then
    ({ ret_value := H5I_INVALID_HID, grp := none, obj := none, dxpl_id := dxpl_id }, w)
  else
  let lcpl_id := if H5P_DEFAULT = lcpl_id then env.H5P_LINK_CREATE_DEFAULT else lcpl_id
  -- Check group creation property list
  if H5P_DEFAULT ≠ gcpl_id ∧ TRUE ≠ env.H5P_isa_class w gcpl_id env.H5P_GROUP_CREATE then
    ({ ret_value := H5I_INVALID_HID, grp := none, obj := none, dxpl_id := dxpl_id }, w)
  else
  let gcpl_id := if H5P_DEFAULT = gcpl_id then env.H5P_GROUP_CREATE_DEFAULT else gcpl_id
  -- Verify access property list and get correct dxpl
  let dxpl_id := env.H5AC_ind_read_dxpl_id
  let (st, gapl_id, dxpl_id) :=
    env.H5P_verify_apl_and_dxpl w gapl_id H5P_CLS_GACC dxpl_id loc_id true
  if st < 0 then
    ({ ret_value := H5I_INVALID_HID, grp := none, obj := none, dxpl_id := dxpl_id }, w)
  else
  -- Get the gcpl structure and set the link properties on it
  match H5I_object_plist w gcpl_id with
  | none => ({ ret_value := H5I_INVALID_HID, grp := none, obj := none, dxpl_id := dxpl_id }, w)
  | some _ =>
  let (st, w1) := H5P_set w gcpl_id H5VL_PROP_GRP_LCPL_ID lcpl_id
  if st < 0 then
    ({ ret_value := H5I_INVALID_HID, grp := none, obj := none, dxpl_id := dxpl_id }, w1)
  else
  -- get the location object
  match H5I_object w1 loc_id with
  | none => ({ ret_value := H5I_INVALID_HID, grp := none, obj := none, dxpl_id := dxpl_id }, w1)
  | some obj =>
  -- Set the location parameters
  let loc_params : H5VL_loc_params_t :=
    { type := H5VL_OBJECT_BY_SELF, obj_type := H5I_get_type w1 loc_id,
      loc_data := H5VL_loc_data_t.unset }
  -- Create the group through the VOL
  let (grp, w2) := H5VL_group_create env w1 obj.vol_obj loc_params obj.vol_info.vol_cls
    (some nm) gcpl_id gapl_id dxpl_id H5_REQUEST_NULL
  match grp with
  | none =>
    ({ ret_value := H5I_INVALID_HID, grp := none, obj := some obj, dxpl_id := dxpl_id }, w2)
  | some g =>
  -- Get an atom for the group
  let (ret_value, w3) := H5VL_register_id env w2 H5I_GROUP g obj.vol_info true
  if ret_value < 0 then
    ({ ret_value := H5I_INVALID_HID, grp := some g, obj := some obj, dxpl_id := dxpl_id }, w3)
  else
    ({ ret_value := ret_value, grp := some g, obj := some obj, dxpl_id := dxpl_id }, w3)

/-- The function `H5Gcreate2 (loc_id, name, lcpl_id, gcpl_id, gapl_id)`; a null
`name` is `none`. -/
def H5Gcreate2 (env : Env) (w : World) (loc_id : hid_t) (name : Option String)
    (lcpl_id gcpl_id gapl_id : hid_t) : hid_t × World :=
  let (l, w1) := H5Gcreate2_body env w loc_id name lcpl_id gcpl_id gapl_id
  H5G_done env l w1

/-- Body of `H5Gcreate_anon` up to the label `done`. -/
def H5Gcreate_anon_body (env : Env) (w : World) (loc_id gcpl_id gapl_id : hid_t) :
    H5G_locals × World :=
  let dxpl_id : hid_t := env.H5AC_ind_read_dxpl_id
  -- Check group creation property list
  if H5P_DEFAULT ≠ gcpl_id ∧ TRUE ≠ env.H5P_isa_class w gcpl_id env.H5P_GROUP_CREATE then
    ({ ret_value := H5I_INVALID_HID, grp := none, obj := none, dxpl_id := dxpl_id }, w)
  else
  let gcpl_id := if H5P_DEFAULT = gcpl_id then env.H5P_GROUP_CREATE_DEFAULT else gcpl_id
  -- Verify access property list and get correct dxpl
  let (st, gapl_id, dxpl_id) :=
    env.H5P_verify_apl_and_dxpl w gapl_id H5P_CLS_GACC dxpl_id loc_id true
  if st < 0 then
    ({ ret_value := H5I_INVALID_HID, grp := none, obj := none, dxpl_id := dxpl_id }, w)
  else
  -- Set location struct fields
  let loc_params : H5VL_loc_params_t :=
    { type := H5VL_OBJECT_BY_SELF, obj_type := H5I_get_type w loc_id,
      loc_data := H5VL_loc_data_t.unset }
  -- get the location object
  match H5I_object w loc_id with
  | none => ({ ret_value := H5I_INVALID_HID, grp := none, obj := none, dxpl_id := dxpl_id }, w)
  | some obj =>
  -- Create the group through the VOL
  let (grp, w2) := H5VL_group_create env w obj.vol_obj loc_params obj.vol_info.vol_cls
    none gcpl_id gapl_id dxpl_id H5_REQUEST_NULL
  match grp with
  | none =>
    ({ ret_value := H5I_INVALID_HID, grp := none, obj := some obj, dxpl_id := dxpl_id }, w2)
  | some g =>
  -- Get an atom for the group
  let (ret_value, w3) := H5VL_register_id env w2 H5I_GROUP g obj.vol_info true
  if ret_value < 0 then
    ({ ret_value := H5I_INVALID_HID, grp := some g, obj := some obj, dxpl_id := dxpl_id }, w3)
  else
    ({ ret_value := ret_value, grp := some g, obj := some obj, dxpl_id := dxpl_id }, w3)

/-- The function `H5Gcreate_anon (loc_id, gcpl_id, gapl_id)`. -/
def H5Gcreate_anon (env : Env) (w : World) (loc_id gcpl_id gapl_id : hid_t) : hid_t × World :=
  let (l, w1) := H5Gcreate_anon_body env w loc_id gcpl_id gapl_id
  H5G_done env l w1

/-- Body of `H5Gopen2` up to the label `done`. -/
def H5Gopen2_body (env : Env) (w : World) (loc_id : hid_t) (name : Option String)
    (gapl_id : hid_t) : H5G_locals × World :=
  let dxpl_id : hid_t := H5I_INVALID_HID
  -- Check args
  match name with
  | none => ({ ret_value := H5I_INVALID_HID, grp := none, obj := none, dxpl_id := dxpl_id }, w)
  | some nm =>
  if nm = "" then
    ({ ret_value := H5I_INVALID_HID, grp := none, obj := none, dxpl_id := dxpl_id }, w)
  else
  -- Verify access property list and get correct dxpl
  let dxpl_id := env.H5AC_ind_read_dxpl_id
  let (st, gapl_id, dxpl_id) :=
    env.H5P_verify_apl_and_dxpl w gapl_id H5P_CLS_GACC dxpl_id loc_id false
  if st < 0 then
    ({ ret_value := H5I_INVALID_HID, grp := none, obj := none, dxpl_id := dxpl_id }, w)
  else
  -- Get the location object
  match H5I_object w loc_id with
  | none => ({ ret_value := H5I_INVALID_HID, grp := none, obj := none, dxpl_id := dxpl_id }, w)
  | some obj =>
  -- Create the group through the VOL
  let loc_params : H5VL_loc_params_t :=
    { type := H5VL_OBJECT_BY_SELF, obj_type := H5I_get_type w loc_id,
      loc_data := H5VL_loc_data_t.unset }
  let (grp, w2) := H5VL_group_open env w obj.vol_obj loc_params obj.vol_info.vol_cls
    nm gapl_id dxpl_id H5_REQUEST_NULL
  match grp with
  | none =>
    ({ ret_value := H5I_INVALID_HID, grp := none, obj := some obj, dxpl_id := dxpl_id }, w2)
  | some g =>
  -- Get an atom for the group
  let (ret_value, w3) := H5VL_register_id env w2 H5I_GROUP g obj.vol_info true
  if ret_value < 0 then
    ({ ret_value := H5I_INVALID_HID, grp := some g, obj := some obj, dxpl_id := dxpl_id }, w3)
  else
    ({ ret_value := ret_value, grp := some g, obj := some obj, dxpl_id := dxpl_id }, w3)

/-- The function `H5Gopen2 (loc_id, name, gapl_id)`; a null `name` is `none`. -/
def H5Gopen2 (env : Env) (w : World) (loc_id : hid_t) (name : Option String)
    (gapl_id : hid_t) : hid_t × World :=
  let (l, w1) := H5Gopen2_body env w loc_id name gapl_id
  H5G_done env l w1

/-- The function `H5Gget_create_plist (group_id)`. -/
def H5Gget_create_plist (env : Env) (w : World) (group_id : hid_t) : hid_t × World :=
  -- Check args
  match H5I_object_verify w group_id H5I_GROUP with
  | none => (H5I_INVALID_HID, w)
  | some grp =>
  -- Get the group creation property list for the group
  let ((st, ret_value), w1) := H5VL_group_get env w grp.vol_obj grp.vol_info.vol_cls
    H5VL_GROUP_GET_GCPL env.H5AC_ind_read_dxpl_id H5_REQUEST_NULL H5VL_get_args.gcpl_out
  if st < 0 then (H5I_INVALID_HID, w1) else (ret_value, w1)

/-- The function `H5Gget_info (loc_id, group_info)`; a null `group_info` is `none`. -/
def H5Gget_info (env : Env) (w : World) (loc_id : hid_t) (group_info : Option Nat) :
    herr_t × World :=
  -- Check args
  let id_type := H5I_get_type w loc_id
  if ¬ (H5I_GROUP = id_type ∨ H5I_FILE = id_type) then (FAIL, w)
  else
  match group_info with
  | none => (FAIL, w)
  | some info =>
  -- get the location object
  match H5I_object w loc_id with
  | none => (FAIL, w)
  | some obj =>
  -- Get the group info through the VOL using the location token
  let loc_params : H5VL_loc_params_t :=
    { type := H5VL_OBJECT_BY_SELF, obj_type := id_type, loc_data := H5VL_loc_data_t.unset }
  let ((ret_value, _), w1) := H5VL_group_get env w obj.vol_obj obj.vol_info.vol_cls
    H5VL_GROUP_GET_INFO env.H5AC_ind_read_dxpl_id H5_REQUEST_NULL
    (H5VL_get_args.get_info loc_params info)
  if ret_value < 0 then (FAIL, w1) else (ret_value, w1)

/-- The function `H5Gget_info_by_name (loc_id, name, group_info, lapl_id)`; null
pointers are `none`. -/
def H5Gget_info_by_name (env : Env) (w : World) (loc_id : hid_t) (name : Option String)
    (group_info : Option Nat) (lapl_id : hid_t) : herr_t × World :=
  let dxpl_id : hid_t := env.H5AC_ind_read_dxpl_id
  -- Check args
  match name with
  | none => (FAIL, w)
  | some nm =>
  if nm = "" then (FAIL, w)
  else
  match group_info with
  | none => (FAIL, w)
  | some info =>
  -- Verify access property list and get correct dxpl
  let (st, lapl_id, dxpl_id) :=
    env.H5P_verify_apl_and_dxpl w lapl_id H5P_CLS_LACC dxpl_id loc_id false
  if st < 0 then (FAIL, w)
  else
  -- Get the location object
  match H5I_object w loc_id with
  | none => (FAIL, w)
  | some obj =>
  -- Set up location parameters
  let loc_params : H5VL_loc_params_t :=
    { type := H5VL_OBJECT_BY_NAME,
      loc_data := H5VL_loc_data_t.loc_by_name nm lapl_id,
      obj_type := H5I_get_type w loc_id }
  -- Get the group info through the VOL using the location token
  let ((ret_value, _), w1) := H5VL_group_get env w obj.vol_obj obj.vol_info.vol_cls
    H5VL_GROUP_GET_INFO dxpl_id H5_REQUEST_NULL (H5VL_get_args.get_info loc_params info)
  if ret_value < 0 then (FAIL, w1) else (ret_value, w1)

/-- The function `H5Gget_info_by_idx (loc_id, group_name, idx_type, order, n,
group_info, lapl_id)`; null pointers are `none`. -/
def H5Gget_info_by_idx (env : Env) (w : World) (loc_id : hid_t) (group_name : Option String)
    (idx_type : Int) (order : Int) (n : Nat) (group_info : Option Nat) (lapl_id : hid_t) :
    herr_t × World :=
  let dxpl_id : hid_t := env.H5AC_ind_read_dxpl_id
  -- Check args
  match group_name with
  | none => (FAIL, w)
  | some nm =>
  if nm = "" then (FAIL, w)
  else
  if idx_type ≤ env.H5_INDEX_UNKNOWN ∨ idx_type ≥ env.H5_INDEX_N then (FAIL, w)
  else
  if order ≤ env.H5_ITER_UNKNOWN ∨ order ≥ env.H5_ITER_N then (FAIL, w)
  else
  match group_info with
  | none => (FAIL, w)
  | some info =>
  -- Verify access property list and get correct dxpl
  let (st, lapl_id, dxpl_id) :=
    env.H5P_verify_apl_and_dxpl w lapl_id H5P_CLS_LACC dxpl_id loc_id false
  if st < 0 then (FAIL, w)
  else
  -- get the location object
  match H5I_object w loc_id with
  | none => (FAIL, w)
  | some obj =>
  -- Set location parameters
  let loc_params : H5VL_loc_params_t :=
    { type := H5VL_OBJECT_BY_IDX,
      loc_data := H5VL_loc_data_t.loc_by_idx nm idx_type order n lapl_id,
      obj_type := H5I_get_type w loc_id }
  -- Get the group info through the VOL using the location token
  let ((ret_value, _), w1) := H5VL_group_get env w obj.vol_obj obj.vol_info.vol_cls
    H5VL_GROUP_GET_INFO dxpl_id H5_REQUEST_NULL (H5VL_get_args.get_info loc_params info)
  if ret_value < 0 then (FAIL, w1) else (ret_value, w1)

/-- The function `H5Gclose (group_id)`. -/
def H5Gclose (env : Env) (w : World) (group_id : hid_t) : herr_t × World :=
  -- Check args
  match H5I_object_verify w group_id H5I_GROUP with
  | none => (FAIL, w)
  | some _ =>
  -- Decrement the counter on the group atom
  let (st, w1) := H5I_dec_app_ref (H5I_id_type_list env) w group_id
  if st < 0 then (FAIL, w1) else (SUCCEED, w1)

/-- The function `H5Gflush (group_id)`. -/
def H5Gflush (env : Env) (w : World) (group_id : hid_t) : herr_t × World :=
  -- Check args
  match H5I_object_verify w group_id H5I_GROUP with
  | none => (H5I_INVALID_HID, w)
  | some grp =>
  -- Flush object's metadata to file
  let (ret_value, w1) := H5VL_group_specific env w grp.vol_obj grp.vol_info.vol_cls
    H5VL_GROUP_FLUSH env.H5AC_ind_read_dxpl_id H5_REQUEST_NULL group_id
  if ret_value < 0 then (FAIL, w1) else (ret_value, w1)

/-- The function `H5Grefresh (group_id)`. -/
def H5Grefresh (env : Env) (w : World) (group_id : hid_t) : herr_t × World :=
  -- Check args
  match H5I_object_verify w group_id H5I_GROUP with
  | none => (H5I_INVALID_HID, w)
  | some grp =>
  -- Refresh object's metadata
  let (ret_value, w1) := H5VL_group_specific env w grp.vol_obj grp.vol_info.vol_cls
    H5VL_GROUP_REFRESH env.H5AC_ind_read_dxpl_id H5_REQUEST_NULL group_id
  if ret_value < 0 then (FAIL, w1) else (ret_value, w1)

/-! ## Observations on traces and iterated calls -/

/-- Number of connector `close` calls in a trace. -/
def closeCount : List Event → Nat
  | [] => 0
  | Event.group_close _ _ _ _ _ :: t => closeCount t + 1
  | _ :: t => closeCount t

/-- Number of `H5VL_free_object` calls in a trace. -/
def freeCount : List Event → Nat
  | [] => 0
  | Event.free_object _ _ :: t => freeCount t + 1
  | _ :: t => freeCount t

/-- World after `k` successive `H5Iinc_ref`-style increments of `id`. -/
def incN (w : World) (id : hid_t) : Nat → World
  | 0 => w
  | k + 1 => (H5I_inc_ref (incN w id k) id).2

/-- World after `k` successive `H5Gclose (id)` calls. -/
def closeN (env : Env) (w : World) (id : hid_t) : Nat → World
  | 0 => w
  | k + 1 => (H5Gclose env (closeN env w id k) id).2

/-- Reference count of `id`, zero for an absent handle. -/
def refCount (w : World) (id : hid_t) : Nat :=
  match assocFind id w.ids with
  | none => 0
  | some e => e.count

/-! ## Concrete environments and worlds -/

/-- An environment with the enumeration bounds of the public headers, three
property lists (the two defaults `201`, `202` and a link-creation list `77`)
and a connector all of whose operations succeed. -/
def env0 : Env :=
  { H5AC_ind_read_dxpl_id := 900
    H5P_LINK_CREATE := 101
    H5P_GROUP_CREATE := 102
    H5P_LINK_CREATE_DEFAULT := 201
    H5P_GROUP_CREATE_DEFAULT := 202
    H5_INDEX_UNKNOWN := -1
    H5_INDEX_N := 2
    H5_ITER_UNKNOWN := -1
    H5_ITER_N := 3
    H5P_isa_class := fun _ id cls =>
      if (id = 201 ∨ id = 77) ∧ cls = 101 then 1 else if id = 202 ∧ cls = 102 then 1 else 0
    H5P_verify_apl_and_dxpl := fun _ apl _ dxpl _ _ => (0, if apl = 0 then 203 else apl, dxpl)
    register_status := fun _ _ _ _ _ => 0
    group_create := fun _ _ _ _ _ _ _ _ _ => some 500
    group_open := fun _ _ _ _ _ _ _ _ => some 501
    group_get := fun _ _ _ _ _ _ _ => (0, 300)
    group_specific := fun _ _ _ _ _ _ _ => 0
    group_close := fun _ _ _ _ _ => 0
    free_object := fun _ _ => 0 }

/-- As `env0`, with a registry that cannot allocate. -/
def envRegFail : Env := { env0 with register_status := fun _ _ _ _ _ => -1 }

/-- As `env0`, with a connector whose `close` fails. -/
def envCloseFail : Env := { env0 with group_close := fun _ _ _ _ _ => -1 }

/-- A world with a file handle `1`, a group handle `2` and the three property
lists of `env0`; the default group-creation list embeds the default
link-creation list. -/
def w0 : World :=
  { ids := [(1, { type := H5I_FILE, count := 1,
                  obj_ptr := { vol_obj := 10, vol_info := { vol_cls := 7, vol_id := 70 } } }),
            (2, { type := H5I_GROUP, count := 1,
                  obj_ptr := { vol_obj := 20, vol_info := { vol_cls := 7, vol_id := 70 } } })]
    plists := [(201, []), (202, [("group_lcpl_id", 201)]), (77, [])]
    trace := []
    H5_PKG_INIT_VAR := true
    H5G_top_package_initialize_s := true
    group_type_refs := 1 }

/-! ## Predicates used in the statements -/

/-- The backend object a connector `create` or `open` call returned, with the
connector class the call was dispatched to; `none` for any other event and
for a call that returned null. -/
def Event.acquired : Event → Option (Obj × Nat)
  | Event.group_create _ _ vol_cls _ _ _ _ _ (some g) => some (g, vol_cls)
  | Event.group_open _ _ vol_cls _ _ _ _ (some g) => some (g, vol_cls)
  | _ => none

/-- Cleanup discipline of a create or open call made in world `w` on location
`loc_id` with result `r`.  The events `new` the call appended to the trace are
either exactly: a connector `create`/`open` that returned an object `g`, a
registration of `g` that failed, and one connector `close` of `g` with the
connector class of the location, the call returning `H5I_INVALID_HID`; or
they hold no connector `close` and no failed registration at all. -/
def ClosedOnceOnRegisterFailure (w : World) (loc_id : hid_t) (r : hid_t × World) : Prop :=
  ∃ new, r.2.trace = w.trace ++ new ∧
    ((∃ obj e g rv dxpl st, H5I_object w loc_id = some obj ∧
        e.acquired = some (g, obj.vol_info.vol_cls) ∧ rv < 0 ∧
        new = [e, Event.register_id H5I_GROUP g obj.vol_info true rv,
               Event.group_close g obj.vol_info.vol_cls dxpl H5_REQUEST_NULL st] ∧
        closeCount new = 1 ∧ r.1 = H5I_INVALID_HID) ∨
     (closeCount new = 0 ∧ ∀ t o vi a rv, Event.register_id t o vi a rv ∈ new → 0 ≤ rv))

/-- Registration discipline of a create or open call made in world `w` on
location `loc_id` with result `r`.  When `r.1` is not `H5I_INVALID_HID`, the
call appended exactly a connector `create`/`open` that returned an object `g`
and a registration in the group class of `g` with the binding of the location
whose result is `r.1`, and the registry gained exactly the entry `r.1` with
that payload; when `r.1` is `H5I_INVALID_HID` the registry is as it was. -/
def RegisteredFromDispatch (w : World) (loc_id : hid_t) (r : hid_t × World) : Prop :=
  (r.1 ≠ H5I_INVALID_HID →
    ∃ obj e g, H5I_object w loc_id = some obj ∧
      e.acquired = some (g, obj.vol_info.vol_cls) ∧
      r.2.trace = w.trace ++ [e, Event.register_id H5I_GROUP g obj.vol_info true r.1] ∧
      r.2.ids = (r.1, { type := H5I_GROUP, count := 1,
                        obj_ptr := { vol_obj := g, vol_info := obj.vol_info } }) :: w.ids ∧
      H5I_object_verify r.2 r.1 H5I_GROUP
        = some { vol_obj := g, vol_info := obj.vol_info }) ∧
  (r.1 = H5I_INVALID_HID → r.2.ids = w.ids)

/-- Holds of the result `r` of a create or open call made in world `w` when a
failed registration among the events the call appended forces the result
`H5I_INVALID_HID`, the events being the connector call, the failed
registration and one cleanup `close` whose status `st` is unconstrained. -/
def CleanupStatusIgnored (w : World) (r : hid_t × World) : Prop :=
  ∀ new, r.2.trace = w.trace ++ new →
    (∃ t o vi a rv, rv < 0 ∧ Event.register_id t o vi a rv ∈ new) →
    r.1 = H5I_INVALID_HID ∧
    ∃ e g vi rv dxpl st,
      new = [e, Event.register_id H5I_GROUP g vi true rv,
             Event.group_close g vi.vol_cls dxpl H5_REQUEST_NULL st]

/-- As `env0`, with a connector whose `create` fails. -/
def envCreateFail : Env := { env0 with group_create := fun _ _ _ _ _ _ _ _ _ => none }

/-- As `envRegFail`, with a connector whose `close` fails too. -/
def envRegCloseFail : Env := { envRegFail with group_close := fun _ _ _ _ _ => -1 }

/-! ## Package shutdown -/

/-- Modelled from the spec: `H5I_nmembers`, the number of live handles of a class. -/
def H5I_nmembers (w : World) (type : H5I_type_t) : Int :=
  ((w.ids.filter (fun p => decide (p.2.type = type))).length : Nat)

/-- Modelled from the spec: the pass of the registry's clear over the entries,
in registry order: the entries kept and the world after the finalizers that
ran.  With `force` every handle of the class is finalized and released (the
forcible clear of §4.1, the only one the spec describes); a clear without
`force` follows the library: a handle that is referenced more than once is
left alone, and a handle whose finalizer fails is kept. -/
def H5I_clear_loop (cls : H5I_type_t → Option H5I_class_t) (type : H5I_type_t)
    (force : Bool) :
    List (hid_t × H5I_id_info_t) → World → List (hid_t × H5I_id_info_t) × World
  | [], w => ([], w)
  | (id, e) :: t, w =>
    if e.type = type ∧ (force = true ∨ e.count ≤ 1) then
      match cls type with
      | none => H5I_clear_loop cls type force t w
      | some c =>
        if (c.free_func w e.obj_ptr).1 < 0 ∧ force = false then
          ((id, e) :: (H5I_clear_loop cls type force t (c.free_func w e.obj_ptr).2).1,
           (H5I_clear_loop cls type force t (c.free_func w e.obj_ptr).2).2)
        else H5I_clear_loop cls type force t (c.free_func w e.obj_ptr).2
    else
      ((id, e) :: (H5I_clear_loop cls type force t w).1,
       (H5I_clear_loop cls type force t w).2)

/-- Modelled from the spec: the registry's clear of a class,
`H5I_clear_type (type, force, app_ref)`, not under src/.  `app_ref` tells
which references count; the registry of this development keeps one count per
handle, so it does not enter. -/
def H5I_clear_type (cls : H5I_type_t → Option H5I_class_t) (w : World) (type : H5I_type_t)
    (force : Bool) (_app_ref : Bool) : herr_t × World :=
  (SUCCEED,
    { (H5I_clear_loop cls type force w.ids w).2 with
      ids := (H5I_clear_loop cls type force w.ids w).1 })

/-- Modelled from the spec: the release of the class itself in the "terminate"
phase (`H5I_dec_type_ref`): the remaining number of references of the group
class, which is destroyed with whatever handles it still has when that number
reaches zero; `FAIL` for a class that is not registered. -/
def H5I_dec_type_ref (cls : H5I_type_t → Option H5I_class_t) (w : World)
    (type : H5I_type_t) : Int × World :=
  if w.group_type_refs = 0 then (FAIL, w)
  else if w.group_type_refs = 1 then
    (0, { (H5I_clear_type cls w type true false).2 with group_type_refs := 0 })
  else
    ((w.group_type_refs - 1 : Nat), { w with group_type_refs := w.group_type_refs - 1 })

/-- The function `H5G_top_term_package`, the "drain" phase. -/
def H5G_top_term_package (env : Env) (w : World) : Int × World :=
  let n : Int := 0
  if w.H5G_top_package_initialize_s then
    let (n, w1) :=
      if H5I_nmembers w H5I_GROUP > 0 then
        (n + 1, (H5I_clear_type (H5I_id_type_list env) w H5I_GROUP false false).2)
      else (n, w)
    -- Mark closed
    if 0 = n then (n, { w1 with H5G_top_package_initialize_s := false }) else (n, w1)
  else (n, w)

/-- The function `H5G_term_package`, the "terminate" phase; `none` is a failed
`HDassert`. -/
def H5G_term_package (env : Env) (w : World) : Option (Int × World) :=
  let n : Int := 0
  if w.H5_PKG_INIT_VAR then
    -- Sanity checks
    if ¬ (0 = H5I_nmembers w H5I_GROUP) then none
    else if ¬ (false = w.H5G_top_package_initialize_s) then none
    else
      -- Destroy the group object id group
      let (r, w1) := H5I_dec_type_ref (H5I_id_type_list env) w H5I_GROUP
      let n := n + (if r > 0 then 1 else 0)
      -- Mark closed
      if 0 = n then some (n, { w1 with H5_PKG_INIT_VAR := false }) else some (n, w1)
  else some (n, w)

/-! ## Names -/

/-- Modelled from the spec: the scan of the name resolver (§4.2; the traversal
code that splits names is not under src/).  A name is a sequence of components
separated by `/`; the result is the component in progress at the front of the
name and the components after it.  A separator closes the component in
progress, and nothing is closed when none is in progress, so that consecutive
separators act as one and a trailing separator is ignored. -/
def H5G_scan : List Char → List Char × List (List Char)
  | [] => ([], [])
  | c :: cs =>
    if c = '/' then
      ([], if (H5G_scan cs).1 = [] then (H5G_scan cs).2
           else (H5G_scan cs).1 :: (H5G_scan cs).2)
    else (c :: (H5G_scan cs).1, (H5G_scan cs).2)

/-- Modelled from the spec: the components of a name (§4.2). -/
def H5G_components (s : List Char) : List (List Char) :=
  if (H5G_scan s).1 = [] then (H5G_scan s).2 else (H5G_scan s).1 :: (H5G_scan s).2

/-- Modelled from the spec: what the resolver makes of a name: its class
(absolute or relative) and its components. -/
structure H5G_name_t where
  absolute : Bool
  components : List (List Char)
  deriving DecidableEq

/-- Modelled from the spec: the name resolver (§4.2): a leading `/` makes the
name absolute, otherwise it is relative to the starting location; the
resolver only classifies and splits the string. -/
def H5G_resolve_name (s : List Char) : H5G_name_t :=
  { absolute := decide (s.head? = some '/'), components := H5G_components s }

/-- Modelled from the spec: where a resolved name points before any traversal
(§4.2, §6): the root, the starting location itself, or a descent along
components from the root (absolute) or from the starting location. -/
inductive H5G_target where
  | root
  | start
  | descent (absolute : Bool) (components : List (List Char))
  deriving DecidableEq

/-- Modelled from the spec: `/` alone denotes the root and `.` the starting
location itself (§4.2). -/
def H5G_name_target (r : H5G_name_t) : H5G_target :=
  if r.absolute = true ∧ r.components = [] then H5G_target.root
  else if r.absolute = false ∧ r.components = [['.']] then H5G_target.start
  else H5G_target.descent r.absolute r.components

/-- Spec wording of §8, first step: collapse repeated separators (a separator
followed by a separator is dropped). -/
def collapseSeparators : List Char → List Char
  | [] => []
  | c :: cs =>
    if c = '/' ∧ cs.head? = some '/' then collapseSeparators cs
    else c :: collapseSeparators cs

/-- Spec wording of §8, second step: drop a trailing separator. -/
def dropTrailingSeparator : List Char → List Char
  | [] => []
  | c :: cs => if cs = [] then (if c = '/' then [] else [c]) else c :: dropTrailingSeparator cs

/-- The leading separator of an absolute name is its class mark, not a
boundary between components. -/
def dropLeadingSeparator : List Char → List Char
  | [] => []
  | c :: cs => if c = '/' then cs else c :: cs

/-- Spec wording of §8, third step: split on `/` (`k` separators give `k + 1`
pieces). -/
def splitOnSeparator : List Char → List (List Char)
  | [] => [[]]
  | c :: cs =>
    if c = '/' then [] :: splitOnSeparator cs
    else (c :: (splitOnSeparator cs).headD []) :: (splitOnSeparator cs).tail

/-- Spec wording of §8 (the name-grammar property): collapse repeated
separators, drop a trailing separator, split on `/`; a name with nothing left
has no component. -/
def specComponents (s : List Char) : List (List Char) :=
  if dropLeadingSeparator (dropTrailingSeparator (collapseSeparators s)) = [] then []
  else splitOnSeparator (dropLeadingSeparator (dropTrailingSeparator (collapseSeparators s)))

/-- A run of `k` separators. -/
def slashes (k : Nat) : List Char := List.replicate k '/'

/-- Components written one after the other, each followed by its run of
separators. -/
def buildBody : List (List Char × Nat) → List Char
  | [] => []
  | (c, k) :: ps => c ++ (slashes k ++ buildBody ps)

/-- A string built from components joined by separators: `lead` leading
separators, then each component followed by the number of separators given
with it. -/
def buildName (lead : Nat) (ps : List (List Char × Nat)) : List Char :=
  slashes lead ++ buildBody ps

/-- The pieces of a built name are well formed when every component is
non-empty and free of `/` and every component but the last is followed by one
or more separators (the last may be followed by any number, none included). -/
def WellFormedPieces : List (List Char × Nat) → Prop
  | [] => True
  | [(c, _)] => c ≠ [] ∧ '/' ∉ c
  | (c, k) :: p :: ps => c ≠ [] ∧ '/' ∉ c ∧ 1 ≤ k ∧ WellFormedPieces (p :: ps)

/-- Components joined by single separators. -/
def joinComponents : List (List Char) → List Char
  | [] => []
  | [c] => c
  | c :: d :: r => c ++ '/' :: joinComponents (d :: r)

/-! ## Lemmas on association lists -/

theorem assocFind_assocSet_self {κ α : Type} [DecidableEq κ] (k : κ) (v : α)
    (l : List (κ × α)) :
    assocFind k (assocSet k v l) = (assocFind k l).map (fun _ => v) := by
  induction l with
  | nil => rfl
  | cons p t ih =>
    obtain ⟨k', v'⟩ := p
    by_cases hk : k' = k
    · simp [assocFind, assocSet, hk]
    · simp [assocFind, assocSet, hk, ih]

theorem assocFind_assocSet_other {κ α : Type} [DecidableEq κ] (k k2 : κ) (v : α)
    (l : List (κ × α)) (h : k2 ≠ k) :
    assocFind k2 (assocSet k v l) = assocFind k2 l := by
  induction l with
  | nil => rfl
  | cons p t ih =>
    obtain ⟨k', v'⟩ := p
    by_cases hk : k' = k
    · have hk2 : ¬ k = k2 := fun e => h e.symm
      have hk3 : ¬ k' = k2 := fun e => h (e.symm.trans hk)
      simp [assocFind, assocSet, hk, hk2, ih]
    · by_cases hk2 : k' = k2
      · subst hk2
        simp [assocFind, assocSet, hk]
      · simp [assocFind, assocSet, hk, hk2, ih]

theorem assocSet_keys {κ α : Type} [DecidableEq κ] (k : κ) (v : α) (l : List (κ × α)) :
    (assocSet k v l).map Prod.fst = l.map Prod.fst := by
  induction l with
  | nil => rfl
  | cons p t ih =>
    obtain ⟨k', v'⟩ := p
    by_cases hk : k' = k
    · simp [assocSet, hk, ih]
    · simp [assocSet, hk, ih]

theorem assocFind_assocRemove_self {κ α : Type} [DecidableEq κ] (k : κ) (l : List (κ × α)) :
    assocFind k (assocRemove k l) = none := by
  induction l with
  | nil => rfl
  | cons p t ih =>
    obtain ⟨k', v'⟩ := p
    by_cases hk : k' = k
    · simp [assocRemove, hk, ih]
    · simp [assocRemove, hk, assocFind, ih]

/-! ## Argument validation (C1, C5, C6, C9) -/

/-- C1: `H5Gcreate2`, `H5Gopen2`, `H5Gget_info_by_name` and `H5Gget_info_by_idx`
called with a null or an empty name return the failure sentinel and leave the
world as it was: no call through the VOL layer, no handle registered, no
property list modified, whatever the location and the property lists. -/
theorem C1_null_or_empty_name_rejected (env : Env) (w : World)
    (loc_id lcpl_id gcpl_id gapl_id lapl_id : hid_t) (idx_type order : Int) (n : Nat)
    (group_info : Option Nat) (name : Option String)
    (h : name = none ∨ name = some "") :
    H5Gcreate2 env w loc_id name lcpl_id gcpl_id gapl_id = (H5I_INVALID_HID, w) ∧
    H5Gopen2 env w loc_id name gapl_id = (H5I_INVALID_HID, w) ∧
    H5Gget_info_by_name env w loc_id name group_info lapl_id = (FAIL, w) ∧
    H5Gget_info_by_idx env w loc_id name idx_type order n group_info lapl_id = (FAIL, w) := by
  rcases h with h | h <;> subst h <;>
    simp [H5Gcreate2, H5Gcreate2_body, H5Gopen2, H5Gopen2_body, H5G_done,
      H5Gget_info_by_name, H5Gget_info_by_idx]

/-- C1 at the empty name, on the file handle of `w0`. -/
theorem C1_null_or_empty_name_rejected_witness :
    H5Gcreate2 env0 w0 1 (some "") 77 0 0 = (H5I_INVALID_HID, w0) ∧
    H5Gopen2 env0 w0 1 (some "") 0 = (H5I_INVALID_HID, w0) ∧
    H5Gget_info_by_name env0 w0 1 (some "") (some 5) 0 = (FAIL, w0) ∧
    H5Gget_info_by_idx env0 w0 1 (some "") 0 0 0 (some 5) 0 = (FAIL, w0) :=
  C1_null_or_empty_name_rejected env0 w0 1 77 0 0 0 0 0 0 (some 5) (some "") (Or.inr rfl)

/-- C5: `H5Gcreate2` given a non-default link-creation list that is not of the
link-creation class or a non-default group-creation list that is not of the
group-creation class, and `H5Gcreate_anon` given a non-default group-creation
list that is not of the group-creation class, return `H5I_INVALID_HID` and
leave the world as it was: no connector call, no property set, no handle. -/
theorem C5_wrong_class_list_rejected (env : Env) (w : World) (loc_id : hid_t)
    (name : Option String) (lcpl_id gcpl_id gapl_id : hid_t) :
    ((H5P_DEFAULT ≠ lcpl_id ∧ env.H5P_isa_class w lcpl_id env.H5P_LINK_CREATE ≠ TRUE) ∨
      (H5P_DEFAULT ≠ gcpl_id ∧ env.H5P_isa_class w gcpl_id env.H5P_GROUP_CREATE ≠ TRUE) →
      H5Gcreate2 env w loc_id name lcpl_id gcpl_id gapl_id = (H5I_INVALID_HID, w)) ∧
    (H5P_DEFAULT ≠ gcpl_id ∧ env.H5P_isa_class w gcpl_id env.H5P_GROUP_CREATE ≠ TRUE →
      H5Gcreate_anon env w loc_id gcpl_id gapl_id = (H5I_INVALID_HID, w)) := by
  refine ⟨fun h => ?_, fun h => ?_⟩
  · cases name with
    | none => simp [H5Gcreate2, H5Gcreate2_body, H5G_done]
    | some nm =>
      by_cases hnm : nm = ""
      · simp [H5Gcreate2, H5Gcreate2_body, H5G_done, hnm]
      · rcases h with ⟨h1, h2⟩ | ⟨h1, h2⟩
        · have h2' : ¬ TRUE = env.H5P_isa_class w lcpl_id env.H5P_LINK_CREATE :=
            fun e => h2 e.symm
          simp [H5Gcreate2, H5Gcreate2_body, H5G_done, hnm, h1, h2']
        · have h2' : ¬ TRUE = env.H5P_isa_class w gcpl_id env.H5P_GROUP_CREATE :=
            fun e => h2 e.symm
          by_cases hl : H5P_DEFAULT ≠ lcpl_id ∧
              TRUE ≠ env.H5P_isa_class w lcpl_id env.H5P_LINK_CREATE
          · simp [H5Gcreate2, H5Gcreate2_body, H5G_done, hnm, hl]
          · simp [H5Gcreate2, H5Gcreate2_body, H5G_done, hnm, hl, h1, h2']
  · obtain ⟨h1, h2⟩ := h
    have h2' : ¬ TRUE = env.H5P_isa_class w gcpl_id env.H5P_GROUP_CREATE :=
      fun e => h2 e.symm
    simp [H5Gcreate_anon, H5Gcreate_anon_body, H5G_done, h1, h2']

/-- C5 on `w0`: list `77` is a link-creation list, so it is rejected as a
group-creation list by both functions, and list `202` is rejected as a
link-creation list. -/
theorem C5_wrong_class_list_rejected_witness :
    H5Gcreate2 env0 w0 1 (some "grp") 202 0 0 = (H5I_INVALID_HID, w0) ∧
    H5Gcreate2 env0 w0 1 (some "grp") 0 77 0 = (H5I_INVALID_HID, w0) ∧
    H5Gcreate_anon env0 w0 1 77 0 = (H5I_INVALID_HID, w0) :=
  ⟨(C5_wrong_class_list_rejected env0 w0 1 (some "grp") 202 0 0).1
      (Or.inl ⟨by decide, by decide⟩),
   (C5_wrong_class_list_rejected env0 w0 1 (some "grp") 0 77 0).1
      (Or.inr ⟨by decide, by decide⟩),
   (C5_wrong_class_list_rejected env0 w0 1 (some "grp") 0 77 0).2 ⟨by decide, by decide⟩⟩

/-- C6: when `idx_type` is not strictly between `H5_INDEX_UNKNOWN` and
`H5_INDEX_N`, or `order` is not strictly between `H5_ITER_UNKNOWN` and
`H5_ITER_N`, `H5Gget_info_by_idx` returns `FAIL` and leaves the world as it
was, so connector `get` is not invoked; hence a call that extends the trace
had both enumeration values in range. -/
theorem C6_by_idx_enum_validation (env : Env) (w : World) (loc_id : hid_t)
    (group_name : Option String) (idx_type order : Int) (n : Nat)
    (group_info : Option Nat) (lapl_id : hid_t) :
    (¬ (env.H5_INDEX_UNKNOWN < idx_type ∧ idx_type < env.H5_INDEX_N) ∨
      ¬ (env.H5_ITER_UNKNOWN < order ∧ order < env.H5_ITER_N) →
      H5Gget_info_by_idx env w loc_id group_name idx_type order n group_info lapl_id
        = (FAIL, w)) ∧
    ((H5Gget_info_by_idx env w loc_id group_name idx_type order n group_info lapl_id).2.trace
        ≠ w.trace →
      (env.H5_INDEX_UNKNOWN < idx_type ∧ idx_type < env.H5_INDEX_N) ∧
      (env.H5_ITER_UNKNOWN < order ∧ order < env.H5_ITER_N)) := by
  have key : ¬ (env.H5_INDEX_UNKNOWN < idx_type ∧ idx_type < env.H5_INDEX_N) ∨
      ¬ (env.H5_ITER_UNKNOWN < order ∧ order < env.H5_ITER_N) →
      H5Gget_info_by_idx env w loc_id group_name idx_type order n group_info lapl_id
        = (FAIL, w) := by
    intro h
    cases group_name with
    | none => simp [H5Gget_info_by_idx]
    | some nm =>
      by_cases hnm : nm = ""
      · simp [H5Gget_info_by_idx, hnm]
      · by_cases hi : idx_type ≤ env.H5_INDEX_UNKNOWN ∨ idx_type ≥ env.H5_INDEX_N
        · simp [H5Gget_info_by_idx, hnm, hi]
        · have ho : order ≤ env.H5_ITER_UNKNOWN ∨ order ≥ env.H5_ITER_N := by
            rcases h with h | h
            · exact absurd (by omega) h
            · by_contra hc
              exact h (by omega)
          simp [H5Gget_info_by_idx, hnm, hi, ho]
  refine ⟨key, fun htr => ?_⟩
  by_contra hc
  have hor : ¬ (env.H5_INDEX_UNKNOWN < idx_type ∧ idx_type < env.H5_INDEX_N) ∨
      ¬ (env.H5_ITER_UNKNOWN < order ∧ order < env.H5_ITER_N) := by
    by_cases h1 : env.H5_INDEX_UNKNOWN < idx_type ∧ idx_type < env.H5_INDEX_N
    · exact Or.inr (fun h2 => hc ⟨h1, h2⟩)
    · exact Or.inl h1
  rw [key hor] at htr
  exact htr rfl

/-- C6 on the scenario `idx_type = UNKNOWN`, `order = INCREASING`, `n = 0`, with
the enumeration values of the public headers. -/
theorem C6_by_idx_enum_validation_witness :
    H5Gget_info_by_idx env0 w0 1 (some "grp") (-1) 0 0 (some 5) 0 = (FAIL, w0) :=
  (C6_by_idx_enum_validation env0 w0 1 (some "grp") (-1) 0 0 (some 5) 0).1
    (Or.inl (by decide))

/-- The four calls that take a group handle give up at once when the handle
does not verify as a group. -/
theorem group_calls_fail_of_verify_none (env : Env) (w : World) (group_id : hid_t)
    (hv : H5I_object_verify w group_id H5I_GROUP = none) :
    H5Gget_create_plist env w group_id = (H5I_INVALID_HID, w) ∧
    H5Gflush env w group_id = (FAIL, w) ∧
    H5Grefresh env w group_id = (FAIL, w) ∧
    H5Gclose env w group_id = (FAIL, w) := by
  simp [H5Gget_create_plist, H5Gflush, H5Grefresh, H5Gclose, hv, FAIL, H5I_INVALID_HID]

/-- C9: `H5Gget_create_plist`, `H5Gflush`, `H5Grefresh` and `H5Gclose` called with
an identifier that the registry does not hold, or holds under a class other
than the group class, return the failure sentinel and leave the world as it
was: no connector call and no reference count changed. -/
theorem C9_invalid_group_id_rejected (env : Env) (w : World) (group_id : hid_t)
    (h : assocFind group_id w.ids = none ∨
      ∃ e, assocFind group_id w.ids = some e ∧ e.type ≠ H5I_GROUP) :
    H5Gget_create_plist env w group_id = (H5I_INVALID_HID, w) ∧
    H5Gflush env w group_id = (FAIL, w) ∧
    H5Grefresh env w group_id = (FAIL, w) ∧
    H5Gclose env w group_id = (FAIL, w) := by
  have hv : H5I_object_verify w group_id H5I_GROUP = none := by
    rcases h with h | ⟨e, h, ht⟩
    · simp [H5I_object_verify, h]
    · simp [H5I_object_verify, h, ht]
  exact group_calls_fail_of_verify_none env w group_id hv

/-- C9 on `w0`: identifier `99` is absent and identifier `1` is a file handle. -/
theorem C9_invalid_group_id_rejected_witness :
    (H5Gget_create_plist env0 w0 99 = (H5I_INVALID_HID, w0) ∧
      H5Gflush env0 w0 99 = (FAIL, w0) ∧
      H5Grefresh env0 w0 99 = (FAIL, w0) ∧
      H5Gclose env0 w0 99 = (FAIL, w0)) ∧
    (H5Gget_create_plist env0 w0 1 = (H5I_INVALID_HID, w0) ∧
      H5Gflush env0 w0 1 = (FAIL, w0) ∧
      H5Grefresh env0 w0 1 = (FAIL, w0) ∧
      H5Gclose env0 w0 1 = (FAIL, w0)) :=
  ⟨C9_invalid_group_id_rejected env0 w0 99 (Or.inl (by decide)),
   C9_invalid_group_id_rejected env0 w0 1
     (Or.inr ⟨{ type := H5I_FILE, count := 1,
                obj_ptr := { vol_obj := 10, vol_info := { vol_cls := 7, vol_id := 70 } } },
              by decide, by decide⟩)⟩

/-! ## Dispatch of flush and refresh (C10) -/

/-- C10: on a valid group handle `H5Gflush` and `H5Grefresh` each make exactly
one connector `specific` call, with the same backend object, connector class,
transfer list, request slot and handle identifier, and with operation kind
`H5VL_GROUP_FLUSH` and `H5VL_GROUP_REFRESH` respectively; each returns the
connector's status when it is non-negative and `FAIL` when it is negative. -/
theorem C10_flush_refresh_dispatch (env : Env) (w : World) (group_id : hid_t)
    (grp : H5VL_object_t) (h : H5I_object_verify w group_id H5I_GROUP = some grp) :
    H5Gflush env w group_id =
      (if env.group_specific w grp.vol_obj grp.vol_info.vol_cls H5VL_GROUP_FLUSH
            env.H5AC_ind_read_dxpl_id H5_REQUEST_NULL group_id < 0 then FAIL
        else env.group_specific w grp.vol_obj grp.vol_info.vol_cls H5VL_GROUP_FLUSH
            env.H5AC_ind_read_dxpl_id H5_REQUEST_NULL group_id,
       { w with trace := w.trace ++
          [Event.group_specific grp.vol_obj grp.vol_info.vol_cls H5VL_GROUP_FLUSH
            env.H5AC_ind_read_dxpl_id H5_REQUEST_NULL group_id
            (env.group_specific w grp.vol_obj grp.vol_info.vol_cls H5VL_GROUP_FLUSH
              env.H5AC_ind_read_dxpl_id H5_REQUEST_NULL group_id)] }) ∧
    H5Grefresh env w group_id =
      (if env.group_specific w grp.vol_obj grp.vol_info.vol_cls H5VL_GROUP_REFRESH
            env.H5AC_ind_read_dxpl_id H5_REQUEST_NULL group_id < 0 then FAIL
        else env.group_specific w grp.vol_obj grp.vol_info.vol_cls H5VL_GROUP_REFRESH
            env.H5AC_ind_read_dxpl_id H5_REQUEST_NULL group_id,
       { w with trace := w.trace ++
          [Event.group_specific grp.vol_obj grp.vol_info.vol_cls H5VL_GROUP_REFRESH
            env.H5AC_ind_read_dxpl_id H5_REQUEST_NULL group_id
            (env.group_specific w grp.vol_obj grp.vol_info.vol_cls H5VL_GROUP_REFRESH
              env.H5AC_ind_read_dxpl_id H5_REQUEST_NULL group_id)] }) := by
  constructor
  · simp only [H5Gflush, h, H5VL_group_specific]
    split <;> rfl
  · simp only [H5Grefresh, h, H5VL_group_specific]
    split <;> rfl

/-- C10 on the group handle `2` of `w0`. -/
theorem C10_flush_refresh_dispatch_witness :
    H5Gflush env0 w0 2 =
      (0, { w0 with trace := [Event.group_specific 20 7 H5VL_GROUP_FLUSH 900 none 2 0] }) ∧
    H5Grefresh env0 w0 2 =
      (0, { w0 with trace := [Event.group_specific 20 7 H5VL_GROUP_REFRESH 900 none 2 0] }) :=
  C10_flush_refresh_dispatch env0 w0 2 { vol_obj := 20, vol_info := { vol_cls := 7, vol_id := 70 } }
    (by decide)

/-! ## The class finalizer (C8) -/

/-- C8, as stated, fails: with a connector whose `close` fails, the finalizer
run on the payload of the group handle of `w0` makes the one connector `close`
call, returns `FAIL`, and makes no `H5VL_free_object` call. -/
theorem C8_counterexample :
    H5G__close_group envCloseFail w0 { vol_obj := 20, vol_info := { vol_cls := 7, vol_id := 70 } }
      = (FAIL, { w0 with trace := [Event.group_close 20 7 900 none (-1)] }) ∧
    freeCount (H5G__close_group envCloseFail w0
      { vol_obj := 20, vol_info := { vol_cls := 7, vol_id := 70 } }).2.trace = 0 := by
  decide

/-- C8, amended: the finalizer `H5G__close_group` invokes connector `close`
exactly once, first, on the backend object of the payload and with its
connector class.  When `close` reports failure the finalizer returns `FAIL`
and `H5VL_free_object` is not invoked; when `close` succeeds
`H5VL_free_object` is invoked exactly once on the payload, and the finalizer
returns `FAIL` if that fails and the status of `close` otherwise. -/
theorem C8_finalizer_close_then_free (env : Env) (w : World) (grp : H5VL_object_t) :
    H5G__close_group env w grp =
      (if env.group_close w grp.vol_obj grp.vol_info.vol_cls env.H5AC_ind_read_dxpl_id
            H5_REQUEST_NULL < 0 then
        (FAIL,
          { w with trace := w.trace ++
            [Event.group_close grp.vol_obj grp.vol_info.vol_cls env.H5AC_ind_read_dxpl_id
              H5_REQUEST_NULL
              (env.group_close w grp.vol_obj grp.vol_info.vol_cls env.H5AC_ind_read_dxpl_id
                H5_REQUEST_NULL)] })
      else
        (if env.free_object
              { w with trace := w.trace ++
                [Event.group_close grp.vol_obj grp.vol_info.vol_cls env.H5AC_ind_read_dxpl_id
                  H5_REQUEST_NULL
                  (env.group_close w grp.vol_obj grp.vol_info.vol_cls
                    env.H5AC_ind_read_dxpl_id H5_REQUEST_NULL)] } grp < 0 then FAIL
          else env.group_close w grp.vol_obj grp.vol_info.vol_cls env.H5AC_ind_read_dxpl_id
            H5_REQUEST_NULL,
          { w with trace := w.trace ++
            [Event.group_close grp.vol_obj grp.vol_info.vol_cls env.H5AC_ind_read_dxpl_id
              H5_REQUEST_NULL
              (env.group_close w grp.vol_obj grp.vol_info.vol_cls env.H5AC_ind_read_dxpl_id
                H5_REQUEST_NULL),
             Event.free_object grp
              (env.free_object
                { w with trace := w.trace ++
                  [Event.group_close grp.vol_obj grp.vol_info.vol_cls
                    env.H5AC_ind_read_dxpl_id H5_REQUEST_NULL
                    (env.group_close w grp.vol_obj grp.vol_info.vol_cls
                      env.H5AC_ind_read_dxpl_id H5_REQUEST_NULL)] } grp)] })) := by
  simp only [H5G__close_group, H5VL_group_close, H5VL_free_object]
  split
  · rfl
  · split <;> simp

/-! ## Lemmas on the registry, the property lists and the three acquiring calls -/

theorem H5P_set_ids (w : World) (plist_id : hid_t) (name : String) (value : hid_t) :
    (H5P_set w plist_id name value).2.ids = w.ids := by
  unfold H5P_set
  split
  · rfl
  · split <;> rfl

theorem H5P_set_trace (w : World) (plist_id : hid_t) (name : String) (value : hid_t) :
    (H5P_set w plist_id name value).2.trace = w.trace := by
  unfold H5P_set
  split
  · rfl
  · split <;> rfl

theorem H5I_object_H5P_set (w : World) (plist_id : hid_t) (name : String) (value : hid_t)
    (id : hid_t) :
    H5I_object (H5P_set w plist_id name value).2 id = H5I_object w id := by
  simp [H5I_object, H5P_set_ids]

theorem H5P_set_peek_self (w : World) (plist_id : hid_t) (name : String) (value : hid_t)
    (h : ¬ (H5P_set w plist_id name value).1 < 0) :
    H5P_peek (H5P_set w plist_id name value).2 plist_id name = some value := by
  cases h1 : assocFind plist_id w.plists with
  | none => simp [H5P_set, h1, FAIL] at h
  | some pl =>
    cases h2 : assocFind name pl with
    | none => simp [H5P_set, h1, h2, FAIL] at h
    | some v => simp [H5P_set, h1, h2, H5P_peek, assocFind_assocSet_self]

theorem H5P_set_peek_other (w : World) (plist_id : hid_t) (name : String) (value : hid_t)
    (id : hid_t) (nm : String) (h : id ≠ plist_id ∨ nm ≠ name) :
    H5P_peek (H5P_set w plist_id name value).2 id nm = H5P_peek w id nm := by
  cases h1 : assocFind plist_id w.plists with
  | none => simp [H5P_set, h1]
  | some pl =>
    cases h2 : assocFind name pl with
    | none => simp [H5P_set, h1, h2]
    | some v =>
      by_cases hid : id = plist_id
      · subst hid
        have hn : nm ≠ name := by
          rcases h with h | h
          · exact absurd rfl h
          · exact h
        simp [H5P_set, H5P_peek, assocFind_assocSet_self, h1, h2,
          assocFind_assocSet_other _ _ _ _ hn]
      · simp [H5P_set, H5P_peek, h1, h2, assocFind_assocSet_other _ _ _ _ hid]

theorem H5P_set_keys (w : World) (plist_id : hid_t) (name : String) (value : hid_t) :
    (H5P_set w plist_id name value).2.plists.map Prod.fst = w.plists.map Prod.fst := by
  unfold H5P_set
  split
  · rfl
  · split
    · rfl
    · simp [assocSet_keys]

theorem foldl_max_ge (l : List Int) (a : Int) : a ≤ l.foldl max a := by
  induction l generalizing a with
  | nil => simp
  | cons x t ih =>
    simp only [List.foldl_cons]
    exact le_trans (le_max_left a x) (ih (max a x))

theorem H5I_next_id_pos (w : World) : 0 < H5I_next_id w := by
  unfold H5I_next_id
  have h := foldl_max_ge (w.ids.map Prod.fst ++ w.plists.map Prod.fst) 0
  exact Int.lt_add_one_iff.mpr h

/-- The two ways `H5VL_register_id` can end. -/
theorem H5VL_register_id_cases (env : Env) (w : World) (type : H5I_type_t) (obj : Obj)
    (vol_info : H5VL_t) (app_ref : Bool) :
    (env.register_status w type obj vol_info app_ref < 0 ∧
      H5VL_register_id env w type obj vol_info app_ref =
        (env.register_status w type obj vol_info app_ref,
          { w with trace := w.trace ++ [Event.register_id type obj vol_info app_ref
              (env.register_status w type obj vol_info app_ref)] })) ∨
    (¬ env.register_status w type obj vol_info app_ref < 0 ∧
      H5VL_register_id env w type obj vol_info app_ref =
        (H5I_next_id w,
          { w with
            ids := (H5I_next_id w,
                    { type := type, count := 1,
                      obj_ptr := { vol_obj := obj, vol_info := vol_info } }) :: w.ids,
            trace := w.trace ++ [Event.register_id type obj vol_info app_ref
              (H5I_next_id w)] })) := by
  by_cases h : env.register_status w type obj vol_info app_ref < 0
  · exact Or.inl ⟨h, by simp [H5VL_register_id, h]⟩
  · exact Or.inr ⟨h, by simp [H5VL_register_id, h]⟩

/-- Paths of `H5Gopen2`: either it fails before the connector is called and
leaves the world alone, or it dispatches `open` and ends according to the
answers of the connector and of the registration. -/
theorem H5Gopen2_outcome (env : Env) (w : World) (loc_id : hid_t) (name : Option String)
    (gapl_id : hid_t) :
    H5Gopen2 env w loc_id name gapl_id = (H5I_INVALID_HID, w) ∨
    ∃ nm obj st gapl' dxpl', name = some nm ∧ nm ≠ "" ∧ H5I_object w loc_id = some obj ∧
      env.H5P_verify_apl_and_dxpl w gapl_id H5P_CLS_GACC env.H5AC_ind_read_dxpl_id loc_id false
        = (st, gapl', dxpl') ∧ ¬ st < 0 ∧
      H5Gopen2 env w loc_id name gapl_id =
        match H5VL_group_open env w obj.vol_obj
            { type := H5VL_OBJECT_BY_SELF, obj_type := H5I_get_type w loc_id,
              loc_data := H5VL_loc_data_t.unset }
            obj.vol_info.vol_cls nm gapl' dxpl' H5_REQUEST_NULL with
        | (none, w2) => (H5I_INVALID_HID, w2)
        | (some g, w2) =>
          if (H5VL_register_id env w2 H5I_GROUP g obj.vol_info true).1 < 0 then
            (H5I_INVALID_HID,
              (H5VL_group_close env (H5VL_register_id env w2 H5I_GROUP g obj.vol_info true).2
                g obj.vol_info.vol_cls dxpl' H5_REQUEST_NULL).2)
          else H5VL_register_id env w2 H5I_GROUP g obj.vol_info true := by
  cases name with
  | none => exact Or.inl (by simp [H5Gopen2, H5Gopen2_body, H5G_done])
  | some nm =>
  by_cases hnm : nm = ""
  · exact Or.inl (by simp [H5Gopen2, H5Gopen2_body, H5G_done, hnm])
  rcases hv : env.H5P_verify_apl_and_dxpl w gapl_id H5P_CLS_GACC env.H5AC_ind_read_dxpl_id
    loc_id false with ⟨st, gapl', dxpl'⟩
  by_cases hst : st < 0
  · exact Or.inl (by simp [H5Gopen2, H5Gopen2_body, H5G_done, hnm, hv, hst])
  cases hobj : H5I_object w loc_id with
  | none => exact Or.inl (by simp [H5Gopen2, H5Gopen2_body, H5G_done, hnm, hv, hst, hobj])
  | some obj =>
  refine Or.inr ⟨nm, obj, st, gapl', dxpl', rfl, hnm, rfl, rfl, hst, ?_⟩
  cases hopen : env.group_open w obj.vol_obj
      { type := H5VL_OBJECT_BY_SELF, obj_type := H5I_get_type w loc_id,
        loc_data := H5VL_loc_data_t.unset } obj.vol_info.vol_cls nm gapl' dxpl'
      H5_REQUEST_NULL with
  | none =>
    simp [H5Gopen2, H5Gopen2_body, H5G_done, H5VL_group_open, hnm, hv, hst, hobj, hopen]
  | some g =>
    by_cases hreg : (H5VL_register_id env (H5VL_group_open env w obj.vol_obj
      { type := H5VL_OBJECT_BY_SELF, obj_type := H5I_get_type w loc_id,
        loc_data := H5VL_loc_data_t.unset } obj.vol_info.vol_cls nm gapl' dxpl'
      H5_REQUEST_NULL).2 H5I_GROUP g obj.vol_info true).1 < 0
    · simp only [H5VL_group_open, hopen] at hreg
      simp [H5Gopen2, H5Gopen2_body, H5G_done, H5VL_group_open, hnm, hv, hst, hobj, hopen, hreg]
    · simp only [H5VL_group_open, hopen] at hreg
      simp [H5Gopen2, H5Gopen2_body, H5G_done, H5VL_group_open, hnm, hv, hst, hobj, hopen, hreg]
      intro h
      exact absurd (by rw [← h]; decide) hreg

/-- Paths of `H5Gcreate_anon`. -/
theorem H5Gcreate_anon_outcome (env : Env) (w : World) (loc_id gcpl_id gapl_id : hid_t) :
    H5Gcreate_anon env w loc_id gcpl_id gapl_id = (H5I_INVALID_HID, w) ∨
    ∃ obj st gapl' dxpl', H5I_object w loc_id = some obj ∧
      (H5P_DEFAULT = gcpl_id ∨ env.H5P_isa_class w gcpl_id env.H5P_GROUP_CREATE = TRUE) ∧
      env.H5P_verify_apl_and_dxpl w gapl_id H5P_CLS_GACC env.H5AC_ind_read_dxpl_id loc_id true
        = (st, gapl', dxpl') ∧ ¬ st < 0 ∧
      H5Gcreate_anon env w loc_id gcpl_id gapl_id =
        match H5VL_group_create env w obj.vol_obj
            { type := H5VL_OBJECT_BY_SELF, obj_type := H5I_get_type w loc_id,
              loc_data := H5VL_loc_data_t.unset }
            obj.vol_info.vol_cls none
            (if H5P_DEFAULT = gcpl_id then env.H5P_GROUP_CREATE_DEFAULT else gcpl_id)
            gapl' dxpl' H5_REQUEST_NULL with
        | (none, w2) => (H5I_INVALID_HID, w2)
        | (some g, w2) =>
          if (H5VL_register_id env w2 H5I_GROUP g obj.vol_info true).1 < 0 then
            (H5I_INVALID_HID,
              (H5VL_group_close env (H5VL_register_id env w2 H5I_GROUP g obj.vol_info true).2
                g obj.vol_info.vol_cls dxpl' H5_REQUEST_NULL).2)
          else H5VL_register_id env w2 H5I_GROUP g obj.vol_info true := by
  by_cases hg : H5P_DEFAULT ≠ gcpl_id ∧ TRUE ≠ env.H5P_isa_class w gcpl_id env.H5P_GROUP_CREATE
  · exact Or.inl (by simp [H5Gcreate_anon, H5Gcreate_anon_body, H5G_done, hg])
  have hg' : H5P_DEFAULT = gcpl_id ∨ env.H5P_isa_class w gcpl_id env.H5P_GROUP_CREATE = TRUE := by
    by_cases h1 : H5P_DEFAULT = gcpl_id
    · exact Or.inl h1
    · right
      by_contra h2
      exact hg ⟨h1, fun e => h2 e.symm⟩
  rcases hv : env.H5P_verify_apl_and_dxpl w gapl_id H5P_CLS_GACC env.H5AC_ind_read_dxpl_id
    loc_id true with ⟨st, gapl', dxpl'⟩
  by_cases hst : st < 0
  · exact Or.inl (by simp [H5Gcreate_anon, H5Gcreate_anon_body, H5G_done, hg, hv, hst])
  cases hobj : H5I_object w loc_id with
  | none =>
    exact Or.inl (by simp [H5Gcreate_anon, H5Gcreate_anon_body, H5G_done, hg, hv, hst, hobj])
  | some obj =>
  refine Or.inr ⟨obj, st, gapl', dxpl', rfl, hg', rfl, hst, ?_⟩
  cases hcr : env.group_create w obj.vol_obj
      { type := H5VL_OBJECT_BY_SELF, obj_type := H5I_get_type w loc_id,
        loc_data := H5VL_loc_data_t.unset } obj.vol_info.vol_cls none
      (if H5P_DEFAULT = gcpl_id then env.H5P_GROUP_CREATE_DEFAULT else gcpl_id)
      gapl' dxpl' H5_REQUEST_NULL with
  | none =>
    simp [H5Gcreate_anon, H5Gcreate_anon_body, H5G_done, H5VL_group_create, hg, hv, hst,
      hobj, hcr]
  | some g =>
    by_cases hreg : (H5VL_register_id env (H5VL_group_create env w obj.vol_obj
      { type := H5VL_OBJECT_BY_SELF, obj_type := H5I_get_type w loc_id,
        loc_data := H5VL_loc_data_t.unset } obj.vol_info.vol_cls none
      (if H5P_DEFAULT = gcpl_id then env.H5P_GROUP_CREATE_DEFAULT else gcpl_id)
      gapl' dxpl' H5_REQUEST_NULL).2 H5I_GROUP g obj.vol_info true).1 < 0
    · simp only [H5VL_group_create, hcr] at hreg
      simp [H5Gcreate_anon, H5Gcreate_anon_body, H5G_done, H5VL_group_create, hg, hv, hst,
        hobj, hcr, hreg]
    · simp only [H5VL_group_create, hcr] at hreg
      simp [H5Gcreate_anon, H5Gcreate_anon_body, H5G_done, H5VL_group_create, hg, hv, hst,
        hobj, hcr, hreg]
      intro h
      exact absurd (by rw [← h]; decide) hreg

/-- Paths of `H5Gcreate2`: it fails before the property is set and leaves the
world alone; or it fails after the property set was attempted and before the
connector is called; or it sets the property, dispatches `create` in the world
so obtained and ends according to the answers of the connector and of the
registration. -/
theorem H5Gcreate2_outcome (env : Env) (w : World) (loc_id : hid_t) (name : Option String)
    (lcpl_id gcpl_id gapl_id : hid_t) :
    H5Gcreate2 env w loc_id name lcpl_id gcpl_id gapl_id = (H5I_INVALID_HID, w) ∨
    H5Gcreate2 env w loc_id name lcpl_id gcpl_id gapl_id =
      (H5I_INVALID_HID,
        (H5P_set w (if H5P_DEFAULT = gcpl_id then env.H5P_GROUP_CREATE_DEFAULT else gcpl_id)
          H5VL_PROP_GRP_LCPL_ID
          (if H5P_DEFAULT = lcpl_id then env.H5P_LINK_CREATE_DEFAULT else lcpl_id)).2) ∨
    ∃ nm obj st gapl' dxpl', name = some nm ∧ nm ≠ "" ∧ H5I_object w loc_id = some obj ∧
      env.H5P_verify_apl_and_dxpl w gapl_id H5P_CLS_GACC env.H5AC_ind_read_dxpl_id loc_id true
        = (st, gapl', dxpl') ∧ ¬ st < 0 ∧
      ¬ (H5P_set w (if H5P_DEFAULT = gcpl_id then env.H5P_GROUP_CREATE_DEFAULT else gcpl_id)
          H5VL_PROP_GRP_LCPL_ID
          (if H5P_DEFAULT = lcpl_id then env.H5P_LINK_CREATE_DEFAULT else lcpl_id)).1 < 0 ∧
      H5Gcreate2 env w loc_id name lcpl_id gcpl_id gapl_id =
        match H5VL_group_create env
            (H5P_set w (if H5P_DEFAULT = gcpl_id then env.H5P_GROUP_CREATE_DEFAULT else gcpl_id)
              H5VL_PROP_GRP_LCPL_ID
              (if H5P_DEFAULT = lcpl_id then env.H5P_LINK_CREATE_DEFAULT else lcpl_id)).2
            obj.vol_obj
            { type := H5VL_OBJECT_BY_SELF,
              obj_type := H5I_get_type
                (H5P_set w
                  (if H5P_DEFAULT = gcpl_id then env.H5P_GROUP_CREATE_DEFAULT else gcpl_id)
                  H5VL_PROP_GRP_LCPL_ID
                  (if H5P_DEFAULT = lcpl_id then env.H5P_LINK_CREATE_DEFAULT else lcpl_id)).2
                loc_id,
              loc_data := H5VL_loc_data_t.unset }
            obj.vol_info.vol_cls (some nm)
            (if H5P_DEFAULT = gcpl_id then env.H5P_GROUP_CREATE_DEFAULT else gcpl_id)
            gapl' dxpl' H5_REQUEST_NULL with
        | (none, w2) => (H5I_INVALID_HID, w2)
        | (some g, w2) =>
          if (H5VL_register_id env w2 H5I_GROUP g obj.vol_info true).1 < 0 then
            (H5I_INVALID_HID,
              (H5VL_group_close env (H5VL_register_id env w2 H5I_GROUP g obj.vol_info true).2
                g obj.vol_info.vol_cls dxpl' H5_REQUEST_NULL).2)
          else H5VL_register_id env w2 H5I_GROUP g obj.vol_info true := by
  cases name with
  | none => exact Or.inl (by simp [H5Gcreate2, H5Gcreate2_body, H5G_done])
  | some nm =>
  by_cases hnm : nm = ""
  · exact Or.inl (by simp [H5Gcreate2, H5Gcreate2_body, H5G_done, hnm])
  by_cases hl : H5P_DEFAULT ≠ lcpl_id ∧ TRUE ≠ env.H5P_isa_class w lcpl_id env.H5P_LINK_CREATE
  · exact Or.inl (by simp [H5Gcreate2, H5Gcreate2_body, H5G_done, hnm, hl])
  by_cases hg : H5P_DEFAULT ≠ gcpl_id ∧ TRUE ≠ env.H5P_isa_class w gcpl_id env.H5P_GROUP_CREATE
  · exact Or.inl (by simp [H5Gcreate2, H5Gcreate2_body, H5G_done, hnm, hl, hg])
  rcases hv : env.H5P_verify_apl_and_dxpl w gapl_id H5P_CLS_GACC env.H5AC_ind_read_dxpl_id
    loc_id true with ⟨st, gapl', dxpl'⟩
  by_cases hst : st < 0
  · exact Or.inl (by simp [H5Gcreate2, H5Gcreate2_body, H5G_done, hnm, hl, hg, hv, hst])
  cases hpl : H5I_object_plist w
      (if H5P_DEFAULT = gcpl_id then env.H5P_GROUP_CREATE_DEFAULT else gcpl_id) with
  | none =>
    exact Or.inl (by simp [H5Gcreate2, H5Gcreate2_body, H5G_done, hnm, hl, hg, hv, hst, hpl])
  | some pl =>
  by_cases hset : (H5P_set w
      (if H5P_DEFAULT = gcpl_id then env.H5P_GROUP_CREATE_DEFAULT else gcpl_id)
      H5VL_PROP_GRP_LCPL_ID
      (if H5P_DEFAULT = lcpl_id then env.H5P_LINK_CREATE_DEFAULT else lcpl_id)).1 < 0
  · exact Or.inr (Or.inl
      (by simp [H5Gcreate2, H5Gcreate2_body, H5G_done, hnm, hl, hg, hv, hst, hpl, hset]))
  cases hobj : H5I_object w loc_id with
  | none =>
    have hobj' := hobj
    rw [← H5I_object_H5P_set w
      (if H5P_DEFAULT = gcpl_id then env.H5P_GROUP_CREATE_DEFAULT else gcpl_id)
      H5VL_PROP_GRP_LCPL_ID
      (if H5P_DEFAULT = lcpl_id then env.H5P_LINK_CREATE_DEFAULT else lcpl_id)] at hobj'
    exact Or.inr (Or.inl
      (by simp [H5Gcreate2, H5Gcreate2_body, H5G_done, hnm, hl, hg, hv, hst, hpl, hset,
            hobj']))
  | some obj =>
  have hobj' := hobj
  rw [← H5I_object_H5P_set w
    (if H5P_DEFAULT = gcpl_id then env.H5P_GROUP_CREATE_DEFAULT else gcpl_id)
    H5VL_PROP_GRP_LCPL_ID
    (if H5P_DEFAULT = lcpl_id then env.H5P_LINK_CREATE_DEFAULT else lcpl_id)] at hobj'
  refine Or.inr (Or.inr ⟨nm, obj, st, gapl', dxpl', rfl, hnm, rfl, rfl, hst, hset, ?_⟩)
  generalize hwd : (H5P_set w
    (if H5P_DEFAULT = gcpl_id then env.H5P_GROUP_CREATE_DEFAULT else gcpl_id)
    H5VL_PROP_GRP_LCPL_ID
    (if H5P_DEFAULT = lcpl_id then env.H5P_LINK_CREATE_DEFAULT else lcpl_id)) = sres at *
  obtain ⟨sst, wd⟩ := sres
  simp only at hset hobj' ⊢
  cases hcr : env.group_create wd obj.vol_obj
      { type := H5VL_OBJECT_BY_SELF, obj_type := H5I_get_type wd loc_id,
        loc_data := H5VL_loc_data_t.unset } obj.vol_info.vol_cls (some nm)
      (if H5P_DEFAULT = gcpl_id then env.H5P_GROUP_CREATE_DEFAULT else gcpl_id)
      gapl' dxpl' H5_REQUEST_NULL with
  | none =>
    simp [H5Gcreate2, H5Gcreate2_body, H5G_done, H5VL_group_create, hnm, hl, hg, hv, hst,
      hpl, hwd, hset, hobj', hcr]
  | some g =>
    by_cases hreg : (H5VL_register_id env (H5VL_group_create env wd obj.vol_obj
      { type := H5VL_OBJECT_BY_SELF, obj_type := H5I_get_type wd loc_id,
        loc_data := H5VL_loc_data_t.unset } obj.vol_info.vol_cls (some nm)
      (if H5P_DEFAULT = gcpl_id then env.H5P_GROUP_CREATE_DEFAULT else gcpl_id)
      gapl' dxpl' H5_REQUEST_NULL).2 H5I_GROUP g obj.vol_info true).1 < 0
    · simp only [H5VL_group_create, hcr] at hreg
      simp [H5Gcreate2, H5Gcreate2_body, H5G_done, H5VL_group_create, hnm, hl, hg, hv, hst,
        hpl, hwd, hset, hobj', hcr, hreg]
    · simp only [H5VL_group_create, hcr] at hreg
      simp [H5Gcreate2, H5Gcreate2_body, H5G_done, H5VL_group_create, hnm, hl, hg, hv, hst,
        hpl, hwd, hset, hobj', hcr, hreg]
      intro h
      exact absurd (by rw [← h]; decide) hreg

/-- The part shared by the three acquiring calls once the connector has been
called: event `e` was appended in world `wd`, the connector answered `ret`. -/
theorem cleanup_after_dispatch (env : Env) (w wd : World) (loc_id : hid_t)
    (obj : H5VL_object_t) (e : Event) (ret : Option Obj) (dxpl' : hid_t)
    (htr : wd.trace = w.trace) (hobj : H5I_object w loc_id = some obj)
    (hacq : ∀ g, ret = some g → e.acquired = some (g, obj.vol_info.vol_cls))
    (hreg : ∀ t o vi a rv, e ≠ Event.register_id t o vi a rv)
    (hnc : closeCount [e] = 0) :
    ClosedOnceOnRegisterFailure w loc_id
      (match ((ret, { wd with trace := wd.trace ++ [e] }) : Option Obj × World) with
        | (none, w2) => (H5I_INVALID_HID, w2)
        | (some g, w2) =>
          if (H5VL_register_id env w2 H5I_GROUP g obj.vol_info true).1 < 0 then
            (H5I_INVALID_HID,
              (H5VL_group_close env (H5VL_register_id env w2 H5I_GROUP g obj.vol_info true).2
                g obj.vol_info.vol_cls dxpl' H5_REQUEST_NULL).2)
          else H5VL_register_id env w2 H5I_GROUP g obj.vol_info true) := by
  obtain ⟨ids, pls, tr, f1, f2, f3⟩ := wd
  simp only at htr
  subst htr
  cases ret with
  | none =>
    refine ⟨[e], by simp, Or.inr ⟨hnc, ?_⟩⟩
    intro t o vi a rv hmem
    simp only [List.mem_singleton] at hmem
    exact absurd hmem.symm (hreg t o vi a rv)
  | some g =>
    rcases H5VL_register_id_cases env (World.mk ids pls (w.trace ++ [e]) f1 f2 f3) H5I_GROUP g
      obj.vol_info true with ⟨hlt, heq⟩ | ⟨hge, heq⟩
    · refine ⟨[e, Event.register_id H5I_GROUP g obj.vol_info true
          (env.register_status (World.mk ids pls (w.trace ++ [e]) f1 f2 f3) H5I_GROUP g
            obj.vol_info true),
        Event.group_close g obj.vol_info.vol_cls dxpl' H5_REQUEST_NULL
          (env.group_close
            { (World.mk ids pls (w.trace ++ [e]) f1 f2 f3) with trace := w.trace ++ [e] ++
              [Event.register_id H5I_GROUP g obj.vol_info true
                (env.register_status (World.mk ids pls (w.trace ++ [e]) f1 f2 f3) H5I_GROUP g
                  obj.vol_info true)] }
            g obj.vol_info.vol_cls dxpl' H5_REQUEST_NULL)], ?_, Or.inl ?_⟩
      · simp only [heq]
        simp [hlt, H5VL_group_close]
      · refine ⟨obj, e, g, _, dxpl', _, hobj, hacq g rfl, hlt, rfl, ?_, ?_⟩
        · cases e <;> simp_all [closeCount]
        · simp [heq, hlt]
    · have hpos := H5I_next_id_pos (World.mk ids pls (w.trace ++ [e]) f1 f2 f3)
      have hnot : ¬ H5I_next_id (World.mk ids pls (w.trace ++ [e]) f1 f2 f3) < 0 :=
        not_lt.mpr (le_of_lt hpos)
      refine ⟨[e, Event.register_id H5I_GROUP g obj.vol_info true
          (H5I_next_id (World.mk ids pls (w.trace ++ [e]) f1 f2 f3))], ?_, Or.inr ⟨?_, ?_⟩⟩
      · simp only [heq]
        simp [hnot]
      · cases e <;> simp_all [closeCount]
      · intro t o vi a rv hmem
        simp only [List.mem_cons, List.mem_singleton, List.not_mem_nil, or_false] at hmem
        rcases hmem with hmem | hmem
        · exact absurd hmem.symm (hreg t o vi a rv)
        · injection hmem with _ _ _ _ h5
          rw [h5]
          exact le_of_lt hpos

/-! ## Cleanup after a failed registration (C2) -/

/-- C2: in each of `H5Gcreate2`, `H5Gcreate_anon` and `H5Gopen2`, when the
connector `create`/`open` call returned a backend object and the registration
that follows failed, connector `close` is invoked exactly once, on that object
and with the connector class of the location, before the call returns
`H5I_INVALID_HID`; on every other path (the connector call failed, an earlier
step failed, or the call succeeded) connector `close` is not invoked. -/
theorem C2_close_once_on_register_failure (env : Env) (w : World) (loc_id : hid_t)
    (name : Option String) (lcpl_id gcpl_id gapl_id : hid_t) :
    ClosedOnceOnRegisterFailure w loc_id
      (H5Gcreate2 env w loc_id name lcpl_id gcpl_id gapl_id) ∧
    ClosedOnceOnRegisterFailure w loc_id (H5Gcreate_anon env w loc_id gcpl_id gapl_id) ∧
    ClosedOnceOnRegisterFailure w loc_id (H5Gopen2 env w loc_id name gapl_id) := by
  refine ⟨?_, ?_, ?_⟩
  · rcases H5Gcreate2_outcome env w loc_id name lcpl_id gcpl_id gapl_id with
      h | h | ⟨nm, obj, st, gapl', dxpl', _, _, hobj, _, _, _, h⟩
    · rw [h]
      exact ⟨[], by simp, Or.inr ⟨rfl, by simp⟩⟩
    · rw [h]
      exact ⟨[], by simp [H5P_set_trace], Or.inr ⟨rfl, by simp⟩⟩
    · rw [h]
      exact cleanup_after_dispatch env w _ loc_id obj _ _ dxpl' (H5P_set_trace _ _ _ _) hobj
        (fun g hg => by simp [Event.acquired, hg]) (fun _ _ _ _ _ => by simp) rfl
  · rcases H5Gcreate_anon_outcome env w loc_id gcpl_id gapl_id with
      h | ⟨obj, st, gapl', dxpl', hobj, _, _, _, h⟩
    · rw [h]
      exact ⟨[], by simp, Or.inr ⟨rfl, by simp⟩⟩
    · rw [h]
      exact cleanup_after_dispatch env w w loc_id obj _ _ dxpl' rfl hobj
        (fun g hg => by simp [Event.acquired, hg]) (fun _ _ _ _ _ => by simp) rfl
  · rcases H5Gopen2_outcome env w loc_id name gapl_id with
      h | ⟨nm, obj, st, gapl', dxpl', _, _, hobj, _, _, h⟩
    · rw [h]
      exact ⟨[], by simp, Or.inr ⟨rfl, by simp⟩⟩
    · rw [h]
      exact cleanup_after_dispatch env w w loc_id obj _ _ dxpl' rfl hobj
        (fun g hg => by simp [Event.acquired, hg]) (fun _ _ _ _ _ => by simp) rfl

/-! ## Composition of the link-creation list into the group-creation list (C3, C4) -/

theorem H5P_peek_congr (w1 w2 : World) (h : w1.plists = w2.plists) (id : hid_t)
    (nm : String) : H5P_peek w1 id nm = H5P_peek w2 id nm := by
  simp [H5P_peek, h]

theorem H5P_set_failure (w : World) (plist_id : hid_t) (name : String) (value : hid_t)
    (h : (H5P_set w plist_id name value).1 < 0) : (H5P_set w plist_id name value).2 = w := by
  cases h1 : assocFind plist_id w.plists with
  | none => simp [H5P_set, h1]
  | some pl =>
    cases h2 : assocFind name pl with
    | none => simp [H5P_set, h1, h2]
    | some v => simp [H5P_set, h1, h2, SUCCEED] at h

/-- What happens after the connector was called touches neither the property
lists nor the events already in the trace. -/
theorem after_dispatch_frame (env : Env) (w2 : World) (ret : Option Obj) (vi : H5VL_t)
    (dxpl' : hid_t) :
    ∃ rest,
      (match ((ret, w2) : Option Obj × World) with
        | (none, w2) => (H5I_INVALID_HID, w2)
        | (some g, w2) =>
          if (H5VL_register_id env w2 H5I_GROUP g vi true).1 < 0 then
            (H5I_INVALID_HID,
              (H5VL_group_close env (H5VL_register_id env w2 H5I_GROUP g vi true).2
                g vi.vol_cls dxpl' H5_REQUEST_NULL).2)
          else H5VL_register_id env w2 H5I_GROUP g vi true).2.trace = w2.trace ++ rest ∧
      (match ((ret, w2) : Option Obj × World) with
        | (none, w2) => (H5I_INVALID_HID, w2)
        | (some g, w2) =>
          if (H5VL_register_id env w2 H5I_GROUP g vi true).1 < 0 then
            (H5I_INVALID_HID,
              (H5VL_group_close env (H5VL_register_id env w2 H5I_GROUP g vi true).2
                g vi.vol_cls dxpl' H5_REQUEST_NULL).2)
          else H5VL_register_id env w2 H5I_GROUP g vi true).2.plists = w2.plists := by
  cases ret with
  | none => exact ⟨[], by simp, rfl⟩
  | some g =>
    rcases H5VL_register_id_cases env w2 H5I_GROUP g vi true with ⟨hlt, heq⟩ | ⟨hge, heq⟩
    · refine ⟨[Event.register_id H5I_GROUP g vi true (env.register_status w2 H5I_GROUP g vi true),
        Event.group_close g vi.vol_cls dxpl' H5_REQUEST_NULL
          (env.group_close
            { w2 with trace := w2.trace ++
              [Event.register_id H5I_GROUP g vi true
                (env.register_status w2 H5I_GROUP g vi true)] }
            g vi.vol_cls dxpl' H5_REQUEST_NULL)], ?_, ?_⟩
      · simp only [heq]
        simp [hlt, H5VL_group_close]
      · simp only [heq]
        simp [hlt, H5VL_group_close]
    · have hnot : ¬ H5I_next_id w2 < 0 := not_lt.mpr (le_of_lt (H5I_next_id_pos w2))
      refine ⟨[Event.register_id H5I_GROUP g vi true (H5I_next_id w2)], ?_, ?_⟩
      · simp only [heq]
        simp [hnot]
      · simp only [heq]
        simp [hnot]

/-- Shared by C3 and C4: when `H5Gcreate2` extends the trace, the resolved
group-creation list carries the resolved link-creation identity on return. -/
theorem H5Gcreate2_dispatch_peek (env : Env) (w : World) (loc_id : hid_t)
    (name : Option String) (lcpl_id gcpl_id gapl_id : hid_t) :
    (H5Gcreate2 env w loc_id name lcpl_id gcpl_id gapl_id).2.trace ≠ w.trace →
    H5P_peek (H5Gcreate2 env w loc_id name lcpl_id gcpl_id gapl_id).2
        (if H5P_DEFAULT = gcpl_id then env.H5P_GROUP_CREATE_DEFAULT else gcpl_id)
        H5VL_PROP_GRP_LCPL_ID
        = some (if H5P_DEFAULT = lcpl_id then env.H5P_LINK_CREATE_DEFAULT else lcpl_id) := by
  intro h
  rcases H5Gcreate2_outcome env w loc_id name lcpl_id gcpl_id gapl_id with
    h1 | h1 | ⟨nm, obj, st, gapl', dxpl', hname, hnm, hobj, _, _, hset, h1⟩
  · rw [h1] at h
    exact absurd rfl h
  · rw [h1] at h
    exact absurd (H5P_set_trace _ _ _ _) h
  · obtain ⟨rest, htr, hpl⟩ := after_dispatch_frame env
      (H5VL_group_create env
        (H5P_set w (if H5P_DEFAULT = gcpl_id then env.H5P_GROUP_CREATE_DEFAULT else gcpl_id)
          H5VL_PROP_GRP_LCPL_ID
          (if H5P_DEFAULT = lcpl_id then env.H5P_LINK_CREATE_DEFAULT else lcpl_id)).2
        obj.vol_obj
        { type := H5VL_OBJECT_BY_SELF,
          obj_type := H5I_get_type
            (H5P_set w (if H5P_DEFAULT = gcpl_id then env.H5P_GROUP_CREATE_DEFAULT else gcpl_id)
              H5VL_PROP_GRP_LCPL_ID
              (if H5P_DEFAULT = lcpl_id then env.H5P_LINK_CREATE_DEFAULT else lcpl_id)).2
            loc_id,
          loc_data := H5VL_loc_data_t.unset }
        obj.vol_info.vol_cls (some nm)
        (if H5P_DEFAULT = gcpl_id then env.H5P_GROUP_CREATE_DEFAULT else gcpl_id)
        gapl' dxpl' H5_REQUEST_NULL).2
      (H5VL_group_create env
        (H5P_set w (if H5P_DEFAULT = gcpl_id then env.H5P_GROUP_CREATE_DEFAULT else gcpl_id)
          H5VL_PROP_GRP_LCPL_ID
          (if H5P_DEFAULT = lcpl_id then env.H5P_LINK_CREATE_DEFAULT else lcpl_id)).2
        obj.vol_obj
        { type := H5VL_OBJECT_BY_SELF,
          obj_type := H5I_get_type
            (H5P_set w (if H5P_DEFAULT = gcpl_id then env.H5P_GROUP_CREATE_DEFAULT else gcpl_id)
              H5VL_PROP_GRP_LCPL_ID
              (if H5P_DEFAULT = lcpl_id then env.H5P_LINK_CREATE_DEFAULT else lcpl_id)).2
            loc_id,
          loc_data := H5VL_loc_data_t.unset }
        obj.vol_info.vol_cls (some nm)
        (if H5P_DEFAULT = gcpl_id then env.H5P_GROUP_CREATE_DEFAULT else gcpl_id)
        gapl' dxpl' H5_REQUEST_NULL).1
      obj.vol_info dxpl'
    rw [h1]
    simp only [H5VL_group_create] at hpl ⊢
    rw [H5P_peek_congr _ _ hpl]
    exact H5P_set_peek_self _ _ _ _ hset

/-- C4: an `H5Gcreate2` call that reaches connector dispatch (it extends the
trace) dispatches `create` first, for the caller's name, on the resolved
group-creation list, and in a world `wd` in which that list carries, under
`H5VL_PROP_GRP_LCPL_ID`, exactly the resolved link-creation identity: the
caller's `lcpl_id` when it is not `H5P_DEFAULT`, the singleton
`H5P_LINK_CREATE_DEFAULT` when it is; the list still carries it when the call
returns. -/
theorem C4_dispatched_gcpl_embeds_lcpl (env : Env) (w : World) (loc_id : hid_t)
    (name : Option String) (lcpl_id gcpl_id gapl_id : hid_t)
    (h : (H5Gcreate2 env w loc_id name lcpl_id gcpl_id gapl_id).2.trace ≠ w.trace) :
    ∃ wd obj nm gapl' dxpl' rest,
      name = some nm ∧ nm ≠ "" ∧ H5I_object w loc_id = some obj ∧
      wd.trace = w.trace ∧ wd.ids = w.ids ∧
      H5P_peek wd (if H5P_DEFAULT = gcpl_id then env.H5P_GROUP_CREATE_DEFAULT else gcpl_id)
        H5VL_PROP_GRP_LCPL_ID
        = some (if H5P_DEFAULT = lcpl_id then env.H5P_LINK_CREATE_DEFAULT else lcpl_id) ∧
      (H5Gcreate2 env w loc_id name lcpl_id gcpl_id gapl_id).2.trace =
        w.trace ++
          Event.group_create obj.vol_obj
            { type := H5VL_OBJECT_BY_SELF, obj_type := H5I_get_type wd loc_id,
              loc_data := H5VL_loc_data_t.unset }
            obj.vol_info.vol_cls (some nm)
            (if H5P_DEFAULT = gcpl_id then env.H5P_GROUP_CREATE_DEFAULT else gcpl_id)
            gapl' dxpl' H5_REQUEST_NULL
            (env.group_create wd obj.vol_obj
              { type := H5VL_OBJECT_BY_SELF, obj_type := H5I_get_type wd loc_id,
                loc_data := H5VL_loc_data_t.unset }
              obj.vol_info.vol_cls (some nm)
              (if H5P_DEFAULT = gcpl_id then env.H5P_GROUP_CREATE_DEFAULT else gcpl_id)
              gapl' dxpl' H5_REQUEST_NULL) :: rest ∧
      H5P_peek (H5Gcreate2 env w loc_id name lcpl_id gcpl_id gapl_id).2
        (if H5P_DEFAULT = gcpl_id then env.H5P_GROUP_CREATE_DEFAULT else gcpl_id)
        H5VL_PROP_GRP_LCPL_ID
        = some (if H5P_DEFAULT = lcpl_id then env.H5P_LINK_CREATE_DEFAULT else lcpl_id) := by
  rcases H5Gcreate2_outcome env w loc_id name lcpl_id gcpl_id gapl_id with
    h1 | h1 | ⟨nm, obj, st, gapl', dxpl', hname, hnm, hobj, _, _, hset, h1⟩
  · rw [h1] at h
    exact absurd rfl h
  · rw [h1] at h
    exact absurd (H5P_set_trace _ _ _ _) h
  · obtain ⟨rest, htr, hpl⟩ := after_dispatch_frame env
      (H5VL_group_create env
        (H5P_set w (if H5P_DEFAULT = gcpl_id then env.H5P_GROUP_CREATE_DEFAULT else gcpl_id)
          H5VL_PROP_GRP_LCPL_ID
          (if H5P_DEFAULT = lcpl_id then env.H5P_LINK_CREATE_DEFAULT else lcpl_id)).2
        obj.vol_obj
        { type := H5VL_OBJECT_BY_SELF,
          obj_type := H5I_get_type
            (H5P_set w (if H5P_DEFAULT = gcpl_id then env.H5P_GROUP_CREATE_DEFAULT else gcpl_id)
              H5VL_PROP_GRP_LCPL_ID
              (if H5P_DEFAULT = lcpl_id then env.H5P_LINK_CREATE_DEFAULT else lcpl_id)).2
            loc_id,
          loc_data := H5VL_loc_data_t.unset }
        obj.vol_info.vol_cls (some nm)
        (if H5P_DEFAULT = gcpl_id then env.H5P_GROUP_CREATE_DEFAULT else gcpl_id)
        gapl' dxpl' H5_REQUEST_NULL).2
      (H5VL_group_create env
        (H5P_set w (if H5P_DEFAULT = gcpl_id then env.H5P_GROUP_CREATE_DEFAULT else gcpl_id)
          H5VL_PROP_GRP_LCPL_ID
          (if H5P_DEFAULT = lcpl_id then env.H5P_LINK_CREATE_DEFAULT else lcpl_id)).2
        obj.vol_obj
        { type := H5VL_OBJECT_BY_SELF,
          obj_type := H5I_get_type
            (H5P_set w (if H5P_DEFAULT = gcpl_id then env.H5P_GROUP_CREATE_DEFAULT else gcpl_id)
              H5VL_PROP_GRP_LCPL_ID
              (if H5P_DEFAULT = lcpl_id then env.H5P_LINK_CREATE_DEFAULT else lcpl_id)).2
            loc_id,
          loc_data := H5VL_loc_data_t.unset }
        obj.vol_info.vol_cls (some nm)
        (if H5P_DEFAULT = gcpl_id then env.H5P_GROUP_CREATE_DEFAULT else gcpl_id)
        gapl' dxpl' H5_REQUEST_NULL).1
      obj.vol_info dxpl'
    refine ⟨_, obj, nm, gapl', dxpl', rest, hname, hnm, hobj, H5P_set_trace _ _ _ _,
      H5P_set_ids _ _ _ _, H5P_set_peek_self _ _ _ _ hset, ?_, ?_⟩
    · rw [h1]
      simp only [H5VL_group_create] at htr ⊢
      rw [htr]
      simp [H5P_set_trace]
    · rw [h1]
      simp only [H5VL_group_create] at hpl ⊢
      rw [H5P_peek_congr _ _ hpl]
      exact H5P_set_peek_self _ _ _ _ hset

/-- C4 on `w0`: created with link-creation list `77` and the default
group-creation list, the call dispatches, and the list `202` handed to the
connector embeds `77`. -/
theorem C4_dispatched_gcpl_embeds_lcpl_witness :
    (H5Gcreate2 env0 w0 1 (some "grp") 77 H5P_DEFAULT H5P_DEFAULT).2.trace ≠ w0.trace ∧
    H5P_peek (H5Gcreate2 env0 w0 1 (some "grp") 77 H5P_DEFAULT H5P_DEFAULT).2 202
      H5VL_PROP_GRP_LCPL_ID = some 77 :=
  ⟨by decide,
   (C4_dispatched_gcpl_embeds_lcpl env0 w0 1 (some "grp") 77 H5P_DEFAULT H5P_DEFAULT
      (by decide)).elim
     fun _ h => h.elim fun _ h => h.elim fun _ h => h.elim fun _ h => h.elim fun _ h =>
       h.elim fun _ h => h.2.2.2.2.2.2.2⟩

/-- C3, as stated, fails: one `H5Gcreate2` call on `w0` with the default
group-creation list and link-creation list `77` changes the contents of the
singleton default group-creation list `202`, whose embedded link-creation
property goes from `201` to `77`; a second call then starts from the list the
first one left. -/
theorem C3_counterexample :
    H5I_object_plist w0 env0.H5P_GROUP_CREATE_DEFAULT = some [("group_lcpl_id", 201)] ∧
    H5I_object_plist (H5Gcreate2 env0 w0 1 (some "grp") 77 H5P_DEFAULT H5P_DEFAULT).2
      env0.H5P_GROUP_CREATE_DEFAULT = some [("group_lcpl_id", 77)] ∧
    H5I_object_plist (H5Gcreate2 env0 w0 1 (some "grp") 77 H5P_DEFAULT H5P_DEFAULT).2
      env0.H5P_GROUP_CREATE_DEFAULT ≠ H5I_object_plist w0 env0.H5P_GROUP_CREATE_DEFAULT := by
  decide

/-- C3, amended: `H5Gcreate2` called with `H5P_DEFAULT` as group-creation list
makes no private copy.  It keeps the set of property lists, every list other
than the singleton default group-creation list and every property of the
singleton other than `H5VL_PROP_GRP_LCPL_ID` as they were; the embedded
property of the singleton itself is either left as it was or overwritten in
place with the resolved link-creation identity of the call, and it is
overwritten whenever the call reaches the connector. -/
theorem C3_default_gcpl_set_in_place (env : Env) (w : World) (loc_id : hid_t)
    (name : Option String) (lcpl_id gapl_id : hid_t) :
    (H5Gcreate2 env w loc_id name lcpl_id H5P_DEFAULT gapl_id).2.plists.map Prod.fst
      = w.plists.map Prod.fst ∧
    (∀ id nm, id ≠ env.H5P_GROUP_CREATE_DEFAULT ∨ nm ≠ H5VL_PROP_GRP_LCPL_ID →
      H5P_peek (H5Gcreate2 env w loc_id name lcpl_id H5P_DEFAULT gapl_id).2 id nm
        = H5P_peek w id nm) ∧
    (H5P_peek (H5Gcreate2 env w loc_id name lcpl_id H5P_DEFAULT gapl_id).2
        env.H5P_GROUP_CREATE_DEFAULT H5VL_PROP_GRP_LCPL_ID
        = H5P_peek w env.H5P_GROUP_CREATE_DEFAULT H5VL_PROP_GRP_LCPL_ID ∨
      H5P_peek (H5Gcreate2 env w loc_id name lcpl_id H5P_DEFAULT gapl_id).2
        env.H5P_GROUP_CREATE_DEFAULT H5VL_PROP_GRP_LCPL_ID
        = some (if H5P_DEFAULT = lcpl_id then env.H5P_LINK_CREATE_DEFAULT else lcpl_id)) ∧
    ((H5Gcreate2 env w loc_id name lcpl_id H5P_DEFAULT gapl_id).2.trace ≠ w.trace →
      H5P_peek (H5Gcreate2 env w loc_id name lcpl_id H5P_DEFAULT gapl_id).2
        env.H5P_GROUP_CREATE_DEFAULT H5VL_PROP_GRP_LCPL_ID
        = some (if H5P_DEFAULT = lcpl_id then env.H5P_LINK_CREATE_DEFAULT else lcpl_id)) := by
  have hpl : (H5Gcreate2 env w loc_id name lcpl_id H5P_DEFAULT gapl_id).2.plists = w.plists ∨
      (H5Gcreate2 env w loc_id name lcpl_id H5P_DEFAULT gapl_id).2.plists =
        (H5P_set w env.H5P_GROUP_CREATE_DEFAULT H5VL_PROP_GRP_LCPL_ID
          (if H5P_DEFAULT = lcpl_id then env.H5P_LINK_CREATE_DEFAULT else lcpl_id)).2.plists := by
    rcases H5Gcreate2_outcome env w loc_id name lcpl_id H5P_DEFAULT gapl_id with
      h1 | h1 | ⟨nm, obj, st, gapl', dxpl', _, _, _, _, _, _, h1⟩
    · exact Or.inl (by rw [h1])
    · exact Or.inr (by rw [h1]; simp)
    · obtain ⟨_, _, hfr⟩ := after_dispatch_frame env
        (H5VL_group_create env
          (H5P_set w (if H5P_DEFAULT = H5P_DEFAULT then env.H5P_GROUP_CREATE_DEFAULT
              else H5P_DEFAULT)
            H5VL_PROP_GRP_LCPL_ID
            (if H5P_DEFAULT = lcpl_id then env.H5P_LINK_CREATE_DEFAULT else lcpl_id)).2
          obj.vol_obj
          { type := H5VL_OBJECT_BY_SELF,
            obj_type := H5I_get_type
              (H5P_set w (if H5P_DEFAULT = H5P_DEFAULT then env.H5P_GROUP_CREATE_DEFAULT
                  else H5P_DEFAULT)
                H5VL_PROP_GRP_LCPL_ID
                (if H5P_DEFAULT = lcpl_id then env.H5P_LINK_CREATE_DEFAULT else lcpl_id)).2
              loc_id,
            loc_data := H5VL_loc_data_t.unset }
          obj.vol_info.vol_cls (some nm)
          (if H5P_DEFAULT = H5P_DEFAULT then env.H5P_GROUP_CREATE_DEFAULT else H5P_DEFAULT)
          gapl' dxpl' H5_REQUEST_NULL).2
        (H5VL_group_create env
          (H5P_set w (if H5P_DEFAULT = H5P_DEFAULT then env.H5P_GROUP_CREATE_DEFAULT
              else H5P_DEFAULT)
            H5VL_PROP_GRP_LCPL_ID
            (if H5P_DEFAULT = lcpl_id then env.H5P_LINK_CREATE_DEFAULT else lcpl_id)).2
          obj.vol_obj
          { type := H5VL_OBJECT_BY_SELF,
            obj_type := H5I_get_type
              (H5P_set w (if H5P_DEFAULT = H5P_DEFAULT then env.H5P_GROUP_CREATE_DEFAULT
                  else H5P_DEFAULT)
                H5VL_PROP_GRP_LCPL_ID
                (if H5P_DEFAULT = lcpl_id then env.H5P_LINK_CREATE_DEFAULT else lcpl_id)).2
              loc_id,
            loc_data := H5VL_loc_data_t.unset }
          obj.vol_info.vol_cls (some nm)
          (if H5P_DEFAULT = H5P_DEFAULT then env.H5P_GROUP_CREATE_DEFAULT else H5P_DEFAULT)
          gapl' dxpl' H5_REQUEST_NULL).1
        obj.vol_info dxpl'
      right
      rw [h1]
      simp only [H5VL_group_create] at hfr ⊢
      rw [hfr]
      simp
  have hC4 := H5Gcreate2_dispatch_peek env w loc_id name lcpl_id H5P_DEFAULT gapl_id
  simp only [if_true] at hC4
  refine ⟨?_, ?_, ?_, hC4⟩
  · rcases hpl with h | h
    · rw [h]
    · rw [h]
      exact H5P_set_keys _ _ _ _
  · intro id nm hne
    rcases hpl with h | h
    · exact H5P_peek_congr _ _ h id nm
    · rw [H5P_peek_congr _ _ h id nm]
      exact H5P_set_peek_other _ _ _ _ id nm hne
  · rcases hpl with h | h
    · exact Or.inl (H5P_peek_congr _ _ h _ _)
    · by_cases hs : (H5P_set w env.H5P_GROUP_CREATE_DEFAULT H5VL_PROP_GRP_LCPL_ID
          (if H5P_DEFAULT = lcpl_id then env.H5P_LINK_CREATE_DEFAULT else lcpl_id)).1 < 0
      · left
        rw [H5P_peek_congr _ _ h, H5P_set_failure _ _ _ _ hs]
      · right
        rw [H5P_peek_congr _ _ h]
        exact H5P_set_peek_self _ _ _ _ hs

/-- C3 on `w0`: the call reaches the connector and the singleton `202` itself
holds `77` afterwards. -/
theorem C3_default_gcpl_set_in_place_witness :
    (H5Gcreate2 env0 w0 1 (some "grp") 77 H5P_DEFAULT H5P_DEFAULT).2.trace ≠ w0.trace ∧
    H5P_peek (H5Gcreate2 env0 w0 1 (some "grp") 77 H5P_DEFAULT H5P_DEFAULT).2
      env0.H5P_GROUP_CREATE_DEFAULT H5VL_PROP_GRP_LCPL_ID = some 77 :=
  ⟨by decide,
   (C3_default_gcpl_set_in_place env0 w0 1 (some "grp") 77 H5P_DEFAULT).2.2.2 (by decide)⟩

/-! ## Reference counting and the finalizer (C7) -/

theorem closeCount_append (a b : List Event) :
    closeCount (a ++ b) = closeCount a + closeCount b := by
  induction a with
  | nil => simp [closeCount]
  | cons e t ih =>
    cases e <;> simp [closeCount, ih]
    omega

/-- The finalizer leaves the registry alone and makes exactly one connector
`close` call. -/
theorem H5G__close_group_frame (env : Env) (w : World) (grp : H5VL_object_t) :
    (H5G__close_group env w grp).2.ids = w.ids ∧
    closeCount (H5G__close_group env w grp).2.trace = closeCount w.trace + 1 ∧
    ∃ st rest, (H5G__close_group env w grp).2.trace =
      w.trace ++ Event.group_close grp.vol_obj grp.vol_info.vol_cls env.H5AC_ind_read_dxpl_id
        H5_REQUEST_NULL st :: rest := by
  simp only [H5G__close_group, H5VL_group_close, H5VL_free_object]
  split
  · exact ⟨rfl, by simp [closeCount_append, closeCount], _, [], rfl⟩
  · split
    · exact ⟨rfl, by simp [closeCount_append, closeCount], _, [_],
        (List.append_assoc _ [_] [_]).trans rfl⟩
    · exact ⟨rfl, by simp [closeCount_append, closeCount], _, [_],
        (List.append_assoc _ [_] [_]).trans rfl⟩

theorem incN_spec (w : World) (id : hid_t) (e : H5I_id_info_t)
    (hfind : assocFind id w.ids = some e) (k : Nat) :
    assocFind id (incN w id k).ids = some { e with count := e.count + k } ∧
    (incN w id k).trace = w.trace := by
  induction k with
  | zero => exact ⟨by simpa [incN] using hfind, rfl⟩
  | succ k ih =>
    obtain ⟨h1, h2⟩ := ih
    simp only [incN, H5I_inc_ref, h1]
    exact ⟨by simp [assocFind_assocSet_self, h1, Nat.add_assoc], h2⟩

/-- A close of a group handle whose count is at least two only decrements. -/
theorem H5Gclose_decrement (env : Env) (w : World) (id : hid_t) (e : H5I_id_info_t)
    (hfind : assocFind id w.ids = some e) (htype : e.type = H5I_GROUP) (hc : 2 ≤ e.count) :
    H5Gclose env w id =
      (SUCCEED, { w with ids := assocSet id { e with count := e.count - 1 } w.ids }) := by
  have hv : H5I_object_verify w id H5I_GROUP = some e.obj_ptr := by
    simp [H5I_object_verify, hfind, htype]
  have hc' : ¬ e.count ≤ 1 := by omega
  have hnn : ¬ ((e.count - 1 : Nat) : Int) < 0 := by omega
  simp [H5Gclose, hv, H5I_dec_app_ref, hfind, hc', hnn]

/-- A close of a group handle whose count is one runs the finalizer and
releases the entry, whatever the finalizer reports. -/
theorem H5Gclose_last (env : Env) (w : World) (id : hid_t) (e : H5I_id_info_t)
    (hfind : assocFind id w.ids = some e) (htype : e.type = H5I_GROUP) (hc : e.count ≤ 1) :
    H5Gclose env w id =
      (if (H5G__close_group env w e.obj_ptr).1 < 0 then FAIL else SUCCEED,
       { (H5G__close_group env w e.obj_ptr).2 with
          ids := assocRemove id (H5G__close_group env w e.obj_ptr).2.ids }) := by
  have hv : H5I_object_verify w id H5I_GROUP = some e.obj_ptr := by
    simp [H5I_object_verify, hfind, htype]
  simp only [H5Gclose, hv, H5I_dec_app_ref, hfind, hc, if_true, htype, H5I_id_type_list,
    H5I_GROUP_CLS]
  by_cases hst : (H5G__close_group env w e.obj_ptr).1 < 0
  · simp [hst, FAIL]
  · simp [hst, SUCCEED]

theorem closeN_spec (env : Env) (w : World) (id : hid_t) (e : H5I_id_info_t)
    (hfind : assocFind id w.ids = some e) (htype : e.type = H5I_GROUP) (k : Nat)
    (hk : k < e.count) :
    assocFind id (closeN env w id k).ids = some { e with count := e.count - k } ∧
    (closeN env w id k).trace = w.trace := by
  induction k with
  | zero => exact ⟨by simpa [closeN] using hfind, rfl⟩
  | succ k ih =>
    obtain ⟨h1, h2⟩ := ih (by omega)
    have hd := H5Gclose_decrement env (closeN env w id k) id { e with count := e.count - k }
      h1 htype (by simp only; omega)
    simp only [closeN, hd]
    refine ⟨?_, h2⟩
    simp [assocFind_assocSet_self, h1, Nat.sub_sub]

/-- C7: let `id` be a group handle just created (count one) whose count is then
incremented `N` times.  The count is `N + 1`; after `k ≤ N` calls of
`H5Gclose` it is `N + 1 - k`, still positive, the finalizer has not run (the
trace is untouched) and each of these first `N` calls returns `SUCCEED`.  The
`(N+1)`-th call runs the finalizer `H5G__close_group` on the payload, which
makes the one connector `close` call, and releases the handle: the count is
zero, the call returns `SUCCEED` unless the finalizer failed.  From then on
`H5Gclose`, `H5Gflush`, `H5Grefresh` and `H5Gget_create_plist` on `id` fail and
change nothing, so the finalizer never runs a second time. -/
theorem C7_refcount_close_finalizer_once (env : Env) (w : World) (id : hid_t)
    (e : H5I_id_info_t) (N : Nat)
    (hfind : assocFind id w.ids = some e) (htype : e.type = H5I_GROUP)
    (hcount : e.count = 1) :
    refCount (incN w id N) id = N + 1 ∧
    (∀ k, k ≤ N →
      refCount (closeN env (incN w id N) id k) id = N + 1 - k ∧
      (closeN env (incN w id N) id k).trace = w.trace) ∧
    (∀ k, k < N → (H5Gclose env (closeN env (incN w id N) id k) id).1 = SUCCEED) ∧
    closeN env (incN w id N) id (N + 1) =
      { (H5G__close_group env (closeN env (incN w id N) id N) e.obj_ptr).2 with
        ids := assocRemove id (closeN env (incN w id N) id N).ids } ∧
    (H5Gclose env (closeN env (incN w id N) id N) id).1 =
      (if (H5G__close_group env (closeN env (incN w id N) id N) e.obj_ptr).1 < 0 then FAIL
        else SUCCEED) ∧
    closeCount (closeN env (incN w id N) id (N + 1)).trace = closeCount w.trace + 1 ∧
    (∃ st rest, (closeN env (incN w id N) id (N + 1)).trace =
      w.trace ++ Event.group_close e.obj_ptr.vol_obj e.obj_ptr.vol_info.vol_cls
        env.H5AC_ind_read_dxpl_id H5_REQUEST_NULL st :: rest) ∧
    refCount (closeN env (incN w id N) id (N + 1)) id = 0 ∧
    assocFind id (closeN env (incN w id N) id (N + 1)).ids = none ∧
    (H5Gclose env (closeN env (incN w id N) id (N + 1)) id
        = (FAIL, closeN env (incN w id N) id (N + 1)) ∧
      H5Gflush env (closeN env (incN w id N) id (N + 1)) id
        = (FAIL, closeN env (incN w id N) id (N + 1)) ∧
      H5Grefresh env (closeN env (incN w id N) id (N + 1)) id
        = (FAIL, closeN env (incN w id N) id (N + 1)) ∧
      H5Gget_create_plist env (closeN env (incN w id N) id (N + 1)) id
        = (H5I_INVALID_HID, closeN env (incN w id N) id (N + 1))) ∧
    (∀ k, N + 1 ≤ k →
      closeN env (incN w id N) id k = closeN env (incN w id N) id (N + 1)) := by
  obtain ⟨hi1, hi2⟩ := incN_spec w id e hfind N
  have hspec : ∀ k, k ≤ N →
      assocFind id (closeN env (incN w id N) id k).ids
        = some { e with count := e.count + N - k } ∧
      (closeN env (incN w id N) id k).trace = w.trace := by
    intro k hk
    have h := closeN_spec env (incN w id N) id { e with count := e.count + N } hi1 htype k
      (by simp only; omega)
    exact ⟨h.1, h.2.trans hi2⟩
  obtain ⟨hN1, hN2⟩ := hspec N (le_refl N)
  have hlast := H5Gclose_last env (closeN env (incN w id N) id N) id
    { e with count := e.count + N - N } hN1 htype (by simp only; omega)
  obtain ⟨hf1, hf2, hf3⟩ := H5G__close_group_frame env (closeN env (incN w id N) id N) e.obj_ptr
  have hstep : closeN env (incN w id N) id (N + 1) =
      { (H5G__close_group env (closeN env (incN w id N) id N) e.obj_ptr).2 with
        ids := assocRemove id (closeN env (incN w id N) id N).ids } := by
    simp only [closeN, hlast, hf1]
  have hgone : assocFind id (closeN env (incN w id N) id (N + 1)).ids = none := by
    rw [hstep]
    exact assocFind_assocRemove_self id _
  have hv : H5I_object_verify (closeN env (incN w id N) id (N + 1)) id H5I_GROUP = none := by
    simp [H5I_object_verify, hgone]
  have hfail := group_calls_fail_of_verify_none env (closeN env (incN w id N) id (N + 1)) id hv
  refine ⟨?_, ?_, ?_, hstep, ?_, ?_, ?_, ?_, hgone, ?_, ?_⟩
  · simp [refCount, hi1, hcount]
    omega
  · intro k hk
    obtain ⟨h1, h2⟩ := hspec k hk
    refine ⟨?_, h2⟩
    simp [refCount, h1, hcount]
    omega
  · intro k hk
    obtain ⟨h1, _⟩ := hspec k (le_of_lt hk)
    rw [H5Gclose_decrement env _ id _ h1 htype (by simp only; omega)]
  · rw [hlast]
  · rw [hstep]
    simp only
    rw [hf2, hN2]
  · obtain ⟨st, rest, h⟩ := hf3
    refine ⟨st, rest, ?_⟩
    rw [hstep]
    simp only
    rw [h, hN2]
  · simp [refCount, hgone]
  · exact ⟨hfail.2.2.2, hfail.2.1, hfail.2.2.1, hfail.1⟩
  · intro k hk
    induction k with
    | zero => omega
    | succ k ih =>
      by_cases hk' : k = N
      · subst hk'
        rfl
      · have hprev := ih (by omega)
        have hstepk : closeN env (incN w id N) id (k + 1)
            = (H5Gclose env (closeN env (incN w id N) id k) id).2 := rfl
        rw [hstepk, hprev, hfail.2.2.2]

/-- C7 on the group handle `2` of `w0` after two increments: three closes are
needed, and the third runs the finalizer. -/
theorem C7_refcount_close_finalizer_once_witness :
    refCount (incN w0 2 2) 2 = 3 ∧
    refCount (closeN env0 (incN w0 2 2) 2 2) 2 = 1 ∧
    (closeN env0 (incN w0 2 2) 2 2).trace = w0.trace ∧
    closeCount (closeN env0 (incN w0 2 2) 2 3).trace = closeCount w0.trace + 1 ∧
    H5Gflush env0 (closeN env0 (incN w0 2 2) 2 3) 2
      = (FAIL, closeN env0 (incN w0 2 2) 2 3) :=
  have h := C7_refcount_close_finalizer_once env0 w0 2
    { type := H5I_GROUP, count := 1,
      obj_ptr := { vol_obj := 20, vol_info := { vol_cls := 7, vol_id := 70 } } } 2
    (by decide) rfl rfl
  ⟨h.1, (h.2.1 2 (le_refl 2)).1, (h.2.1 2 (le_refl 2)).2, h.2.2.2.2.2.1,
   h.2.2.2.2.2.2.2.2.2.1.2.1⟩

/-- C2 on `w0` with a registry that cannot allocate: the call closes the group
it obtained exactly once and returns `H5I_INVALID_HID`. -/
theorem C2_close_once_on_register_failure_witness :
    ClosedOnceOnRegisterFailure w0 1 (H5Gcreate2 envRegFail w0 1 (some "grp") 77 0 0) ∧
    H5Gcreate2 envRegFail w0 1 (some "grp") 77 0 0 =
      (H5I_INVALID_HID,
        { w0 with
          plists := [(201, []), (202, [("group_lcpl_id", 77)]), (77, [])]
          trace :=
            [Event.group_create 10
                { obj_type := H5I_FILE, type := H5VL_OBJECT_BY_SELF,
                  loc_data := H5VL_loc_data_t.unset }
                7 (some "grp") 202 203 900 none (some 500),
              Event.register_id H5I_GROUP 500 { vol_cls := 7, vol_id := 70 } true (-1),
              Event.group_close 500 7 900 none 0] }) :=
  ⟨(C2_close_once_on_register_failure envRegFail w0 1 (some "grp") 77 0 0).1, by decide⟩

/-! ## Location parameters of the three info queries (C11) -/

/-- C11: a call of `H5Gget_info`, `H5Gget_info_by_name` or `H5Gget_info_by_idx`
that reaches the connector (it extends the trace) makes exactly one connector
`get` with query kind `H5VL_GROUP_GET_INFO`, on the backend object and
connector class of the location, and with a location parameter determined by
the addressing mode: `H5VL_OBJECT_BY_SELF` with no other data for `H5Gget_info`;
`H5VL_OBJECT_BY_NAME` with the caller's name and the resolved access list for
`H5Gget_info_by_name`; `H5VL_OBJECT_BY_IDX` with the caller's name, index kind,
order, position and the resolved access list for `H5Gget_info_by_idx`; in all
three the object type is the type of the location handle. -/
theorem C11_get_info_location_parameter (env : Env) (w : World) (loc_id : hid_t)
    (name : Option String) (group_info : Option Nat) (lapl_id : hid_t)
    (idx_type order : Int) (n : Nat) :
    ((H5Gget_info env w loc_id group_info).2.trace ≠ w.trace →
      ∃ obj info ret, H5I_object w loc_id = some obj ∧ group_info = some info ∧
        (H5Gget_info env w loc_id group_info).2.trace = w.trace ++
          [Event.group_get obj.vol_obj obj.vol_info.vol_cls H5VL_GROUP_GET_INFO
            env.H5AC_ind_read_dxpl_id H5_REQUEST_NULL
            (H5VL_get_args.get_info
              { type := H5VL_OBJECT_BY_SELF, obj_type := H5I_get_type w loc_id,
                loc_data := H5VL_loc_data_t.unset } info) ret]) ∧
    ((H5Gget_info_by_name env w loc_id name group_info lapl_id).2.trace ≠ w.trace →
      ∃ obj nm info st lapl' dxpl' ret, H5I_object w loc_id = some obj ∧ name = some nm ∧
        group_info = some info ∧
        env.H5P_verify_apl_and_dxpl w lapl_id H5P_CLS_LACC env.H5AC_ind_read_dxpl_id loc_id
          false = (st, lapl', dxpl') ∧
        (H5Gget_info_by_name env w loc_id name group_info lapl_id).2.trace = w.trace ++
          [Event.group_get obj.vol_obj obj.vol_info.vol_cls H5VL_GROUP_GET_INFO
            dxpl' H5_REQUEST_NULL
            (H5VL_get_args.get_info
              { type := H5VL_OBJECT_BY_NAME, obj_type := H5I_get_type w loc_id,
                loc_data := H5VL_loc_data_t.loc_by_name nm lapl' } info) ret]) ∧
    ((H5Gget_info_by_idx env w loc_id name idx_type order n group_info lapl_id).2.trace
        ≠ w.trace →
      ∃ obj nm info st lapl' dxpl' ret, H5I_object w loc_id = some obj ∧ name = some nm ∧
        group_info = some info ∧
        env.H5P_verify_apl_and_dxpl w lapl_id H5P_CLS_LACC env.H5AC_ind_read_dxpl_id loc_id
          false = (st, lapl', dxpl') ∧
        (H5Gget_info_by_idx env w loc_id name idx_type order n group_info lapl_id).2.trace
          = w.trace ++
          [Event.group_get obj.vol_obj obj.vol_info.vol_cls H5VL_GROUP_GET_INFO
            dxpl' H5_REQUEST_NULL
            (H5VL_get_args.get_info
              { type := H5VL_OBJECT_BY_IDX, obj_type := H5I_get_type w loc_id,
                loc_data := H5VL_loc_data_t.loc_by_idx nm idx_type order n lapl' } info)
            ret]) := by
  refine ⟨?_, ?_, ?_⟩
  · intro h
    by_cases ht : H5I_GROUP = H5I_get_type w loc_id ∨ H5I_FILE = H5I_get_type w loc_id
    · cases group_info with
      | none => simp [H5Gget_info, ht] at h
      | some info =>
        cases hobj : H5I_object w loc_id with
        | none => simp [H5Gget_info, ht, hobj] at h
        | some obj =>
          refine ⟨obj, info,
            (env.group_get w obj.vol_obj obj.vol_info.vol_cls H5VL_GROUP_GET_INFO
              env.H5AC_ind_read_dxpl_id H5_REQUEST_NULL
              (H5VL_get_args.get_info
                { type := H5VL_OBJECT_BY_SELF, obj_type := H5I_get_type w loc_id,
                  loc_data := H5VL_loc_data_t.unset } info)).1, rfl, rfl, ?_⟩
          by_cases hr : (env.group_get w obj.vol_obj obj.vol_info.vol_cls H5VL_GROUP_GET_INFO
              env.H5AC_ind_read_dxpl_id H5_REQUEST_NULL
              (H5VL_get_args.get_info
                { type := H5VL_OBJECT_BY_SELF, obj_type := H5I_get_type w loc_id,
                  loc_data := H5VL_loc_data_t.unset } info)).1 < 0
          · simp [H5Gget_info, ht, hobj, H5VL_group_get, hr]
          · simp [H5Gget_info, ht, hobj, H5VL_group_get, hr]
    · simp [H5Gget_info, ht] at h
  · intro h
    cases name with
    | none => simp [H5Gget_info_by_name] at h
    | some nm =>
      by_cases hnm : nm = ""
      · simp [H5Gget_info_by_name, hnm] at h
      · cases group_info with
        | none => simp [H5Gget_info_by_name, hnm] at h
        | some info =>
          rcases hv : env.H5P_verify_apl_and_dxpl w lapl_id H5P_CLS_LACC
            env.H5AC_ind_read_dxpl_id loc_id false with ⟨st, lapl', dxpl'⟩
          by_cases hst : st < 0
          · simp [H5Gget_info_by_name, hnm, hv, hst] at h
          · cases hobj : H5I_object w loc_id with
            | none => simp [H5Gget_info_by_name, hnm, hv, hst, hobj] at h
            | some obj =>
              refine ⟨obj, nm, info, st, lapl', dxpl',
                (env.group_get w obj.vol_obj obj.vol_info.vol_cls H5VL_GROUP_GET_INFO
                  dxpl' H5_REQUEST_NULL
                  (H5VL_get_args.get_info
                    { type := H5VL_OBJECT_BY_NAME, obj_type := H5I_get_type w loc_id,
                      loc_data := H5VL_loc_data_t.loc_by_name nm lapl' } info)).1,
                rfl, rfl, rfl, rfl, ?_⟩
              by_cases hr : (env.group_get w obj.vol_obj obj.vol_info.vol_cls
                  H5VL_GROUP_GET_INFO dxpl' H5_REQUEST_NULL
                  (H5VL_get_args.get_info
                    { type := H5VL_OBJECT_BY_NAME, obj_type := H5I_get_type w loc_id,
                      loc_data := H5VL_loc_data_t.loc_by_name nm lapl' } info)).1 < 0
              · simp [H5Gget_info_by_name, hnm, hv, hst, hobj, H5VL_group_get, hr]
              · simp [H5Gget_info_by_name, hnm, hv, hst, hobj, H5VL_group_get, hr]
  · intro h
    cases name with
    | none => simp [H5Gget_info_by_idx] at h
    | some nm =>
      by_cases hnm : nm = ""
      · simp [H5Gget_info_by_idx, hnm] at h
      · by_cases hi : idx_type ≤ env.H5_INDEX_UNKNOWN ∨ idx_type ≥ env.H5_INDEX_N
        · simp [H5Gget_info_by_idx, hnm, hi] at h
        · by_cases ho : order ≤ env.H5_ITER_UNKNOWN ∨ order ≥ env.H5_ITER_N
          · simp [H5Gget_info_by_idx, hnm, hi, ho] at h
          · cases group_info with
            | none => simp [H5Gget_info_by_idx, hnm, hi, ho] at h
            | some info =>
              rcases hv : env.H5P_verify_apl_and_dxpl w lapl_id H5P_CLS_LACC
                env.H5AC_ind_read_dxpl_id loc_id false with ⟨st, lapl', dxpl'⟩
              by_cases hst : st < 0
              · simp [H5Gget_info_by_idx, hnm, hi, ho, hv, hst] at h
              · cases hobj : H5I_object w loc_id with
                | none => simp [H5Gget_info_by_idx, hnm, hi, ho, hv, hst, hobj] at h
                | some obj =>
                  refine ⟨obj, nm, info, st, lapl', dxpl',
                    (env.group_get w obj.vol_obj obj.vol_info.vol_cls H5VL_GROUP_GET_INFO
                      dxpl' H5_REQUEST_NULL
                      (H5VL_get_args.get_info
                        { type := H5VL_OBJECT_BY_IDX, obj_type := H5I_get_type w loc_id,
                          loc_data := H5VL_loc_data_t.loc_by_idx nm idx_type order n lapl' }
                        info)).1,
                    rfl, rfl, rfl, rfl, ?_⟩
                  by_cases hr : (env.group_get w obj.vol_obj obj.vol_info.vol_cls
                      H5VL_GROUP_GET_INFO dxpl' H5_REQUEST_NULL
                      (H5VL_get_args.get_info
                        { type := H5VL_OBJECT_BY_IDX, obj_type := H5I_get_type w loc_id,
                          loc_data := H5VL_loc_data_t.loc_by_idx nm idx_type order n lapl' }
                        info)).1 < 0
                  · simp [H5Gget_info_by_idx, hnm, hi, ho, hv, hst, hobj, H5VL_group_get, hr]
                  · simp [H5Gget_info_by_idx, hnm, hi, ho, hv, hst, hobj, H5VL_group_get, hr]

/-! ## Registration of the acquired object (C12) and the cleanup status (C16) -/

/-- The three ways the part after the connector call can end, with the world
each leaves. -/
theorem after_dispatch_cases (env : Env) (w2 : World) (ret : Option Obj) (vi : H5VL_t)
    (dxpl' : hid_t) :
    (ret = none ∧
      (match ((ret, w2) : Option Obj × World) with
        | (none, w2) => (H5I_INVALID_HID, w2)
        | (some g, w2) =>
          if (H5VL_register_id env w2 H5I_GROUP g vi true).1 < 0 then
            (H5I_INVALID_HID,
              (H5VL_group_close env (H5VL_register_id env w2 H5I_GROUP g vi true).2
                g vi.vol_cls dxpl' H5_REQUEST_NULL).2)
          else H5VL_register_id env w2 H5I_GROUP g vi true) = (H5I_INVALID_HID, w2)) ∨
    (∃ g rv st, ret = some g ∧ rv < 0 ∧
      (match ((ret, w2) : Option Obj × World) with
        | (none, w2) => (H5I_INVALID_HID, w2)
        | (some g, w2) =>
          if (H5VL_register_id env w2 H5I_GROUP g vi true).1 < 0 then
            (H5I_INVALID_HID,
              (H5VL_group_close env (H5VL_register_id env w2 H5I_GROUP g vi true).2
                g vi.vol_cls dxpl' H5_REQUEST_NULL).2)
          else H5VL_register_id env w2 H5I_GROUP g vi true) =
        (H5I_INVALID_HID,
          { w2 with trace := w2.trace ++
            [Event.register_id H5I_GROUP g vi true rv,
             Event.group_close g vi.vol_cls dxpl' H5_REQUEST_NULL st] })) ∨
    (∃ g, ret = some g ∧ 0 < H5I_next_id w2 ∧
      (match ((ret, w2) : Option Obj × World) with
        | (none, w2) => (H5I_INVALID_HID, w2)
        | (some g, w2) =>
          if (H5VL_register_id env w2 H5I_GROUP g vi true).1 < 0 then
            (H5I_INVALID_HID,
              (H5VL_group_close env (H5VL_register_id env w2 H5I_GROUP g vi true).2
                g vi.vol_cls dxpl' H5_REQUEST_NULL).2)
          else H5VL_register_id env w2 H5I_GROUP g vi true) =
        (H5I_next_id w2,
          { w2 with
            ids := (H5I_next_id w2,
                    { type := H5I_GROUP, count := 1,
                      obj_ptr := { vol_obj := g, vol_info := vi } }) :: w2.ids,
            trace := w2.trace ++ [Event.register_id H5I_GROUP g vi true (H5I_next_id w2)] })) := by
  cases ret with
  | none => exact Or.inl ⟨rfl, rfl⟩
  | some g =>
    rcases H5VL_register_id_cases env w2 H5I_GROUP g vi true with ⟨hlt, heq⟩ | ⟨hge, heq⟩
    · refine Or.inr (Or.inl ⟨g, env.register_status w2 H5I_GROUP g vi true,
        env.group_close
          { w2 with trace := w2.trace ++
            [Event.register_id H5I_GROUP g vi true
              (env.register_status w2 H5I_GROUP g vi true)] }
          g vi.vol_cls dxpl' H5_REQUEST_NULL, rfl, hlt, ?_⟩)
      simp only [heq]
      simp [hlt, H5VL_group_close]
    · have hpos := H5I_next_id_pos w2
      have hnot : ¬ H5I_next_id w2 < 0 := not_lt.mpr (le_of_lt hpos)
      refine Or.inr (Or.inr ⟨g, rfl, hpos, ?_⟩)
      simp only [heq]
      simp [hnot]

/-- Registration discipline of the part after the connector call. -/
theorem registered_after_dispatch (env : Env) (w wd : World) (loc_id : hid_t)
    (obj : H5VL_object_t) (e : Event) (ret : Option Obj) (dxpl' : hid_t)
    (htr : wd.trace = w.trace) (hids : wd.ids = w.ids)
    (hobj : H5I_object w loc_id = some obj)
    (hacq : ∀ g, ret = some g → e.acquired = some (g, obj.vol_info.vol_cls)) :
    RegisteredFromDispatch w loc_id
      (match ((ret, { wd with trace := wd.trace ++ [e] }) : Option Obj × World) with
        | (none, w2) => (H5I_INVALID_HID, w2)
        | (some g, w2) =>
          if (H5VL_register_id env w2 H5I_GROUP g obj.vol_info true).1 < 0 then
            (H5I_INVALID_HID,
              (H5VL_group_close env (H5VL_register_id env w2 H5I_GROUP g obj.vol_info true).2
                g obj.vol_info.vol_cls dxpl' H5_REQUEST_NULL).2)
          else H5VL_register_id env w2 H5I_GROUP g obj.vol_info true) := by
  have hinv : (H5I_INVALID_HID : hid_t) < 0 := by decide
  rcases after_dispatch_cases env { wd with trace := wd.trace ++ [e] } ret obj.vol_info dxpl'
    with ⟨_, heq⟩ | ⟨g, rv, st, _, _, heq⟩ | ⟨g, hret, hpos, heq⟩
  · rw [heq]
    exact ⟨fun h => absurd rfl h, fun _ => hids⟩
  · rw [heq]
    exact ⟨fun h => absurd rfl h, fun _ => hids⟩
  · rw [heq]
    refine ⟨fun _ => ⟨obj, e, g, hobj, hacq g hret, ?_, ?_, ?_⟩, fun h => ?_⟩
    · simp [htr]
    · simp [hids]
    · simp [H5I_object_verify, assocFind]
    · simp only at h
      rw [h] at hpos
      exact absurd hinv (not_lt.mpr (le_of_lt hpos))

/-- A failed registration forces the result, whatever the cleanup `close`
reports. -/
theorem status_ignored_after_dispatch (env : Env) (w wd : World)
    (obj : H5VL_object_t) (e : Event) (ret : Option Obj) (dxpl' : hid_t)
    (htr : wd.trace = w.trace)
    (hreg : ∀ t o vi a rv, e ≠ Event.register_id t o vi a rv) :
    CleanupStatusIgnored w
      (match ((ret, { wd with trace := wd.trace ++ [e] }) : Option Obj × World) with
        | (none, w2) => (H5I_INVALID_HID, w2)
        | (some g, w2) =>
          if (H5VL_register_id env w2 H5I_GROUP g obj.vol_info true).1 < 0 then
            (H5I_INVALID_HID,
              (H5VL_group_close env (H5VL_register_id env w2 H5I_GROUP g obj.vol_info true).2
                g obj.vol_info.vol_cls dxpl' H5_REQUEST_NULL).2)
          else H5VL_register_id env w2 H5I_GROUP g obj.vol_info true) := by
  intro new hnew hex
  obtain ⟨t, o, vi, a, rv, hrv, hmem⟩ := hex
  rcases after_dispatch_cases env { wd with trace := wd.trace ++ [e] } ret obj.vol_info dxpl'
    with ⟨_, heq⟩ | ⟨g, rv', st, _, _, heq⟩ | ⟨g, hret, hpos, heq⟩
  · rw [heq] at hnew
    simp only [htr] at hnew
    have hn : new = [e] := (List.append_cancel_left hnew).symm
    rw [hn] at hmem
    simp only [List.mem_singleton] at hmem
    exact absurd hmem.symm (hreg t o vi a rv)
  · rw [heq] at hnew ⊢
    simp only [htr, List.append_assoc] at hnew
    have hn : new = [e] ++ [Event.register_id H5I_GROUP g obj.vol_info true rv',
        Event.group_close g obj.vol_info.vol_cls dxpl' H5_REQUEST_NULL st] :=
      (List.append_cancel_left hnew).symm
    exact ⟨rfl, e, g, obj.vol_info, rv', dxpl', st, hn⟩
  · rw [heq] at hnew
    simp only [htr, List.append_assoc] at hnew
    have hn : new = [e] ++ [Event.register_id H5I_GROUP g obj.vol_info true
        (H5I_next_id { wd with trace := wd.trace ++ [e] })] :=
      (List.append_cancel_left hnew).symm
    rw [hn] at hmem
    simp only [List.singleton_append, List.mem_cons, List.mem_singleton, List.not_mem_nil,
      or_false] at hmem
    rcases hmem with hmem | hmem
    · exact absurd hmem.symm (hreg t o vi a rv)
    · injection hmem with _ _ _ _ h5
      rw [h5] at hrv
      exact absurd hrv (not_lt.mpr (le_of_lt hpos))

/-- The block after `done` never changes the value chosen before it. -/
theorem H5G_done_fst (env : Env) (l : H5G_locals) (w : World) :
    (H5G_done env l w).1 = l.ret_value := by
  unfold H5G_done
  split
  · rename_i h
    split
    · simp only
      split
      · exact h
      · rfl
    · rfl
  · rfl

/-- A call that appended no event has no failed registration to answer for. -/
theorem status_ignored_of_trace_eq (w : World) (r : hid_t × World)
    (h : r.2.trace = w.trace) : CleanupStatusIgnored w r := by
  intro new hnew hex
  have hn : w.trace ++ new = w.trace ++ [] := by
    rw [← hnew, h, List.append_nil]
  have hnil : new = [] := List.append_cancel_left hn
  obtain ⟨t, o, vi, a, rv, _, hmem⟩ := hex
  rw [hnil] at hmem
  exact absurd hmem (List.not_mem_nil _)

/-- C12: whenever `H5Gcreate2`, `H5Gcreate_anon` or `H5Gopen2` returns a value
other than `H5I_INVALID_HID`, that value is the identifier returned by a
registration in the group class, made in the same call, of the backend object
the connector `create`/`open` call returned, paired with the connector binding
of the location handle, and the registry gained exactly that entry; when the
call returns `H5I_INVALID_HID` the registry is as it was before the call. -/
theorem C12_result_is_registered_acquisition (env : Env) (w : World) (loc_id : hid_t)
    (name : Option String) (lcpl_id gcpl_id gapl_id : hid_t) :
    RegisteredFromDispatch w loc_id (H5Gcreate2 env w loc_id name lcpl_id gcpl_id gapl_id) ∧
    RegisteredFromDispatch w loc_id (H5Gcreate_anon env w loc_id gcpl_id gapl_id) ∧
    RegisteredFromDispatch w loc_id (H5Gopen2 env w loc_id name gapl_id) := by
  refine ⟨?_, ?_, ?_⟩
  · rcases H5Gcreate2_outcome env w loc_id name lcpl_id gcpl_id gapl_id with
      h | h | ⟨nm, obj, st, gapl', dxpl', _, _, hobj, _, _, _, h⟩
    · rw [h]
      exact ⟨fun hne => absurd rfl hne, fun _ => rfl⟩
    · rw [h]
      exact ⟨fun hne => absurd rfl hne, fun _ => H5P_set_ids _ _ _ _⟩
    · rw [h]
      exact registered_after_dispatch env w _ loc_id obj _ _ dxpl' (H5P_set_trace _ _ _ _)
        (H5P_set_ids _ _ _ _) hobj (fun g hg => by simp [Event.acquired, hg])
  · rcases H5Gcreate_anon_outcome env w loc_id gcpl_id gapl_id with
      h | ⟨obj, st, gapl', dxpl', hobj, _, _, _, h⟩
    · rw [h]
      exact ⟨fun hne => absurd rfl hne, fun _ => rfl⟩
    · rw [h]
      exact registered_after_dispatch env w w loc_id obj _ _ dxpl' rfl rfl hobj
        (fun g hg => by simp [Event.acquired, hg])
  · rcases H5Gopen2_outcome env w loc_id name gapl_id with
      h | ⟨nm, obj, st, gapl', dxpl', _, _, hobj, _, _, h⟩
    · rw [h]
      exact ⟨fun hne => absurd rfl hne, fun _ => rfl⟩
    · rw [h]
      exact registered_after_dispatch env w w loc_id obj _ _ dxpl' rfl rfl hobj
        (fun g hg => by simp [Event.acquired, hg])

/-- C12 on `w0`: the successful `H5Gopen2` returns the fresh identifier `203`,
registered for the object `501` the connector returned with the binding of the
file handle; the call with a failing registry leaves the registry alone. -/
theorem C12_result_is_registered_acquisition_witness :
    (H5Gopen2 env0 w0 1 (some "grp") 0).1 = 203 ∧
    H5I_object_verify (H5Gopen2 env0 w0 1 (some "grp") 0).2 203 H5I_GROUP
      = some { vol_obj := 501, vol_info := { vol_cls := 7, vol_id := 70 } } ∧
    (H5Gopen2 envRegFail w0 1 (some "grp") 0).2.ids = w0.ids :=
  ⟨by decide, by decide,
   (C12_result_is_registered_acquisition envRegFail w0 1 (some "grp") 0 0 0).2.2.2
     (by decide)⟩

/-- C16: in `H5Gcreate2`, `H5Gcreate_anon` and `H5Gopen2` the value returned does
not depend on what the connector `close` reports (replacing the `close` answer
function by any other leaves the result unchanged), and on the path where the
registration fails after a successful connector `create`/`open` the result is
`H5I_INVALID_HID` whatever status the cleanup `close` returns. -/
theorem C16_cleanup_status_never_changes_result (env : Env) (w : World) (loc_id : hid_t)
    (name : Option String) (lcpl_id gcpl_id gapl_id : hid_t)
    (gc : World → Obj → Nat → hid_t → Option Nat → herr_t) :
    ((H5Gcreate2 { env with group_close := gc } w loc_id name lcpl_id gcpl_id gapl_id).1
        = (H5Gcreate2 env w loc_id name lcpl_id gcpl_id gapl_id).1 ∧
      CleanupStatusIgnored w (H5Gcreate2 env w loc_id name lcpl_id gcpl_id gapl_id)) ∧
    ((H5Gcreate_anon { env with group_close := gc } w loc_id gcpl_id gapl_id).1
        = (H5Gcreate_anon env w loc_id gcpl_id gapl_id).1 ∧
      CleanupStatusIgnored w (H5Gcreate_anon env w loc_id gcpl_id gapl_id)) ∧
    ((H5Gopen2 { env with group_close := gc } w loc_id name gapl_id).1
        = (H5Gopen2 env w loc_id name gapl_id).1 ∧
      CleanupStatusIgnored w (H5Gopen2 env w loc_id name gapl_id)) := by
  refine ⟨⟨?_, ?_⟩, ⟨?_, ?_⟩, ⟨?_, ?_⟩⟩
  · show (H5G_done _ _ _).1 = (H5G_done _ _ _).1
    rw [H5G_done_fst, H5G_done_fst]
    rfl
  · rcases H5Gcreate2_outcome env w loc_id name lcpl_id gcpl_id gapl_id with
      h | h | ⟨nm, obj, st, gapl', dxpl', _, _, hobj, _, _, _, h⟩
    · rw [h]
      exact status_ignored_of_trace_eq w _ rfl
    · rw [h]
      exact status_ignored_of_trace_eq w _ (H5P_set_trace _ _ _ _)
    · rw [h]
      exact status_ignored_after_dispatch env w _ obj _ _ dxpl' (H5P_set_trace _ _ _ _)
        (fun _ _ _ _ _ => by simp)
  · show (H5G_done _ _ _).1 = (H5G_done _ _ _).1
    rw [H5G_done_fst, H5G_done_fst]
    rfl
  · rcases H5Gcreate_anon_outcome env w loc_id gcpl_id gapl_id with
      h | ⟨obj, st, gapl', dxpl', hobj, _, _, _, h⟩
    · rw [h]
      exact status_ignored_of_trace_eq w _ rfl
    · rw [h]
      exact status_ignored_after_dispatch env w w obj _ _ dxpl' rfl
        (fun _ _ _ _ _ => by simp)
  · show (H5G_done _ _ _).1 = (H5G_done _ _ _).1
    rw [H5G_done_fst, H5G_done_fst]
    rfl
  · rcases H5Gopen2_outcome env w loc_id name gapl_id with
      h | ⟨nm, obj, st, gapl', dxpl', _, _, hobj, _, _, h⟩
    · rw [h]
      exact status_ignored_of_trace_eq w _ rfl
    · rw [h]
      exact status_ignored_after_dispatch env w w obj _ _ dxpl' rfl
        (fun _ _ _ _ _ => by simp)

/-- C16 on `w0` with a registry that cannot allocate: the call returns
`H5I_INVALID_HID` when the cleanup `close` succeeds (status `0` in the trace)
and when it fails (status `-1` in the trace). -/
theorem C16_cleanup_status_never_changes_result_witness :
    (H5Gcreate2 envRegCloseFail w0 1 (some "grp") 77 0 0).1
      = (H5Gcreate2 envRegFail w0 1 (some "grp") 77 0 0).1 ∧
    (H5Gcreate2 envRegFail w0 1 (some "grp") 77 0 0).1 = H5I_INVALID_HID ∧
    (H5Gcreate2 envRegFail w0 1 (some "grp") 77 0 0).2.trace.getLast?
      = some (Event.group_close 500 7 900 none 0) ∧
    (H5Gcreate2 envRegCloseFail w0 1 (some "grp") 77 0 0).2.trace.getLast?
      = some (Event.group_close 500 7 900 none (-1)) :=
  ⟨(C16_cleanup_status_never_changes_result envRegFail w0 1 (some "grp") 77 0 0
      (fun _ _ _ _ _ => -1)).1.1,
   by decide, by decide, by decide⟩

/-! ## The property set precedes the steps that can still fail (C17) -/

/-- C17: `H5Gcreate2` is not atomic with respect to the group-creation list.
Given a non-empty name, lists of the right classes, an accepted access list and
a group-creation list on which the property can be set, if the location
identifier does not resolve, or it resolves and the connector `create` fails,
the call returns `H5I_INVALID_HID` and yet the resolved group-creation list has
its embedded link-creation property set to the resolved link-creation identity
of the call. -/
theorem C17_property_set_survives_failure (env : Env) (w : World) (loc_id : hid_t)
    (nm : String) (lcpl_id gcpl_id gapl_id : hid_t)
    (hnm : nm ≠ "")
    (hl : H5P_DEFAULT = lcpl_id ∨ env.H5P_isa_class w lcpl_id env.H5P_LINK_CREATE = TRUE)
    (hg : H5P_DEFAULT = gcpl_id ∨ env.H5P_isa_class w gcpl_id env.H5P_GROUP_CREATE = TRUE)
    (hv : ¬ (env.H5P_verify_apl_and_dxpl w gapl_id H5P_CLS_GACC env.H5AC_ind_read_dxpl_id
      loc_id true).1 < 0)
    (hset : ¬ (H5P_set w
      (if H5P_DEFAULT = gcpl_id then env.H5P_GROUP_CREATE_DEFAULT else gcpl_id)
      H5VL_PROP_GRP_LCPL_ID
      (if H5P_DEFAULT = lcpl_id then env.H5P_LINK_CREATE_DEFAULT else lcpl_id)).1 < 0)
    (hfail : H5I_object w loc_id = none ∨
      ∀ obj lp cls gcpl gapl dxpl req wd,
        env.group_create wd obj lp cls (some nm) gcpl gapl dxpl req = none) :
    (H5Gcreate2 env w loc_id (some nm) lcpl_id gcpl_id gapl_id).1 = H5I_INVALID_HID ∧
    H5P_peek (H5Gcreate2 env w loc_id (some nm) lcpl_id gcpl_id gapl_id).2
      (if H5P_DEFAULT = gcpl_id then env.H5P_GROUP_CREATE_DEFAULT else gcpl_id)
      H5VL_PROP_GRP_LCPL_ID
      = some (if H5P_DEFAULT = lcpl_id then env.H5P_LINK_CREATE_DEFAULT else lcpl_id) := by
  have hl' : ¬ (H5P_DEFAULT ≠ lcpl_id ∧
      TRUE ≠ env.H5P_isa_class w lcpl_id env.H5P_LINK_CREATE) := by
    rintro ⟨h1, h2⟩
    rcases hl with h | h
    · exact h1 h
    · exact h2 h.symm
  have hg' : ¬ (H5P_DEFAULT ≠ gcpl_id ∧
      TRUE ≠ env.H5P_isa_class w gcpl_id env.H5P_GROUP_CREATE) := by
    rintro ⟨h1, h2⟩
    rcases hg with h | h
    · exact h1 h
    · exact h2 h.symm
  rcases hvq : env.H5P_verify_apl_and_dxpl w gapl_id H5P_CLS_GACC env.H5AC_ind_read_dxpl_id
    loc_id true with ⟨st, gapl', dxpl'⟩
  have hst : ¬ st < 0 := by
    rw [hvq] at hv
    exact hv
  have hpeek := H5P_set_peek_self w (if H5P_DEFAULT = gcpl_id then env.H5P_GROUP_CREATE_DEFAULT else gcpl_id) H5VL_PROP_GRP_LCPL_ID (if H5P_DEFAULT = lcpl_id then env.H5P_LINK_CREATE_DEFAULT else lcpl_id) hset
  cases hpl : H5I_object_plist w (if H5P_DEFAULT = gcpl_id then env.H5P_GROUP_CREATE_DEFAULT else gcpl_id) with
  | none =>
    have hlt : (H5P_set w (if H5P_DEFAULT = gcpl_id then env.H5P_GROUP_CREATE_DEFAULT else gcpl_id) H5VL_PROP_GRP_LCPL_ID (if H5P_DEFAULT = lcpl_id then env.H5P_LINK_CREATE_DEFAULT else lcpl_id)).1 < 0 := by
      unfold H5I_object_plist at hpl
      simp [H5P_set, hpl, FAIL]
    exact absurd hlt hset
  | some pl =>
  cases hobj : H5I_object w loc_id with
  | none =>
    have hobj' := hobj
    rw [← H5I_object_H5P_set w (if H5P_DEFAULT = gcpl_id then env.H5P_GROUP_CREATE_DEFAULT else gcpl_id) H5VL_PROP_GRP_LCPL_ID (if H5P_DEFAULT = lcpl_id then env.H5P_LINK_CREATE_DEFAULT else lcpl_id)] at hobj'
    have hr : H5Gcreate2 env w loc_id (some nm) lcpl_id gcpl_id gapl_id =
        (H5I_INVALID_HID, (H5P_set w (if H5P_DEFAULT = gcpl_id then env.H5P_GROUP_CREATE_DEFAULT else gcpl_id) H5VL_PROP_GRP_LCPL_ID (if H5P_DEFAULT = lcpl_id then env.H5P_LINK_CREATE_DEFAULT else lcpl_id)).2) := by
      simp [H5Gcreate2, H5Gcreate2_body, H5G_done, hnm, hl', hg', hvq, hst, hpl, hset, hobj']
    rw [hr]
    exact ⟨rfl, hpeek⟩
  | some obj =>
    have hobj' := hobj
    rw [← H5I_object_H5P_set w (if H5P_DEFAULT = gcpl_id then env.H5P_GROUP_CREATE_DEFAULT else gcpl_id) H5VL_PROP_GRP_LCPL_ID (if H5P_DEFAULT = lcpl_id then env.H5P_LINK_CREATE_DEFAULT else lcpl_id)] at hobj'
    rcases hfail with hf | hf
    · rw [hobj] at hf
      exact absurd hf (by simp)
    · have hcr := hf obj.vol_obj
        { type := H5VL_OBJECT_BY_SELF,
          obj_type := H5I_get_type (H5P_set w (if H5P_DEFAULT = gcpl_id then env.H5P_GROUP_CREATE_DEFAULT else gcpl_id) H5VL_PROP_GRP_LCPL_ID (if H5P_DEFAULT = lcpl_id then env.H5P_LINK_CREATE_DEFAULT else lcpl_id)).2 loc_id,
          loc_data := H5VL_loc_data_t.unset }
        obj.vol_info.vol_cls (if H5P_DEFAULT = gcpl_id then env.H5P_GROUP_CREATE_DEFAULT else gcpl_id) gapl' dxpl' H5_REQUEST_NULL
        (H5P_set w (if H5P_DEFAULT = gcpl_id then env.H5P_GROUP_CREATE_DEFAULT else gcpl_id) H5VL_PROP_GRP_LCPL_ID (if H5P_DEFAULT = lcpl_id then env.H5P_LINK_CREATE_DEFAULT else lcpl_id)).2
      have hr : H5Gcreate2 env w loc_id (some nm) lcpl_id gcpl_id gapl_id =
          (H5I_INVALID_HID,
            { (H5P_set w (if H5P_DEFAULT = gcpl_id then env.H5P_GROUP_CREATE_DEFAULT else gcpl_id) H5VL_PROP_GRP_LCPL_ID (if H5P_DEFAULT = lcpl_id then env.H5P_LINK_CREATE_DEFAULT else lcpl_id)).2 with
              trace := (H5P_set w (if H5P_DEFAULT = gcpl_id then env.H5P_GROUP_CREATE_DEFAULT else gcpl_id) H5VL_PROP_GRP_LCPL_ID (if H5P_DEFAULT = lcpl_id then env.H5P_LINK_CREATE_DEFAULT else lcpl_id)).2.trace ++
                [Event.group_create obj.vol_obj
                  { type := H5VL_OBJECT_BY_SELF,
                    obj_type := H5I_get_type (H5P_set w (if H5P_DEFAULT = gcpl_id then env.H5P_GROUP_CREATE_DEFAULT else gcpl_id) H5VL_PROP_GRP_LCPL_ID (if H5P_DEFAULT = lcpl_id then env.H5P_LINK_CREATE_DEFAULT else lcpl_id)).2
                      loc_id,
                    loc_data := H5VL_loc_data_t.unset }
                  obj.vol_info.vol_cls (some nm) (if H5P_DEFAULT = gcpl_id then env.H5P_GROUP_CREATE_DEFAULT else gcpl_id) gapl' dxpl' H5_REQUEST_NULL none] }) := by
        simp [H5Gcreate2, H5Gcreate2_body, H5G_done, H5VL_group_create, hnm, hl', hg', hvq,
          hst, hpl, hset, hobj', hcr]
      rw [hr]
      exact ⟨rfl, hpeek⟩

/-- C17 on `w0`: with the unresolvable location `99`, and with the file handle
`1` and a connector whose `create` fails, the call returns `H5I_INVALID_HID`
and the default group-creation list `202`, which embedded `201` before, embeds
the link-creation list `77` of the call afterwards. -/
theorem C17_property_set_survives_failure_witness :
    H5P_peek w0 202 H5VL_PROP_GRP_LCPL_ID = some 201 ∧
    ((H5Gcreate2 env0 w0 99 (some "grp") 77 0 0).1 = H5I_INVALID_HID ∧
      H5P_peek (H5Gcreate2 env0 w0 99 (some "grp") 77 0 0).2 202 H5VL_PROP_GRP_LCPL_ID
        = some 77) ∧
    ((H5Gcreate2 envCreateFail w0 1 (some "grp") 77 0 0).1 = H5I_INVALID_HID ∧
      H5P_peek (H5Gcreate2 envCreateFail w0 1 (some "grp") 77 0 0).2 202
        H5VL_PROP_GRP_LCPL_ID = some 77) :=
  ⟨by decide,
   C17_property_set_survives_failure env0 w0 99 "grp" 77 0 0 (by decide)
     (Or.inr (by decide)) (Or.inl rfl) (by decide) (by decide) (Or.inl (by decide)),
   C17_property_set_survives_failure envCreateFail w0 1 "grp" 77 0 0 (by decide)
     (Or.inr (by decide)) (Or.inl rfl) (by decide) (by decide)
     (Or.inr (fun _ _ _ _ _ _ _ _ => rfl))⟩

/-- C11 on `w0`: the three queries on the file handle `1` reach the connector,
each with one `get` whose location parameter has the shape of its mode. -/
theorem C11_get_info_location_parameter_witness :
    (H5Gget_info env0 w0 1 (some 5)).2.trace ≠ w0.trace ∧
    (H5Gget_info_by_name env0 w0 1 (some "grp") (some 5) 0).2.trace ≠ w0.trace ∧
    (H5Gget_info_by_idx env0 w0 1 (some "grp") 1 0 4 (some 5) 0).2.trace ≠ w0.trace ∧
    (∃ obj nm info st lapl' dxpl' ret, H5I_object w0 1 = some obj ∧ some "grp" = some nm ∧
        some 5 = some info ∧
        env0.H5P_verify_apl_and_dxpl w0 0 H5P_CLS_LACC env0.H5AC_ind_read_dxpl_id 1
          false = (st, lapl', dxpl') ∧
        (H5Gget_info_by_idx env0 w0 1 (some "grp") 1 0 4 (some 5) 0).2.trace
          = w0.trace ++
          [Event.group_get obj.vol_obj obj.vol_info.vol_cls H5VL_GROUP_GET_INFO
            dxpl' H5_REQUEST_NULL
            (H5VL_get_args.get_info
              { type := H5VL_OBJECT_BY_IDX, obj_type := H5I_get_type w0 1,
                loc_data := H5VL_loc_data_t.loc_by_idx nm 1 0 4 lapl' } info)
            ret]) :=
  ⟨by decide, by decide, by decide,
   (C11_get_info_location_parameter env0 w0 1 (some "grp") (some 5) 0 1 0 4).2.2
     (by decide)⟩

/-! ## Two-phase shutdown (C14, C15) -/

theorem H5I_nmembers_nonneg (w : World) (type : H5I_type_t) : 0 ≤ H5I_nmembers w type := by
  unfold H5I_nmembers
  exact Int.ofNat_nonneg _

/-- The finalizer touches nothing but the trace. -/
theorem H5G__close_group_flags (env : Env) (w : World) (grp : H5VL_object_t) :
    (H5G__close_group env w grp).2.H5G_top_package_initialize_s
      = w.H5G_top_package_initialize_s ∧
    (H5G__close_group env w grp).2.H5_PKG_INIT_VAR = w.H5_PKG_INIT_VAR := by
  simp only [H5G__close_group, H5VL_group_close, H5VL_free_object]
  split
  · exact ⟨rfl, rfl⟩
  · split <;> exact ⟨rfl, rfl⟩

/-- The registry's clear of the group class leaves the package flags alone. -/
theorem H5I_clear_loop_flags (env : Env) (force : Bool) (l : List (hid_t × H5I_id_info_t))
    (w : World) :
    (H5I_clear_loop (H5I_id_type_list env) H5I_GROUP force l w).2.H5G_top_package_initialize_s
      = w.H5G_top_package_initialize_s ∧
    (H5I_clear_loop (H5I_id_type_list env) H5I_GROUP force l w).2.H5_PKG_INIT_VAR
      = w.H5_PKG_INIT_VAR := by
  induction l generalizing w with
  | nil => exact ⟨rfl, rfl⟩
  | cons p t ih =>
    obtain ⟨id, e⟩ := p
    have hf := H5G__close_group_flags env w e.obj_ptr
    have ih' := ih (H5G__close_group env w e.obj_ptr).2
    simp only [H5I_clear_loop, H5I_id_type_list, H5I_GROUP_CLS, if_true]
    split
    · split
      · exact ⟨ih'.1.trans hf.1, ih'.2.trans hf.2⟩
      · exact ⟨ih'.1.trans hf.1, ih'.2.trans hf.2⟩
    · exact ih w

/-- The three cases of the drain phase. -/
theorem H5G_top_term_package_cases (env : Env) (w : World) :
    (w.H5G_top_package_initialize_s = true → 0 < H5I_nmembers w H5I_GROUP →
      H5G_top_term_package env w =
        (1, (H5I_clear_type (H5I_id_type_list env) w H5I_GROUP false false).2) ∧
      (H5G_top_term_package env w).2.H5G_top_package_initialize_s = true) ∧
    (w.H5G_top_package_initialize_s = true → H5I_nmembers w H5I_GROUP = 0 →
      H5G_top_term_package env w = (0, { w with H5G_top_package_initialize_s := false })) ∧
    (w.H5G_top_package_initialize_s = false → H5G_top_term_package env w = (0, w)) := by
  refine ⟨fun ht hn => ?_, fun ht hn => ?_, fun ht => ?_⟩
  · have heq : H5G_top_term_package env w =
        (1, (H5I_clear_type (H5I_id_type_list env) w H5I_GROUP false false).2) := by
      simp [H5G_top_term_package, ht, hn]
    refine ⟨heq, ?_⟩
    rw [heq]
    simp only [H5I_clear_type]
    exact (H5I_clear_loop_flags env false w.ids w).1.trans ht
  · simp [H5G_top_term_package, ht, hn]
  · simp [H5G_top_term_package, ht]

/-- C15, as stated, fails: on `w0`, whose top-level flag is set and whose group
handle `2` is live, the drain phase returns `1` after a registry clear
requested with force disabled; with a connector whose `close` fails the
handle is still live afterwards, whereas a forced clear would have released
it. -/
theorem C15_counterexample :
    w0.H5G_top_package_initialize_s = true ∧ 0 < H5I_nmembers w0 H5I_GROUP ∧
    H5G_top_term_package envCloseFail w0 =
      (1, (H5I_clear_type (H5I_id_type_list envCloseFail) w0 H5I_GROUP false false).2) ∧
    H5I_nmembers (H5G_top_term_package envCloseFail w0).2 H5I_GROUP = 1 ∧
    H5I_nmembers (H5I_clear_type (H5I_id_type_list envCloseFail) w0 H5I_GROUP true false).2
      H5I_GROUP = 0 ∧
    H5G_top_term_package envCloseFail w0 ≠
      (1, (H5I_clear_type (H5I_id_type_list envCloseFail) w0 H5I_GROUP true false).2) := by
  decide

/-- C15, amended: when the top-level flag is set and at least one group handle
is live, `H5G_top_term_package` requests the registry's clear of the group
class with force disabled (`H5I_clear_type (H5I_GROUP, FALSE, FALSE)`), leaves
the flag set and returns `1`; when the flag is set and no group handle is live
it clears the flag, changes nothing else and returns `0`; when the flag is not
set it changes nothing and returns `0`. -/
theorem C15_drain_requests_unforced_clear (env : Env) (w : World) :
    (w.H5G_top_package_initialize_s = true → 0 < H5I_nmembers w H5I_GROUP →
      H5G_top_term_package env w =
        (1, (H5I_clear_type (H5I_id_type_list env) w H5I_GROUP false false).2) ∧
      (H5G_top_term_package env w).2.H5G_top_package_initialize_s = true) ∧
    (w.H5G_top_package_initialize_s = true → H5I_nmembers w H5I_GROUP = 0 →
      H5G_top_term_package env w = (0, { w with H5G_top_package_initialize_s := false })) ∧
    (w.H5G_top_package_initialize_s = false → H5G_top_term_package env w = (0, w)) :=
  H5G_top_term_package_cases env w

/-- C15 on `w0`: the first drain finds the group handle `2`, returns `1` and
keeps the flag; run again on the world it leaves, the drain finds no group
handle, clears the flag and returns `0`. -/
theorem C15_drain_requests_unforced_clear_witness :
    ((H5G_top_term_package env0 w0).1 = 1 ∧
      (H5G_top_term_package env0 w0).2.H5G_top_package_initialize_s = true) ∧
    H5G_top_term_package env0 (H5G_top_term_package env0 w0).2 =
      (0, { (H5G_top_term_package env0 w0).2 with H5G_top_package_initialize_s := false }) :=
  ⟨⟨congrArg Prod.fst ((C15_drain_requests_unforced_clear env0 w0).1 rfl (by decide)).1,
    ((C15_drain_requests_unforced_clear env0 w0).1 rfl (by decide)).2⟩,
   (C15_drain_requests_unforced_clear env0 (H5G_top_term_package env0 w0).2).2.1
     (by decide) (by decide)⟩

/-- C14: let the drain phase `H5G_top_term_package` return `0` in a call that
found the top-level flag set, and let `w2` be a later world in which no group
handle was added and the flag was not touched.  Then both assertions of
`H5G_term_package` hold in `w2` (no live group handle, flag `FALSE`) and the
terminate phase runs to its end.  Moreover a drain call that finds the flag
set and a live group handle leaves the flag set. -/
theorem C14_terminate_assertions_after_drain (env : Env) (w w2 : World)
    (htop : w.H5G_top_package_initialize_s = true)
    (hret : (H5G_top_term_package env w).1 = 0)
    (hids : H5I_nmembers w2 H5I_GROUP ≤ H5I_nmembers (H5G_top_term_package env w).2 H5I_GROUP)
    (hflag : w2.H5G_top_package_initialize_s
      = (H5G_top_term_package env w).2.H5G_top_package_initialize_s) :
    (0 = H5I_nmembers w2 H5I_GROUP ∧ false = w2.H5G_top_package_initialize_s ∧
      (H5G_term_package env w2).isSome = true) ∧
    (∀ w' : World, w'.H5G_top_package_initialize_s = true → 0 < H5I_nmembers w' H5I_GROUP →
      (H5G_top_term_package env w').2.H5G_top_package_initialize_s = true ∧
      (H5G_top_term_package env w').1 = 1) := by
  obtain ⟨hlive, hnone, _⟩ := H5G_top_term_package_cases env w
  have hn0 : H5I_nmembers w H5I_GROUP = 0 := by
    by_contra hne
    have hpos : 0 < H5I_nmembers w H5I_GROUP :=
      lt_of_le_of_ne (H5I_nmembers_nonneg w H5I_GROUP) (fun h => hne h.symm)
    rw [(hlive htop hpos).1] at hret
    have h10 : (1 : Int) = 0 := hret
    exact absurd h10 (by decide)
  have heq := hnone htop hn0
  rw [heq] at hids hflag
  have hids' : H5I_nmembers w2 H5I_GROUP ≤ 0 := by
    have : H5I_nmembers { w with H5G_top_package_initialize_s := false } H5I_GROUP
        = H5I_nmembers w H5I_GROUP := rfl
    rw [this, hn0] at hids
    exact hids
  have hz : 0 = H5I_nmembers w2 H5I_GROUP :=
    le_antisymm (H5I_nmembers_nonneg w2 H5I_GROUP) hids'
  have hf : false = w2.H5G_top_package_initialize_s := by
    rw [hflag]
  refine ⟨⟨hz, hf, ?_⟩, fun w' ht hn => ?_⟩
  · unfold H5G_term_package
    by_cases hp : w2.H5_PKG_INIT_VAR = true
    · simp only [hp, if_true, hz.symm, hf.symm]
      simp only [not_true_eq_false, if_false]
      split <;> rfl
    · simp [hp]
  · obtain ⟨h1, h2⟩ := (H5G_top_term_package_cases env w').1 ht hn
    exact ⟨h2, by rw [h1]⟩

/-- C14 on the world the first drain of `w0` leaves (flag set, no group handle):
the second drain returns `0`, and terminate finds both assertions true. -/
theorem C14_terminate_assertions_after_drain_witness :
    (H5G_top_term_package env0 (H5G_top_term_package env0 w0).2).1 = 0 ∧
    H5I_nmembers (H5G_top_term_package env0 (H5G_top_term_package env0 w0).2).2 H5I_GROUP = 0 ∧
    (H5G_top_term_package env0 (H5G_top_term_package env0 w0).2).2.H5G_top_package_initialize_s
      = false ∧
    (H5G_term_package env0
      (H5G_top_term_package env0 (H5G_top_term_package env0 w0).2).2).isSome = true :=
  have h := (C14_terminate_assertions_after_drain env0 (H5G_top_term_package env0 w0).2
    (H5G_top_term_package env0 (H5G_top_term_package env0 w0).2).2
    (by decide) (by decide) (le_refl _) rfl).1
  ⟨by decide, h.1.symm, h.2.1.symm, h.2.2⟩

/-! ## The name grammar (C13) -/

theorem wellFormed_cons (c : List Char) (k : Nat) (rest : List (List Char × Nat))
    (h : WellFormedPieces ((c, k) :: rest)) :
    c ≠ [] ∧ '/' ∉ c ∧ WellFormedPieces rest ∧ (rest ≠ [] → 1 ≤ k) := by
  cases rest with
  | nil => exact ⟨h.1, h.2, trivial, fun hne => absurd rfl hne⟩
  | cons p ps => exact ⟨h.1, h.2.1, h.2.2.2, fun _ => h.2.2.1⟩

theorem H5G_scan_component (c t : List Char) (hc : '/' ∉ c) :
    H5G_scan (c ++ t) = (c ++ (H5G_scan t).1, (H5G_scan t).2) := by
  induction c with
  | nil => rfl
  | cons x c ih =>
    have hx : x ≠ '/' := fun e => hc (by simp [e])
    have hc' : '/' ∉ c := fun hm => hc (List.mem_cons_of_mem _ hm)
    simp [H5G_scan, hx, ih hc']

theorem H5G_scan_cons_slash (t : List Char) :
    H5G_scan ('/' :: t) = ([], H5G_components t) := by
  simp [H5G_scan, H5G_components]

theorem H5G_components_of_scan (t : List Char) (x : List (List Char))
    (h : H5G_scan t = ([], x)) : H5G_components t = x := by
  rw [H5G_components, h]
  rfl

theorem H5G_scan_slashes (k : Nat) (t : List Char) (h : 1 ≤ k ∨ t = []) :
    H5G_scan (slashes k ++ t) = ([], H5G_components t) := by
  induction k with
  | zero =>
    rcases h with h | h
    · omega
    · subst h
      rfl
  | succ k ih =>
    have hs : slashes (k + 1) ++ t = '/' :: (slashes k ++ t) := rfl
    rw [hs, H5G_scan_cons_slash]
    cases k with
    | zero => rfl
    | succ k =>
      rw [H5G_components_of_scan _ _ (ih (Or.inl (by omega)))]

theorem H5G_components_slashes (k : Nat) (t : List Char) :
    H5G_components (slashes k ++ t) = H5G_components t := by
  cases k with
  | zero => rfl
  | succ k => exact H5G_components_of_scan _ _ (H5G_scan_slashes (k + 1) t (Or.inl (by omega)))

theorem H5G_components_body (ps : List (List Char × Nat)) (h : WellFormedPieces ps) :
    H5G_components (buildBody ps) = ps.map Prod.fst := by
  induction ps with
  | nil => rfl
  | cons p rest ih =>
    obtain ⟨c, k⟩ := p
    obtain ⟨hne, hns, hrest, hk⟩ := wellFormed_cons c k rest h
    have hsl : H5G_scan (slashes k ++ buildBody rest) = ([], H5G_components (buildBody rest)) := by
      apply H5G_scan_slashes
      cases rest with
      | nil => exact Or.inr rfl
      | cons q qs => exact Or.inl (hk (by simp))
    show H5G_components (c ++ (slashes k ++ buildBody rest)) = c :: rest.map Prod.fst
    rw [H5G_components, H5G_scan_component _ _ hns, hsl]
    simp only [List.append_nil, hne, if_false, ih hrest]

theorem buildBody_head (ps : List (List Char × Nat)) (h : WellFormedPieces ps) :
    (buildBody ps).head? ≠ some '/' := by
  cases ps with
  | nil => simp [buildBody]
  | cons p rest =>
    obtain ⟨c, k⟩ := p
    obtain ⟨hne, hns, _, _⟩ := wellFormed_cons c k rest h
    cases c with
    | nil => exact absurd rfl hne
    | cons x c =>
      have hx : x ≠ '/' := fun e => hns (by simp [e])
      simp [buildBody, hx]

theorem collapse_component (c t : List Char) (hc : '/' ∉ c) :
    collapseSeparators (c ++ t) = c ++ collapseSeparators t := by
  induction c with
  | nil => rfl
  | cons x c ih =>
    have hx : x ≠ '/' := fun e => hc (by simp [e])
    have hc' : '/' ∉ c := fun hm => hc (List.mem_cons_of_mem _ hm)
    simp [collapseSeparators, hx, ih hc']

theorem collapse_slashes (k : Nat) (t : List Char) (ht : t.head? ≠ some '/') :
    collapseSeparators (slashes (k + 1) ++ t) = '/' :: collapseSeparators t := by
  induction k with
  | zero =>
    show collapseSeparators ('/' :: t) = _
    simp [collapseSeparators, ht]
  | succ k ih =>
    have hs : slashes (k + 1 + 1) ++ t = '/' :: (slashes (k + 1) ++ t) := rfl
    have hh : (slashes (k + 1) ++ t).head? = some '/' := rfl
    rw [hs, collapseSeparators]
    simp only [hh, and_self, if_true]
    exact ih

theorem dropTrailing_component (c : List Char) (hc : '/' ∉ c) :
    dropTrailingSeparator c = c := by
  induction c with
  | nil => rfl
  | cons x c ih =>
    have hx : x ≠ '/' := fun e => hc (by simp [e])
    have hc' : '/' ∉ c := fun hm => hc (List.mem_cons_of_mem _ hm)
    by_cases he : c = []
    · simp [dropTrailingSeparator, he, hx]
    · simp [dropTrailingSeparator, he, ih hc']

theorem dropTrailing_append (a x : List Char) (hx : x ≠ []) :
    dropTrailingSeparator (a ++ x) = a ++ dropTrailingSeparator x := by
  induction a with
  | nil => rfl
  | cons y a ih =>
    have hne : a ++ x ≠ [] := by simp [hx]
    simp [dropTrailingSeparator, hne, ih]

theorem dropTrailing_slash (c : List Char) :
    dropTrailingSeparator (c ++ ['/']) = c := by
  rw [dropTrailing_append c ['/'] (by simp)]
  simp [dropTrailingSeparator]

theorem split_component (c : List Char) (hc : '/' ∉ c) : splitOnSeparator c = [c] := by
  induction c with
  | nil => rfl
  | cons x c ih =>
    have hx : x ≠ '/' := fun e => hc (by simp [e])
    have hc' : '/' ∉ c := fun hm => hc (List.mem_cons_of_mem _ hm)
    simp [splitOnSeparator, hx, ih hc']

theorem split_component_slash (c t : List Char) (hc : '/' ∉ c) :
    splitOnSeparator (c ++ '/' :: t) = c :: splitOnSeparator t := by
  induction c with
  | nil => simp [splitOnSeparator]
  | cons x c ih =>
    have hx : x ≠ '/' := fun e => hc (by simp [e])
    have hc' : '/' ∉ c := fun hm => hc (List.mem_cons_of_mem _ hm)
    simp [splitOnSeparator, hx, ih hc']

theorem split_join (cs : List (List Char)) (hne : cs ≠ []) (hs : ∀ c ∈ cs, '/' ∉ c) :
    splitOnSeparator (joinComponents cs) = cs := by
  induction cs with
  | nil => exact absurd rfl hne
  | cons c rest ih =>
    have hc : '/' ∉ c := hs c (by simp)
    cases rest with
    | nil => exact split_component c hc
    | cons d r =>
      show splitOnSeparator (c ++ '/' :: joinComponents (d :: r)) = _
      rw [split_component_slash _ _ hc, ih (by simp) (fun x hx => hs x (List.mem_cons_of_mem _ hx))]

theorem wellFormed_components (ps : List (List Char × Nat)) (h : WellFormedPieces ps) :
    ∀ c ∈ ps.map Prod.fst, c ≠ [] ∧ '/' ∉ c := by
  induction ps with
  | nil => simp
  | cons p rest ih =>
    obtain ⟨c, k⟩ := p
    obtain ⟨hne, hns, hrest, _⟩ := wellFormed_cons c k rest h
    intro x hx
    simp only [List.map_cons, List.mem_cons] at hx
    rcases hx with hx | hx
    · rw [hx]
      exact ⟨hne, hns⟩
    · exact ih hrest x hx

/-- After collapsing and dropping the trailing separator, the body of a built
name is its components joined by single separators. -/
theorem dropTrailing_collapse_body (ps : List (List Char × Nat)) (h : WellFormedPieces ps)
    (hne : ps ≠ []) :
    dropTrailingSeparator (collapseSeparators (buildBody ps)) =
      joinComponents (ps.map Prod.fst) ∧
    collapseSeparators (buildBody ps) ≠ [] := by
  induction ps with
  | nil => exact absurd rfl hne
  | cons p rest ih =>
    obtain ⟨c, k⟩ := p
    obtain ⟨hcne, hns, hrest, hk⟩ := wellFormed_cons c k rest h
    have hcol : collapseSeparators (buildBody ((c, k) :: rest)) =
        c ++ collapseSeparators (slashes k ++ buildBody rest) :=
      collapse_component c _ hns
    have hnonempty : collapseSeparators (buildBody ((c, k) :: rest)) ≠ [] := by
      rw [hcol]
      simp [hcne]
    refine ⟨?_, hnonempty⟩
    rw [hcol]
    cases rest with
    | nil =>
      cases k with
      | zero =>
        show dropTrailingSeparator (c ++ collapseSeparators []) = c
        simp [collapseSeparators, dropTrailing_component c hns]
      | succ k =>
        have h1 : collapseSeparators (slashes (k + 1) ++ buildBody []) = ['/'] :=
          collapse_slashes k [] (by simp)
        rw [h1]
        exact dropTrailing_slash c
    | cons q qs =>
      obtain ⟨ih1, ih2⟩ := ih hrest (by simp)
      have hk1 : 1 ≤ k := hk (by simp)
      obtain ⟨k', rfl⟩ : ∃ k', k = k' + 1 := ⟨k - 1, by omega⟩
      have h1 : collapseSeparators (slashes (k' + 1) ++ buildBody (q :: qs)) =
          '/' :: collapseSeparators (buildBody (q :: qs)) :=
        collapse_slashes k' _ (buildBody_head _ hrest)
      rw [h1]
      have h2 : c ++ '/' :: collapseSeparators (buildBody (q :: qs)) =
          (c ++ ['/']) ++ collapseSeparators (buildBody (q :: qs)) := by simp
      rw [h2, dropTrailing_append _ _ ih2, ih1]
      simp [joinComponents]

theorem joinComponents_head (c : List Char) (r : List (List Char)) (hne : c ≠ [])
    (hc : '/' ∉ c) :
    ∃ x t, joinComponents (c :: r) = x :: t ∧ x ≠ '/' := by
  cases c with
  | nil => exact absurd rfl hne
  | cons x c =>
    have hx : x ≠ '/' := fun e => hc (by simp [e])
    cases r with
    | nil => exact ⟨x, c, rfl, hx⟩
    | cons d r => exact ⟨x, c ++ '/' :: joinComponents (d :: r), rfl, hx⟩

/-- The spec pipeline on a built name with at least one component. -/
theorem specComponents_built (lead : Nat) (ps : List (List Char × Nat))
    (h : WellFormedPieces ps) (hne : ps ≠ []) :
    specComponents (buildName lead ps) = ps.map Prod.fst := by
  obtain ⟨hdt, hcne⟩ := dropTrailing_collapse_body ps h hne
  have hcomp := wellFormed_components ps h
  obtain ⟨x, t, hj, hx⟩ : ∃ x t, joinComponents (ps.map Prod.fst) = x :: t ∧ x ≠ '/' := by
    cases ps with
    | nil => exact absurd rfl hne
    | cons p rest =>
      have hp := hcomp p.1 (by simp)
      exact joinComponents_head p.1 (rest.map Prod.fst) hp.1 hp.2
  have hmapne : ps.map Prod.fst ≠ [] := by
    cases ps with
    | nil => exact absurd rfl hne
    | cons p rest => simp
  have hsplit : splitOnSeparator (x :: t) = ps.map Prod.fst := by
    rw [← hj]
    exact split_join _ hmapne (fun c hc => (hcomp c hc).2)
  have hstage : dropLeadingSeparator (dropTrailingSeparator
      (collapseSeparators (buildName lead ps))) = x :: t := by
    cases lead with
    | zero =>
      show dropLeadingSeparator (dropTrailingSeparator (collapseSeparators (buildBody ps))) = _
      rw [hdt, hj]
      simp [dropLeadingSeparator, hx]
    | succ l =>
      have h1 : collapseSeparators (buildName (l + 1) ps) =
          '/' :: collapseSeparators (buildBody ps) :=
        collapse_slashes l _ (buildBody_head ps h)
      have h2 : '/' :: collapseSeparators (buildBody ps) =
          ['/'] ++ collapseSeparators (buildBody ps) := rfl
      rw [h1, h2, dropTrailing_append _ _ hcne, hdt, hj]
      simp [dropLeadingSeparator]
  unfold specComponents
  rw [hstage]
  simp [hsplit]

/-- C13: for every string built from non-empty, separator-free components
joined by one or more `/`, with any number of leading and trailing `/`, the
name resolver yields exactly those components, which is also what the spec
pipeline (collapse repeated separators, drop a trailing separator, split on
`/`) yields; the name is classified absolute exactly when it has a leading
`/`; `/` alone denotes the root and `.` the starting location. -/
theorem C13_name_grammar (lead : Nat) (ps : List (List Char × Nat))
    (h : WellFormedPieces ps) :
    (H5G_resolve_name (buildName lead ps)).components = ps.map Prod.fst ∧
    specComponents (buildName lead ps) = (H5G_resolve_name (buildName lead ps)).components ∧
    ((H5G_resolve_name (buildName lead ps)).absolute = true ↔ 0 < lead) ∧
    H5G_name_target (H5G_resolve_name ['/']) = H5G_target.root ∧
    H5G_name_target (H5G_resolve_name ['.']) = H5G_target.start := by
  have hcomp : (H5G_resolve_name (buildName lead ps)).components = ps.map Prod.fst := by
    show H5G_components (slashes lead ++ buildBody ps) = _
    rw [H5G_components_slashes, H5G_components_body ps h]
  refine ⟨hcomp, ?_, ?_, by decide, by decide⟩
  · rw [hcomp]
    by_cases hne : ps = []
    · subst hne
      cases lead with
      | zero => rfl
      | succ l =>
        have h1 : collapseSeparators (buildName (l + 1) []) = ['/'] :=
          collapse_slashes l [] (by simp)
        simp [specComponents, h1, dropTrailingSeparator, dropLeadingSeparator]
    · exact specComponents_built lead ps h hne
  · cases lead with
    | zero =>
      have hb := buildBody_head ps h
      have hh : (buildName 0 ps).head? ≠ some '/' := hb
      simp [H5G_resolve_name, hh]
    | succ l =>
      have hh : (buildName (l + 1) ps).head? = some '/' := rfl
      simp [H5G_resolve_name, hh]

/-- C13 on the name `//foo///bar/`: two leading separators, `foo` followed by
three separators and `bar` followed by one. -/
theorem C13_name_grammar_witness :
    buildName 2 [(['f', 'o', 'o'], 3), (['b', 'a', 'r'], 1)] = "//foo///bar/".toList ∧
    (H5G_resolve_name "//foo///bar/".toList).components
      = [['f', 'o', 'o'], ['b', 'a', 'r']] ∧
    specComponents "//foo///bar/".toList = [['f', 'o', 'o'], ['b', 'a', 'r']] ∧
    (H5G_resolve_name "//foo///bar/".toList).absolute = true :=
  have h := C13_name_grammar 2 [(['f', 'o', 'o'], 3), (['b', 'a', 'r'], 1)]
    ⟨by decide, by decide, by decide, by decide, by decide⟩
  ⟨by decide, h.1, h.2.1.trans h.1, h.2.2.1.mpr (by decide)⟩

end H5G
